import Mathlib

/-! Theme manager, favourites store and plugin browser of the LMMS GUI layer.

A shallow embedding of `src/gui/ThemeManager.cpp`, `src/gui/FavoritesManager.cpp`,
the slot `ThemePreviewDialog::applyTheme`, the constructor, destructor and
`childDestroyed` of `GuiApplication`, the function `convertPixmapToGrayScale` of
`src/gui/widgets/Knob.cpp` and the slots of `src/gui/PluginBrowser.cpp`, followed
by the properties established about them.

Conventions of the embedding

* A member function of a singleton becomes a function on a record holding the
  member fields (`self`) and the part of the process and of the disk it touches
  (`world`).
* Qt library routines whose exact behaviour is not part of this repository
  (JSON parsing and printing, UTF-8 decoding, `QVariant` conversion, the
  iteration order of a `QSet`) are fields of the records `Qt` and `QVariantOps`;
  the type held by a `QVariant` is the type parameter `V`.
* `QString` is `String`, `QByteArray` is a list of bytes, `QSet<QString>` is a
  `Finset String`, `QMap<QString, T>` is an `AList` (one binding per key) and
  `QJsonObject` is a list of members read and written by key.
* The condition `m_favorites.insert(pluginId)` of `addFavorite` tests an
  iterator, for which Qt has no truth value; its value is the field
  `insertCondition` of `Qt`, and what depends on it says so.
* The plugin tree is the list of its top-level items; an item carries its text,
  its hidden flag, the widget set on it and its children.
* The small accessors of the JSON classes (`isNull`, `object`, `array`,
  `toBool`, `toString`, the two `operator[]` of `QJsonObject`) follow the Qt
  documentation.
-/

namespace lmms.gui

abbrev QString := String

abbrev QByteArray := List UInt8

/-! ## Qt value types -/

/-- JSON values as held by `QJsonValue`; a finite double is a rational. -/
inductive QJsonValue where
  | null : QJsonValue
  | bool (b : Bool) : QJsonValue
  | double (d : ℚ) : QJsonValue
  | string (s : QString) : QJsonValue
  | array (items : List QJsonValue) : QJsonValue
  | object (members : List (QString × QJsonValue)) : QJsonValue
  | undefined : QJsonValue

abbrev QJsonArray := List QJsonValue

abbrev QJsonObject := List (QString × QJsonValue)

/-- The result of `QJsonDocument::fromJson`: null when the text does not parse. -/
inductive QJsonDocument where
  | null : QJsonDocument
  | array (a : QJsonArray) : QJsonDocument
  | object (o : QJsonObject) : QJsonDocument

/-- Keyed lookup in a `QJsonObject`. -/
def assocFind {α : Type} (k : QString) : List (QString × α) → Option α
  | [] => none
  | (k1, v1) :: rest => if k1 = k then some v1 else assocFind k rest

/-- The assignment `m[k] = v`: replaces the binding of `k` or adds one. -/
def assocSet {α : Type} (k : QString) (v : α) : List (QString × α) → List (QString × α)
  | [] => [(k, v)]
  | (k1, v1) :: rest => if k1 = k then (k, v) :: rest else (k1, v1) :: assocSet k v rest

/-- A `QMap<QString, T>`: finitely many bindings, one per key. -/
abbrev QMap (α : Type) := AList (fun _ : QString => α)

/-- The call `QJsonObject::operator[]` on a constant object (it is `value(key)`):
`undefined` for a missing key. -/
def QJsonObject.at (o : QJsonObject) (k : QString) : QJsonValue :=
  (assocFind k o).getD QJsonValue.undefined

/-- The call `QJsonObject::operator[]` on an object that is not constant. Qt
documents it as: "Returns a reference to the value for key. If there is no value
with key key in the object, one is created with a QJsonValue::Null value and
then returned." The result is the object after the call and the value referred to. -/
def QJsonObject.ref (o : QJsonObject) (k : QString) : QJsonObject × QJsonValue :=
  match assocFind k o with
  | some v => (o, v)
  | none => (assocSet k QJsonValue.null o, QJsonValue.null)

/-- The call `QJsonValue::toBool(defaultValue)`. -/
def QJsonValue.toBool (v : QJsonValue) (defaultValue : Bool) : Bool :=
  match v with
  | QJsonValue.bool b => b
  | _ => defaultValue

/-- The call `QJsonValue::toString()`: the empty string unless the value is a string. -/
def QJsonValue.toString (v : QJsonValue) : QString :=
  match v with
  | QJsonValue.string s => s
  | _ => ""

/-- The call `QJsonDocument::isNull`. -/
def QJsonDocument.isNull : QJsonDocument → Bool
  | QJsonDocument.null => true
  | _ => false

/-- The call `QJsonDocument::object`: the empty object unless the document holds an object. -/
def QJsonDocument.toObject : QJsonDocument → QJsonObject
  | QJsonDocument.object o => o
  | _ => []

/-- The call `QJsonDocument::array`: the empty array unless the document holds an array. -/
def QJsonDocument.toArray : QJsonDocument → QJsonArray
  | QJsonDocument.array a => a
  | _ => []

/-- Library routines of Qt used by the two managers. -/
structure Qt where
  /-- The routine `QString::fromUtf8`. -/
  fromUtf8 : QByteArray → QString
  /-- The routine `QJsonDocument::fromJson`. -/
  fromJson : QByteArray → QJsonDocument
  /-- The routine `QJsonDocument::toJson`. -/
  toJson : QJsonDocument → QByteArray
  /-- The order in which a range-for visits a `QSet<QString>` -/
  setOrder : Finset QString → List QString
  setOrder_nodup : ∀ s, (setOrder s).Nodup
  mem_setOrder : ∀ s x, x ∈ setOrder s ↔ x ∈ s
  /-- The truth value of an expression `set.insert(value)` used as a condition,
  for the set before the insertion and the value. `QSet::insert` returns an
  iterator and Qt declares no conversion of it to `bool`, so neither Qt nor the
  sources fix this value. -/
  insertCondition : Finset QString → QString → Bool

/-- Conversions between `QVariant` (values of type `V`) and JSON. -/
structure QVariantOps (V : Type) where
  /-- A default-constructed `QVariant`. -/
  invalid : V
  /-- The routine `QJsonValue::fromVariant`. -/
  fromVariant : V → QJsonValue
  /-- The routine `QJsonValue::toVariant`. -/
  toVariant : QJsonValue → V

/-! ## The world outside the managers -/

/-- Signals of `ThemeManager` and `FavoritesManager`. -/
inductive Signal (V : Type) where
  | themeChanged (themeName : QString) : Signal V
  | themePreviewStarted (themeName : QString) : Signal V
  | themePreviewEnded : Signal V
  | themePropertyChanged (property : QString) (value : V) : Signal V
  | favoritesChanged (pluginId : QString) : Signal V

/-- Messages sent to `qWarning()`. -/
inductive Warning where
  | themeDirectoryNotFound (themePath : QString) : Warning
  | couldNotOpenThemeConfig (fileName : QString) : Warning
  | invalidThemeConfigJson (fileName : QString) : Warning
  | couldNotOpenThemeStyleSheet (fileName : QString) : Warning
  | failedToLoadTheme (themeName : QString) : Warning

/-- The disk: which directories exist, which files open for reading (with their
content) and which open for writing. -/
structure FileSystem where
  dirExists : QString → Bool
  files : QString → Option QByteArray
  writable : QString → Bool

/-- Everything outside the manager objects that their member functions read or change. -/
structure World (V : Type) where
  /-- The value of `ConfigManager::dataDir()`. -/
  dataDir : QString
  /-- The value of `ConfigManager::userDataDir()`. -/
  userDataDir : QString
  fs : FileSystem
  /-- Paths passed to `QFile::open`, oldest first -/
  opened : List QString
  /-- Value set by `ConfigManager::setThemeDir` -/
  themeDir : QString
  /-- Pairs added by `QDir::addSearchPath`, oldest first -/
  searchPaths : List (QString × QString)
  /-- Triples stored by `ConfigManager::setValue`, oldest first -/
  configValues : List (QString × QString × QString)
  /-- The style sheet of `qApp` -/
  appStyleSheet : QString
  /-- How often style, palette and widgets were refreshed by `applyTheme` -/
  refreshes : Nat
  /-- Emitted signals, oldest first -/
  signals : List (Signal V)
  /-- Logged warnings, oldest first -/
  warnings : List Warning

/-- Opening a file read-only and reading all of it: `none` when `open` fails. -/
def World.readAll {V : Type} (w : World V) (path : QString) : Option QByteArray × World V :=
  (w.fs.files path, { w with opened := w.opened ++ [path] })

/-- Opening a file write-only and writing `bytes`: nothing is written when `open`
fails; a file that was written opens for reading afterwards. -/
def World.writeAll {V : Type} (w : World V) (path : QString) (bytes : QByteArray) : World V :=
  if w.fs.writable path then
    { w with
      opened := w.opened ++ [path]
      fs := { w.fs with files := fun p => if p = path then some bytes else w.fs.files p } }
  else
    { w with opened := w.opened ++ [path] }

/-- Appends a signal to the log of emitted signals. -/
def World.emit {V : Type} (w : World V) (sig : Signal V) : World V :=
  { w with signals := w.signals ++ [sig] }

/-- Appends a message to the warning log. -/
def World.qWarning {V : Type} (w : World V) (msg : Warning) : World V :=
  { w with warnings := w.warnings ++ [msg] }

/-! ## ThemeManager -/

/-- Member fields of `ThemeManager` (ThemeManager.h). -/
structure ThemeManager (V : Type) where
  m_currentTheme : QString
  m_previewTheme : QString
  m_themeStyleSheet : QString
  m_themeConfig : QJsonObject
  m_customProperties : QMap V
  m_isDarkMode : Bool
  m_isPreviewActive : Bool

/-- A `ThemeManager` together with the world it runs in. -/
structure ThemeState (V : Type) where
  self : ThemeManager V
  world : World V

variable {V : Type}

/-- The expression `ConfigManager::inst()->dataDir() + "themes/" + themeName + "/"`. -/
def themePathOf (w : World V) (themeName : QString) : QString :=
  w.dataDir ++ "themes/" ++ themeName ++ "/"

/-- Member function `ThemeManager::loadThemeConfig`. The member `m_themeConfig` is
not constant inside it, so `m_themeConfig["darkMode"]` is the `operator[]` that
returns a reference (`QJsonObject.ref`). -/
def ThemeManager.loadThemeConfig (qt : Qt) (themePath : QString) (s : ThemeState V) :
    Bool × ThemeState V :=
  let fileName := themePath ++ "theme.json"
  match s.world.readAll fileName with
  | (none, w1) =>
    (false, { s with world := w1.qWarning (Warning.couldNotOpenThemeConfig fileName) })
  | (some bytes, w1) =>
    let doc := qt.fromJson bytes
    if doc.isNull then
      (false, { s with world := w1.qWarning (Warning.invalidThemeConfigJson fileName) })
    else
      let darkMode := QJsonObject.ref doc.toObject "darkMode"
      (true, { self := { s.self with
                          m_themeConfig := darkMode.1
                          m_isDarkMode := darkMode.2.toBool true }
               world := w1 })

/-- Member function `ThemeManager::loadThemeStyleSheet`. -/
def ThemeManager.loadThemeStyleSheet (qt : Qt) (themePath : QString) (s : ThemeState V) :
    Bool × ThemeState V :=
  let fileName := themePath ++ "style.css"
  match s.world.readAll fileName with
  | (none, w1) =>
    (false, { s with world := w1.qWarning (Warning.couldNotOpenThemeStyleSheet fileName) })
  | (some bytes, w1) =>
    (true, { self := { s.self with m_themeStyleSheet := qt.fromUtf8 bytes }
             world := w1 })

/-- The condition `loadThemeConfig(themePath) && loadThemeStyleSheet(themePath)`:
the style sheet is only attempted when the configuration loaded. -/
def ThemeManager.loadConfigAndStyleSheet (qt : Qt) (themePath : QString) (s : ThemeState V) :
    Bool × ThemeState V :=
  match ThemeManager.loadThemeConfig qt themePath s with
  | (false, s1) => (false, s1)
  | (true, s1) => ThemeManager.loadThemeStyleSheet qt themePath s1

/-- Member function `ThemeManager::loadTheme`. -/
def ThemeManager.loadTheme (qt : Qt) (themeName : QString) (s : ThemeState V) :
    Bool × ThemeState V :=
  let themePath := themePathOf s.world themeName
  if s.world.fs.dirExists themePath = false then
    (false, { s with world := s.world.qWarning (Warning.themeDirectoryNotFound themePath) })
  else
    let loaded := ThemeManager.loadConfigAndStyleSheet qt themePath s
    let s1 := loaded.2
    if loaded.1 = false then
      (false, { s1 with world := s1.world.qWarning (Warning.failedToLoadTheme themeName) })
    else
      let w2 := { s1.world with
                  themeDir := themePath
                  searchPaths := s1.world.searchPaths ++ [("artwork", themePath ++ "artwork/")] }
      (true, { self := { s1.self with m_currentTheme := themeName }
               world := w2.emit (Signal.themeChanged themeName) })

/-- Member function `ThemeManager::currentTheme`. -/
def ThemeManager.currentTheme (s : ThemeState V) : QString :=
  s.self.m_currentTheme

/-- Member function `ThemeManager::themeStyleSheet`. -/
def ThemeManager.themeStyleSheet (s : ThemeState V) : QString :=
  s.self.m_themeStyleSheet

/-- Member function `ThemeManager::themeConfig`. -/
def ThemeManager.themeConfig (s : ThemeState V) : QJsonObject :=
  s.self.m_themeConfig

/-- Member function `ThemeManager::isDarkMode`. -/
def ThemeManager.isDarkMode (s : ThemeState V) : Bool :=
  s.self.m_isDarkMode

/-- Member function `ThemeManager::isPreviewActive`. -/
def ThemeManager.isPreviewActive (s : ThemeState V) : Bool :=
  s.self.m_isPreviewActive

/-- Member function `ThemeManager::applyTheme`: the style sheet held by the manager
becomes the application style sheet; style, palette and widgets are refreshed. -/
def ThemeManager.applyTheme (s : ThemeState V) : ThemeState V :=
  { s with world := { s.world with
                      appStyleSheet := s.self.m_themeStyleSheet
                      refreshes := s.world.refreshes + 1 } }

/-- Member function `ThemeManager::previewTheme`. -/
def ThemeManager.previewTheme (qt : Qt) (themeName : QString) (s : ThemeState V) :
    ThemeState V :=
  if themeName = s.self.m_currentTheme ∨ themeName = "" then
    s
  else
    let s1 : ThemeState V :=
      { s with self := { s.self with m_previewTheme := themeName, m_isPreviewActive := true } }
    let themePath := themePathOf s1.world themeName
    let loaded := ThemeManager.loadConfigAndStyleSheet qt themePath s1
    let s2 := loaded.2
    if loaded.1 = true then
      ThemeManager.applyTheme
        { s2 with world := s2.world.emit (Signal.themePreviewStarted themeName) }
    else
      s2

/-- Member function `ThemeManager::cancelPreview`. -/
def ThemeManager.cancelPreview (qt : Qt) (s : ThemeState V) : ThemeState V :=
  if s.self.m_isPreviewActive = false then
    s
  else
    let s1 : ThemeState V :=
      { s with self := { s.self with m_isPreviewActive := false, m_previewTheme := "" } }
    let themePath := themePathOf s1.world s1.self.m_currentTheme
    let loaded := ThemeManager.loadConfigAndStyleSheet qt themePath s1
    let s2 := loaded.2
    if loaded.1 = true then
      ThemeManager.applyTheme { s2 with world := s2.world.emit Signal.themePreviewEnded }
    else
      s2

/-- The loop of `ThemeManager::saveThemeCustomizations` that fills the JSON object. -/
def ThemeManager.customizationsToJson (ops : QVariantOps V) (m : QMap V) : QJsonObject :=
  m.entries.foldl (fun o e => assocSet e.1 (ops.fromVariant e.2) o) []

/-- Member function `ThemeManager::saveThemeCustomizations`. -/
def ThemeManager.saveThemeCustomizations (qt : Qt) (ops : QVariantOps V) (s : ThemeState V) :
    ThemeState V :=
  let customizations := ThemeManager.customizationsToJson ops s.self.m_customProperties
  let doc := QJsonDocument.object customizations
  let themePath := themePathOf s.world s.self.m_currentTheme
  { s with world := s.world.writeAll (themePath ++ "custom.json") (qt.toJson doc) }

/-- The loop of `ThemeManager::loadThemeCustomizations` that refills the cleared map. -/
def ThemeManager.customizationsOfJson (ops : QVariantOps V) (customizations : QJsonObject) :
    QMap V :=
  customizations.foldl (fun m kv => m.insert kv.1 (ops.toVariant kv.2)) ∅

/-- Member function `ThemeManager::loadThemeCustomizations`. -/
def ThemeManager.loadThemeCustomizations (qt : Qt) (ops : QVariantOps V) (s : ThemeState V) :
    ThemeState V :=
  let themePath := themePathOf s.world s.self.m_currentTheme
  match s.world.readAll (themePath ++ "custom.json") with
  | (none, w1) => { s with world := w1 }
  | (some bytes, w1) =>
    let customizations := (qt.fromJson bytes).toObject
    { self := { s.self with
                m_customProperties := ThemeManager.customizationsOfJson ops customizations }
      world := w1 }

/-- Member function `ThemeManager::setThemeProperty`; `!=` on `QVariant` is read as
inequality of the held values. -/
def ThemeManager.setThemeProperty [DecidableEq V] (qt : Qt) (ops : QVariantOps V)
    (property : QString) (value : V) (s : ThemeState V) : ThemeState V :=
  if (s.self.m_customProperties.lookup property).isSome = false ∨
      s.self.m_customProperties.lookup property ≠ some value then
    let s1 : ThemeState V :=
      { self := { s.self with
                  m_customProperties := s.self.m_customProperties.insert property value }
        world := s.world.emit (Signal.themePropertyChanged property value) }
    ThemeManager.applyTheme (ThemeManager.saveThemeCustomizations qt ops s1)
  else
    s

/-- Member function `ThemeManager::themeProperty`. -/
def ThemeManager.themeProperty (ops : QVariantOps V) (property : QString) (s : ThemeState V) :
    V :=
  (s.self.m_customProperties.lookup property).getD ops.invalid

/-- Member function `ThemeManager::customizableProperties`. -/
def ThemeManager.customizableProperties : List QString :=
  ["primaryColor", "secondaryColor", "backgroundColor", "textColor", "accentColor",
   "borderRadius", "fontSize", "spacing"]

/-- The constructor `ThemeManager::ThemeManager`: member initialisers, then
`initializeDefaultTheme()` (which calls `loadTheme("default")` and drops its
result), then `loadThemeCustomizations()`. -/
def ThemeManager.construct (qt : Qt) (ops : QVariantOps V) (w : World V) : ThemeState V :=
  let s0 : ThemeState V :=
    { self := { m_currentTheme := "default"
                m_previewTheme := ""
                m_themeStyleSheet := ""
                m_themeConfig := []
                m_customProperties := ∅
                m_isDarkMode := true
                m_isPreviewActive := false }
      world := w }
  let s1 := (ThemeManager.loadTheme qt "default" s0).2
  ThemeManager.loadThemeCustomizations qt ops s1

/-- The state in which the constructor of `ThemeManager` calls
`loadThemeCustomizations()`, the only call of that function: the members as
initialised, after `initializeDefaultTheme()`. -/
def ThemeManager.beforeCustomizations (qt : Qt) (w : World V) : ThemeState V :=
  let s0 : ThemeState V :=
    { self := { m_currentTheme := "default"
                m_previewTheme := ""
                m_themeStyleSheet := ""
                m_themeConfig := []
                m_customProperties := ∅
                m_isDarkMode := true
                m_isPreviewActive := false }
      world := w }
  (ThemeManager.loadTheme qt "default" s0).2

/-- A fresh load of the override file of the current theme: the map that
`loadThemeCustomizations` leaves when it starts from an empty map. -/
def ThemeManager.reloadedCustomizations (qt : Qt) (ops : QVariantOps V) (s : ThemeState V) :
    QMap V :=
  (ThemeManager.loadThemeCustomizations qt ops
    { self := { s.self with m_customProperties := ∅ }, world := s.world }).self.m_customProperties

/-- The slot `ThemePreviewDialog::applyTheme` as far as it acts on the theme manager
and the configuration (`accept()` only closes the dialog). -/
def ThemePreviewDialog.applyTheme (qt : Qt) (m_selectedTheme : QString) (s : ThemeState V) :
    ThemeState V :=
  if m_selectedTheme ≠ "" then
    let s1 := (ThemeManager.loadTheme qt m_selectedTheme s).2
    let s2 := ThemeManager.applyTheme s1
    { s2 with world := { s2.world with
                         configValues := s2.world.configValues ++
                           [("app", "theme", m_selectedTheme)] } }
  else
    s

/-- The states of the theme manager that a program can reach: the constructor,
followed by calls of the public member functions. -/
inductive ThemeManager.Reachable [DecidableEq V] (qt : Qt) (ops : QVariantOps V) :
    ThemeState V → Prop where
  | construct (w : World V) : ThemeManager.Reachable qt ops (ThemeManager.construct qt ops w)
  | loadTheme (themeName : QString) (s : ThemeState V) :
      ThemeManager.Reachable qt ops s →
      ThemeManager.Reachable qt ops (ThemeManager.loadTheme qt themeName s).2
  | previewTheme (themeName : QString) (s : ThemeState V) :
      ThemeManager.Reachable qt ops s →
      ThemeManager.Reachable qt ops (ThemeManager.previewTheme qt themeName s)
  | cancelPreview (s : ThemeState V) :
      ThemeManager.Reachable qt ops s →
      ThemeManager.Reachable qt ops (ThemeManager.cancelPreview qt s)
  | applyTheme (s : ThemeState V) :
      ThemeManager.Reachable qt ops s →
      ThemeManager.Reachable qt ops (ThemeManager.applyTheme s)
  | setThemeProperty (property : QString) (value : V) (s : ThemeState V) :
      ThemeManager.Reachable qt ops s →
      ThemeManager.Reachable qt ops (ThemeManager.setThemeProperty qt ops property value s)

/-! ## FavoritesManager -/

/-- Member fields of `FavoritesManager` (FavoritesManager.h). -/
structure FavoritesManager where
  m_favorites : Finset QString

/-- A `FavoritesManager` together with the world it runs in. -/
structure FavoritesState (V : Type) where
  self : FavoritesManager
  world : World V

/-- The expression `ConfigManager::inst()->userDataDir() + "favorites.json"`. -/
def favoritesFileOf (w : World V) : QString :=
  w.userDataDir ++ "favorites.json"

/-- Member function `FavoritesManager::loadFavorites`. -/
def FavoritesManager.loadFavorites (qt : Qt) (s : FavoritesState V) : FavoritesState V :=
  match s.world.readAll (favoritesFileOf s.world) with
  | (none, w1) => { s with world := w1 }
  | (some bytes, w1) =>
    let array := (qt.fromJson bytes).toArray
    { self := { m_favorites := array.foldl (fun acc value => insert value.toString acc) ∅ }
      world := w1 }

/-- Member function `FavoritesManager::saveFavorites`. -/
def FavoritesManager.saveFavorites (qt : Qt) (s : FavoritesState V) : FavoritesState V :=
  let array : QJsonArray := (qt.setOrder s.self.m_favorites).map QJsonValue.string
  { s with world := s.world.writeAll (favoritesFileOf s.world)
                      (qt.toJson (QJsonDocument.array array)) }

/-- Member function `FavoritesManager::isFavorite`. -/
def FavoritesManager.isFavorite (pluginId : QString) (s : FavoritesState V) : Bool :=
  decide (pluginId ∈ s.self.m_favorites)

/-- Member function `FavoritesManager::addFavorite`. The element is inserted in
any case; whether the branch with `saveFavorites()` and the `emit` is taken is
decided by the condition `m_favorites.insert(pluginId)`, whose value the
sources do not fix: it is the parameter `qt.insertCondition`. -/
def FavoritesManager.addFavorite (qt : Qt) (pluginId : QString) (s : FavoritesState V) :
    FavoritesState V :=
  let condition := qt.insertCondition s.self.m_favorites pluginId
  let s1 : FavoritesState V :=
    { s with self := { m_favorites := insert pluginId s.self.m_favorites } }
  if condition then
    let s2 := FavoritesManager.saveFavorites qt s1
    { s2 with world := s2.world.emit (Signal.favoritesChanged pluginId) }
  else
    s1

/-- Member function `FavoritesManager::removeFavorite`. -/
def FavoritesManager.removeFavorite (qt : Qt) (pluginId : QString) (s : FavoritesState V) :
    FavoritesState V :=
  let removed := decide (pluginId ∈ s.self.m_favorites)
  let s1 : FavoritesState V :=
    { s with self := { m_favorites := s.self.m_favorites.erase pluginId } }
  if removed then
    let s2 := FavoritesManager.saveFavorites qt s1
    { s2 with world := s2.world.emit (Signal.favoritesChanged pluginId) }
  else
    s1

/-- Member function `FavoritesManager::toggleFavorite`. -/
def FavoritesManager.toggleFavorite (qt : Qt) (pluginId : QString) (s : FavoritesState V) :
    FavoritesState V :=
  if FavoritesManager.isFavorite pluginId s then
    FavoritesManager.removeFavorite qt pluginId s
  else
    FavoritesManager.addFavorite qt pluginId s

/-- Member function `FavoritesManager::getFavorites`. -/
def FavoritesManager.getFavorites (qt : Qt) (s : FavoritesState V) : List QString :=
  qt.setOrder s.self.m_favorites

/-- The constructor `FavoritesManager::FavoritesManager`: the set starts empty,
then `loadFavorites()` runs. -/
def FavoritesManager.construct (qt : Qt) (w : World V) : FavoritesState V :=
  FavoritesManager.loadFavorites qt { self := { m_favorites := ∅ }, world := w }

/-- The state in which the constructor of `FavoritesManager` calls
`loadFavorites()`, the only call of that function: the set is still empty. -/
def FavoritesManager.beforeLoad (w : World V) : FavoritesState V :=
  { self := { m_favorites := ∅ }, world := w }

/-- A call of one of the three public mutators of `FavoritesManager`. -/
inductive FavoritesCall where
  | addFavorite (pluginId : QString) : FavoritesCall
  | removeFavorite (pluginId : QString) : FavoritesCall
  | toggleFavorite (pluginId : QString) : FavoritesCall

/-- Performs one call. -/
def FavoritesManager.call (qt : Qt) (c : FavoritesCall) (s : FavoritesState V) :
    FavoritesState V :=
  match c with
  | FavoritesCall.addFavorite pluginId => FavoritesManager.addFavorite qt pluginId s
  | FavoritesCall.removeFavorite pluginId => FavoritesManager.removeFavorite qt pluginId s
  | FavoritesCall.toggleFavorite pluginId => FavoritesManager.toggleFavorite qt pluginId s

/-- The JSON array that `saveFavorites` builds from the set. -/
def FavoritesManager.favoritesArray (qt : Qt) (s : FavoritesState V) : QJsonArray :=
  (qt.setOrder s.self.m_favorites).map QJsonValue.string

/-! ## GuiApplication -/

/-- A pointer to a `QObject`: null (`none`) or the address of an object. -/
abbrev QObjectPtr := Option Nat

/-- Member fields of `GuiApplication` that `childDestroyed` reads and writes. -/
structure GuiApplication where
  m_mainWindow : QObjectPtr
  m_mixerView : QObjectPtr
  m_songEditor : QObjectPtr
  m_automationEditor : QObjectPtr
  m_patternEditor : QObjectPtr
  m_pianoRoll : QObjectPtr
  m_projectNotes : QObjectPtr
  m_microtunerConfig : QObjectPtr
  m_controllerRackView : QObjectPtr

/-- Member function `GuiApplication::childDestroyed`. -/
def GuiApplication.childDestroyed (obj : QObjectPtr) (g : GuiApplication) : GuiApplication :=
  if obj = g.m_mainWindow then { g with m_mainWindow := none }
  else if obj = g.m_mixerView then { g with m_mixerView := none }
  else if obj = g.m_songEditor then { g with m_songEditor := none }
  else if obj = g.m_automationEditor then { g with m_automationEditor := none }
  else if obj = g.m_patternEditor then { g with m_patternEditor := none }
  else if obj = g.m_pianoRoll then { g with m_pianoRoll := none }
  else if obj = g.m_projectNotes then { g with m_projectNotes := none }
  else if obj = g.m_microtunerConfig then { g with m_microtunerConfig := none }
  else if obj = g.m_controllerRackView then { g with m_controllerRackView := none }
  else g

/-- The nine children of `GuiApplication` that `childDestroyed` tracks. -/
inductive Child where
  | mainWindow : Child
  | mixerView : Child
  | songEditor : Child
  | automationEditor : Child
  | patternEditor : Child
  | pianoRoll : Child
  | projectNotes : Child
  | microtunerConfig : Child
  | controllerRackView : Child
  deriving DecidableEq, Fintype

/-- The accessors `mainWindow()`, `mixerView()`, ... of `GuiApplication`: each
returns the member of the same name. -/
def GuiApplication.child (g : GuiApplication) : Child → QObjectPtr
  | Child.mainWindow => g.m_mainWindow
  | Child.mixerView => g.m_mixerView
  | Child.songEditor => g.m_songEditor
  | Child.automationEditor => g.m_automationEditor
  | Child.patternEditor => g.m_patternEditor
  | Child.pianoRoll => g.m_pianoRoll
  | Child.projectNotes => g.m_projectNotes
  | Child.microtunerConfig => g.m_microtunerConfig
  | Child.controllerRackView => g.m_controllerRackView

/-- The process as far as the constructor and the destructor of `GuiApplication`
touch it. -/
structure GuiProcess (V : Type) where
  /-- The static member `GuiApplication::s_instance` -/
  s_instance : QObjectPtr
  /-- The static member `ThemeManager::s_instance`: the members of the singleton,
  once it has been constructed -/
  themeManager : Option (ThemeManager V)
  /-- The world the theme manager runs in -/
  world : World V

/-- A process in which no `GuiApplication` exists yet; the static is initialised
by `GuiApplication* GuiApplication::s_instance = nullptr;`. The `ThemeManager`
singleton may or may not exist already. -/
def GuiProcess.start (themeManager : Option (ThemeManager V)) (world : World V) :
    GuiProcess V :=
  { s_instance := none, themeManager := themeManager, world := world }

/-- Static member function `GuiApplication::instance`. -/
def GuiApplication.instance (p : GuiProcess V) : QObjectPtr :=
  p.s_instance

/-- Free function `getGUI`. -/
def getGUI (p : GuiProcess V) : QObjectPtr :=
  GuiApplication.instance p

/-- Static member function `ThemeManager::instance`: the singleton, constructed
at the first call. -/
def ThemeManager.instance (qt : Qt) (ops : QVariantOps V) (p : GuiProcess V) : ThemeState V :=
  match p.themeManager with
  | some self => { self := self, world := p.world }
  | none => ThemeManager.construct qt ops p.world

/-- Member function `GuiApplication::initialize` as far as it assigns members:
`m_mainWindow = new MainWindow`, the new window living at `mainWindow`. The splash
screen, the configuration file and the audio engine touch no member, and
`ThemeManager::instance()` finds the singleton that the constructor body has
already used. -/
def GuiApplication.initialize (mainWindow : Nat) (g : GuiApplication) : GuiApplication :=
  { g with m_mainWindow := some mainWindow }

/-- The constructor `GuiApplication::GuiApplication`. `members` are the members
as their initialisers leave them; `defaultThemeDir` and `configuredTheme` are the
values of `ConfigManager::defaultThemeDir()` and `ConfigManager::value("app",
"theme", "default")`. The body adds three search paths, then takes the
`ThemeManager` singleton (constructing it if this is the first use), loads and
applies the configured theme and calls `initialize()`; it has no statement that
mentions `s_instance` or `this`. The prompt for the working directory touches
none of it. -/
def GuiApplication.construct (qt : Qt) (ops : QVariantOps V) (members : GuiApplication)
    (defaultThemeDir configuredTheme : QString) (mainWindow : Nat)
    (p : GuiProcess V) : GuiApplication × GuiProcess V :=
  let p1 : GuiProcess V :=
    { p with world := { p.world with
        searchPaths := p.world.searchPaths ++
          [("artwork", p.world.themeDir), ("artwork", defaultThemeDir),
           ("artwork", ":/artwork")] } }
  let t0 := ThemeManager.instance qt ops p1
  let t1 := (ThemeManager.loadTheme qt configuredTheme t0).2
  let t2 := ThemeManager.applyTheme t1
  let self := GuiApplication.initialize mainWindow members
  (self, { s_instance := p.s_instance, themeManager := some t2.self, world := t2.world })

/-- The destructor `GuiApplication::~GuiApplication`. -/
def GuiApplication.destruct (p : GuiProcess V) : GuiProcess V :=
  { p with s_instance := none }

/-! ## Knob: grey-scale conversion of the knob pixmap -/

/-- A pixel of a `QImage` in `Format_ARGB32`: four channels, 0 to 255 each. -/
structure QRgb where
  red : Nat
  green : Nat
  blue : Nat
  alpha : Nat
  deriving DecidableEq

/-- A `QImage`: its size and the pixel at column `x`, row `y`. -/
structure QImage where
  width : Nat
  height : Nat
  pixel : Nat → Nat → QRgb

/-- Member function `QImage::valid(x, y)`. -/
def QImage.valid (img : QImage) (x y : Nat) : Bool :=
  decide (x < img.width) && decide (y < img.height)

/-- Member function `QImage::pixelColor(x, y)`: outside the image Qt warns and
returns the invalid colour, which reads as opaque black. -/
def QImage.pixelColor (img : QImage) (x y : Nat) : QRgb :=
  if img.valid x y then img.pixel x y else { red := 0, green := 0, blue := 0, alpha := 255 }

/-- Member function `QImage::setPixelColor(x, y, c)`: outside the image Qt warns
and writes nothing. -/
def QImage.setPixelColor (img : QImage) (x y : Nat) (c : QRgb) : QImage :=
  if img.valid x y then
    { img with pixel := fun px py => if px = x ∧ py = y then c else img.pixel px py }
  else
    img

/-- The image under conversion together with the coordinates `(x, y)` handed to
`pixelColor` and `setPixelColor` so far, oldest first. -/
structure GrayScaleRun where
  image : QImage
  accesses : List (Nat × Nat)

/-- The body of the inner loop of `convertPixmapToGrayScale` for the loop
variables `i` and `j`. The floating-point expression `0.2126 * redF + 0.7152 *
greenF + 0.0722 * blueF`, brought back to a channel value by `fromRgbF` and
`setPixelColor`, is the parameter `gray`. -/
def convertPixel (gray : Nat → Nat → Nat → Nat) (i j : Nat) (run : GrayScaleRun) :
    GrayScaleRun :=
  let pix := run.image.pixelColor i j
  let gscale := gray pix.red pix.green pix.blue
  let pixGray : QRgb := { red := gscale, green := gscale, blue := gscale, alpha := pix.alpha }
  { image := run.image.setPixelColor i j pixGray
    accesses := run.accesses ++ [(i, j), (i, j)] }

/-- Function `convertPixmapToGrayScale` (Knob.cpp) on the pixmap read as an
`ARGB32` image: `i` runs below `height()`, `j` below `width()`, and each step
reads and writes the pixel `(i, j)`. -/
def convertPixmapToGrayScale (gray : Nat → Nat → Nat → Nat) (pixMap : QImage) : GrayScaleRun :=
  (List.range pixMap.height).foldl
    (fun run i => (List.range pixMap.width).foldl (fun inner j => convertPixel gray i j inner) run)
    { image := pixMap, accesses := [] }

/-! ## PluginBrowser -/

/-- The parts of a plugin key (`Plugin::Descriptor::SubPluginFeatures::Key`) that
the browser reads: `desc->name`, `desc->version` and `displayName()`. -/
structure PluginKey where
  name : QString
  version : QString
  displayName : QString
  deriving DecidableEq

/-- Member fields of `PluginDescWidget` apart from the two pixmaps. The field
`m_pluginId` is assigned once, in the constructor, from the key, and never
again; it is the function `PluginDescWidget.m_pluginId` below. -/
structure PluginDescWidget where
  m_pluginKey : PluginKey
  m_mouseOver : Bool
  deriving DecidableEq

/-- The constructor `PluginDescWidget::PluginDescWidget`. -/
def PluginDescWidget.construct (pk : PluginKey) : PluginDescWidget :=
  { m_pluginKey := pk, m_mouseOver := false }

/-- The value `QString("%1:%2").arg(pk.desc->name, pk.desc->version)` that the
constructor stores in `m_pluginId`. -/
def PluginDescWidget.m_pluginId (w : PluginDescWidget) : QString :=
  w.m_pluginKey.name ++ ":" ++ w.m_pluginKey.version

/-- Member function `PluginDescWidget::name`. -/
def PluginDescWidget.name (w : PluginDescWidget) : QString :=
  w.m_pluginKey.displayName

/-- Member function `PluginDescWidget::pluginId`. -/
def PluginDescWidget.pluginId (w : PluginDescWidget) : QString :=
  w.m_pluginId

/-- Member function `PluginDescWidget::isFavorite`. -/
def PluginDescWidget.isFavorite (w : PluginDescWidget) (favorites : FavoritesState V) : Bool :=
  FavoritesManager.isFavorite w.m_pluginId favorites

/-- An item of the plugin tree with what the tree widget keeps for it: its text,
its hidden flag, the widget set with `setItemWidget` (if any) and its children
in order. -/
inductive QTreeWidgetItem where
  | mk (text : QString) (hidden : Bool) (widget : Option PluginDescWidget)
      (children : List QTreeWidgetItem) : QTreeWidgetItem

/-- Member function `QTreeWidgetItem::text(0)`. -/
def QTreeWidgetItem.text : QTreeWidgetItem → QString
  | QTreeWidgetItem.mk text _ _ _ => text

/-- Member function `QTreeWidgetItem::isHidden`. -/
def QTreeWidgetItem.isHidden : QTreeWidgetItem → Bool
  | QTreeWidgetItem.mk _ hidden _ _ => hidden

/-- The call `m_descTree->itemWidget(item, 0)` followed by the `dynamic_cast` to
`PluginDescWidget*`. -/
def QTreeWidgetItem.itemWidget : QTreeWidgetItem → Option PluginDescWidget
  | QTreeWidgetItem.mk _ _ widget _ => widget

/-- The children `child(0)`, ..., `child(childCount() - 1)`. -/
def QTreeWidgetItem.children : QTreeWidgetItem → List QTreeWidgetItem
  | QTreeWidgetItem.mk _ _ _ children => children

/-- Member function `QTreeWidgetItem::setHidden`. -/
def QTreeWidgetItem.setHidden (hide : Bool) : QTreeWidgetItem → QTreeWidgetItem
  | QTreeWidgetItem.mk text _ widget children => QTreeWidgetItem.mk text hide widget children

/-- The call `m_descTree->setItemWidget(item, 0, widget)`. -/
def QTreeWidgetItem.setItemWidget (widget : PluginDescWidget) :
    QTreeWidgetItem → QTreeWidgetItem
  | QTreeWidgetItem.mk text hidden _ children =>
    QTreeWidgetItem.mk text hidden (some widget) children

/-- Member function `QTreeWidgetItem::addChild`: the child goes last. -/
def QTreeWidgetItem.addChild (child : QTreeWidgetItem) : QTreeWidgetItem → QTreeWidgetItem
  | QTreeWidgetItem.mk text hidden widget children =>
    QTreeWidgetItem.mk text hidden widget (children ++ [child])

/-- Replaces the children of an item. -/
def QTreeWidgetItem.setChildren (children : List QTreeWidgetItem) :
    QTreeWidgetItem → QTreeWidgetItem
  | QTreeWidgetItem.mk text hidden widget _ => QTreeWidgetItem.mk text hidden widget children

mutual
/-- Member function `QTreeWidgetItem::clone`: a deep copy of the item and its
children. The copy belongs to no tree widget, so it is not hidden and no widget
is set on it or below it. -/
def QTreeWidgetItem.clone : QTreeWidgetItem → QTreeWidgetItem
  | QTreeWidgetItem.mk text _ _ children =>
    QTreeWidgetItem.mk text false none (QTreeWidgetItem.cloneAll children)
/-- The copies of a list of items. -/
def QTreeWidgetItem.cloneAll : List QTreeWidgetItem → List QTreeWidgetItem
  | [] => []
  | item :: rest => QTreeWidgetItem.clone item :: QTreeWidgetItem.cloneAll rest
end

mutual
/-- The items that a `QTreeWidgetItemIterator` visits from this item to the end
of its subtree: the item, then its children with their subtrees, in order. -/
def QTreeWidgetItem.items : QTreeWidgetItem → List QTreeWidgetItem
  | QTreeWidgetItem.mk text hidden widget children =>
    QTreeWidgetItem.mk text hidden widget children :: QTreeWidgetItem.itemsOf children
/-- The items that a `QTreeWidgetItemIterator` visits in a list of sibling trees. -/
def QTreeWidgetItem.itemsOf : List QTreeWidgetItem → List QTreeWidgetItem
  | [] => []
  | item :: rest => QTreeWidgetItem.items item ++ QTreeWidgetItem.itemsOf rest
end

/-- The test `widget && widget->pluginId() == pluginId` on an item. -/
def QTreeWidgetItem.hasPluginId (pluginId : QString) (item : QTreeWidgetItem) : Bool :=
  match item.itemWidget with
  | some widget => decide (widget.pluginId = pluginId)
  | none => false

/-- Member fields of `PluginBrowser` that its slots read and write. The tree
widget `m_descTree` is the list of its top-level items; the pointer
`m_favoritesRoot` is the position of the item it points to among them. -/
structure PluginBrowser where
  m_descTree : List QTreeWidgetItem
  m_favoritesRoot : Nat
  m_showFavoritesOnly : Bool

/-- The item `m_favoritesRoot` points to. -/
def PluginBrowser.favoritesRoot (b : PluginBrowser) : Option QTreeWidgetItem :=
  b.m_descTree[b.m_favoritesRoot]?

/-- Applies `f` to the item at position `i` of a list. -/
def modifyAt {α : Type} (f : α → α) : Nat → List α → List α
  | _, [] => []
  | 0, x :: rest => f x :: rest
  | i + 1, x :: rest => x :: modifyAt f i rest

/-- The search loop of `createFavoritesSection` and `onFavoritesChanged`: the
first item of the whole tree whose widget has the id `pluginId` is cloned, the
clone is appended to the Favorites root and gets a new widget for the same key. -/
def PluginBrowser.addFavoriteItem (pluginId : QString) (b : PluginBrowser) : PluginBrowser :=
  match (QTreeWidgetItem.itemsOf b.m_descTree).find? (QTreeWidgetItem.hasPluginId pluginId) with
  | some item =>
    match item.itemWidget with
    | some widget =>
      let clone := item.clone.setItemWidget (PluginDescWidget.construct widget.m_pluginKey)
      { b with
        m_descTree := modifyAt (QTreeWidgetItem.addChild clone) b.m_favoritesRoot b.m_descTree }
    | none => b
  | none => b

/-- The removal loop of `onFavoritesChanged`: the first child of the Favorites
root whose widget has the id `pluginId` is taken out and deleted. -/
def PluginBrowser.removeFavoriteItem (pluginId : QString) (b : PluginBrowser) : PluginBrowser :=
  let takeChild : QTreeWidgetItem → QTreeWidgetItem := fun root =>
    root.setChildren (root.children.eraseP (QTreeWidgetItem.hasPluginId pluginId))
  { b with m_descTree := modifyAt takeChild b.m_favoritesRoot b.m_descTree }

/-- Member function `PluginBrowser::updateRootVisibilities`. -/
def PluginBrowser.updateRootVisibilities (b : PluginBrowser) : PluginBrowser :=
  { b with m_descTree := b.m_descTree.map (fun root =>
      let hasVisibleChildren := root.children.any (fun child => !child.isHidden)
      root.setHidden (!hasVisibleChildren)) }

/-- The slot `PluginBrowser::onFavoritesChanged`, run with the favourites
manager in the state `favorites`. -/
def PluginBrowser.onFavoritesChanged (favorites : FavoritesState V) (pluginId : QString)
    (b : PluginBrowser) : PluginBrowser :=
  let isFavorite := FavoritesManager.isFavorite pluginId favorites
  let b1 := if isFavorite then b.addFavoriteItem pluginId else b.removeFavoriteItem pluginId
  if b1.m_showFavoritesOnly then b1.updateRootVisibilities else b1

/-- The slot `PluginBrowser::showFavoritesOnly`. -/
def PluginBrowser.showFavoritesOnly (checked : Bool) (b : PluginBrowser) : PluginBrowser :=
  PluginBrowser.updateRootVisibilities { b with m_showFavoritesOnly := checked }

/-- The routine `QString::contains(str, Qt::CaseInsensitive)`, with the fact that
every string contains the empty string. -/
structure QStringOps where
  contains : QString → QString → Bool
  contains_empty : ∀ text, contains text "" = true

mutual
/-- The loop of `PluginBrowser::onFilterChanged` on one item and its subtree. -/
def QTreeWidgetItem.filtered (str : QStringOps) (favorites : FavoritesState V)
    (showFavoritesOnly : Bool) (filter : QString) : QTreeWidgetItem → QTreeWidgetItem
  | QTreeWidgetItem.mk text hidden widget children =>
    QTreeWidgetItem.mk text
      (match widget with
        | some w =>
          let matchesFilter := str.contains w.name filter
          let matchesFavorites := !showFavoritesOnly || w.isFavorite favorites
          !matchesFilter || !matchesFavorites
        | none => hidden)
      widget
      (QTreeWidgetItem.filteredAll str favorites showFavoritesOnly filter children)
/-- The loop of `PluginBrowser::onFilterChanged` on a list of sibling trees. -/
def QTreeWidgetItem.filteredAll (str : QStringOps) (favorites : FavoritesState V)
    (showFavoritesOnly : Bool) (filter : QString) : List QTreeWidgetItem → List QTreeWidgetItem
  | [] => []
  | item :: rest =>
    QTreeWidgetItem.filtered str favorites showFavoritesOnly filter item ::
      QTreeWidgetItem.filteredAll str favorites showFavoritesOnly filter rest
end

/-- The slot `PluginBrowser::onFilterChanged`. -/
def PluginBrowser.onFilterChanged (str : QStringOps) (favorites : FavoritesState V)
    (filter : QString) (b : PluginBrowser) : PluginBrowser :=
  PluginBrowser.updateRootVisibilities
    { b with m_descTree :=
        QTreeWidgetItem.filteredAll str favorites b.m_showFavoritesOnly filter b.m_descTree }

/-- Whether the plugin tree `plugins` has an item for the plugin `pluginId`. -/
def QTreeWidgetItem.hasItemFor (pluginId : QString) (plugins : List QTreeWidgetItem) : Bool :=
  (QTreeWidgetItem.itemsOf plugins).any (QTreeWidgetItem.hasPluginId pluginId)

/-- The item `child` is what the two search loops append to the Favorites root
for some plugin item of `plugins`. -/
def QTreeWidgetItem.IsFavoriteClone (plugins : List QTreeWidgetItem) (child : QTreeWidgetItem) :
    Prop :=
  ∃ item widget, item ∈ QTreeWidgetItem.itemsOf plugins ∧ item.itemWidget = some widget ∧
    child = item.clone.setItemWidget (PluginDescWidget.construct widget.m_pluginKey)

/-- The browser shows the plugin tree `plugins` followed by a Favorites root
that mirrors the set `favorites`. -/
def PluginBrowser.Mirrors (plugins : List QTreeWidgetItem) (favorites : Finset QString)
    (b : PluginBrowser) : Prop :=
  ∃ kids, b.m_descTree = plugins ++ [QTreeWidgetItem.mk "Favorites" false none kids] ∧
    b.m_favoritesRoot = plugins.length ∧
    b.m_showFavoritesOnly = false ∧
    (∀ child ∈ kids, QTreeWidgetItem.IsFavoriteClone plugins child) ∧
    ∀ pluginId, kids.countP (QTreeWidgetItem.hasPluginId pluginId) =
      if pluginId ∈ favorites ∧ QTreeWidgetItem.hasItemFor pluginId plugins = true then 1 else 0

/-- Member function `PluginBrowser::createFavoritesSection`: a new top-level item
`Favorites` goes last in the tree, then the search loop runs once for each
favourite, in the order `getFavorites()` lists them. -/
def PluginBrowser.createFavoritesSection (qt : Qt) (favorites : FavoritesState V)
    (b : PluginBrowser) : PluginBrowser :=
  let root := QTreeWidgetItem.mk "Favorites" false none []
  let b1 : PluginBrowser :=
    { m_descTree := b.m_descTree ++ [root]
      m_favoritesRoot := b.m_descTree.length
      m_showFavoritesOnly := b.m_showFavoritesOnly }
  (FavoritesManager.getFavorites qt favorites).foldl
    (fun acc pluginId => acc.addFavoriteItem pluginId) b1

/-- The constructor `PluginBrowser::PluginBrowser`. `setupUi()` creates the empty
tree and `addPlugins()` fills it; the header declares `addPlugins()` but the
sources hold no body for it, so the top-level items it leaves are the parameter
`plugins`. `m_favoritesRoot` has no value until `createFavoritesSection()`
assigns it. -/
def PluginBrowser.construct (qt : Qt) (favorites : FavoritesState V)
    (plugins : List QTreeWidgetItem) : PluginBrowser :=
  PluginBrowser.createFavoritesSection qt favorites
    { m_descTree := plugins, m_favoritesRoot := 0, m_showFavoritesOnly := false }

/-- Delivery of one emitted signal to the browser: the constructor connects
`FavoritesManager::favoritesChanged` to `onFavoritesChanged`, which runs while
the manager is in the state `favorites`. -/
def PluginBrowser.deliver (favorites : FavoritesState V) (b : PluginBrowser) :
    Signal V → PluginBrowser
  | Signal.favoritesChanged pluginId => b.onFavoritesChanged favorites pluginId
  | _ => b

/-- The favourites manager together with the plugin browser connected to it. -/
structure BrowserState (V : Type) where
  favorites : FavoritesState V
  browser : PluginBrowser

/-- One call of a mutator of the favourites manager; every signal the call emits
is delivered to the browser. -/
def BrowserState.call (qt : Qt) (c : FavoritesCall) (s : BrowserState V) : BrowserState V :=
  let favorites := FavoritesManager.call qt c s.favorites
  let emitted := favorites.world.signals.drop s.favorites.world.signals.length
  { favorites := favorites
    browser := emitted.foldl (fun b sig => b.deliver favorites sig) s.browser }

/-- One delivery of `favoritesChanged(pluginId)` to the browser: the id, and the
state of the favourites manager while the slot runs. -/
structure Notification (V : Type) where
  favorites : FavoritesState V
  pluginId : QString

/-- The slot `onFavoritesChanged` run for each notification of a sequence, first
notification first. -/
def PluginBrowser.notified (b : PluginBrowser) (ns : List (Notification V)) : PluginBrowser :=
  ns.foldl (fun acc n => acc.onFavoritesChanged n.favorites n.pluginId) b

/-- Each notification of the sequence is delivered right after the membership of
its id changed: the manager held `held` before, and holds `held` with the id
inserted, or with the id erased, while the slot runs. -/
def Notification.FollowChanges : Finset QString → List (Notification V) → Prop
  | _, [] => True
  | held, n :: rest =>
    ((n.pluginId ∉ held ∧ n.favorites.self.m_favorites = insert n.pluginId held) ∨
      (n.pluginId ∈ held ∧ n.favorites.self.m_favorites = held.erase n.pluginId)) ∧
    Notification.FollowChanges n.favorites.self.m_favorites rest

/-- The favourites set the manager holds at the last notification of a sequence;
`held` when the sequence is empty. -/
def Notification.lastFavorites : Finset QString → List (Notification V) → Finset QString
  | held, [] => held
  | _, n :: rest => Notification.lastFavorites n.favorites.self.m_favorites rest

/-- The buttons of `Qt::MouseButton` that a press can carry. -/
inductive MouseButton where
  | LeftButton : MouseButton
  | RightButton : MouseButton
  | MiddleButton : MouseButton
  deriving DecidableEq

/-- A `QMouseEvent`: its button and the position `pos()` inside the widget. -/
structure QMouseEvent where
  button : MouseButton
  x : Int
  y : Int

/-- A `QRect`: left edge, top edge, width and height. -/
structure QRect where
  x : Int
  y : Int
  width : Int
  height : Int
  deriving DecidableEq

/-- Member function `QRect::contains` for a point. -/
def QRect.contains (r : QRect) (px py : Int) : Bool :=
  decide (r.x ≤ px ∧ px < r.x + r.width ∧ r.y ≤ py ∧ py < r.y + r.height)

/-- The target rectangle of the call `p.drawPixmap(width() - 24, 4, 16, 16, star)`
in `PluginDescWidget::paintEvent`, for a widget of width `width`. -/
def PluginDescWidget.starRect (width : Int) : QRect :=
  { x := width - 24, y := 4, width := 16, height := 16 }

/-- The favourite indicator that `PluginDescWidget::paintEvent` draws: the star,
when the plugin is a favourite. -/
def PluginDescWidget.paintedStar (w : PluginDescWidget) (width : Int)
    (favorites : FavoritesState V) : Option QRect :=
  if w.isFavorite favorites then some (PluginDescWidget.starRect width) else none

/-- What a mouse press on a plugin widget can change. -/
structure PressState (V : Type) where
  /-- The favourites manager and the browser connected to it -/
  system : BrowserState V
  /-- How often `update()` was called on the widget -/
  updates : Nat
  /-- The key passed to the last `Engine::setDndPluginKey` -/
  dndPluginKey : Option PluginKey
  /-- Key and value of each `StringPairDrag` created, oldest first -/
  drags : List (QString × QString)

/-- The slot `PluginDescWidget::toggleFavorite`. -/
def PluginDescWidget.toggleFavorite (qt : Qt) (w : PluginDescWidget) (s : PressState V) :
    PressState V :=
  { s with
    system := BrowserState.call qt (FavoritesCall.toggleFavorite w.m_pluginId) s.system
    updates := s.updates + 1 }

/-- Member function `PluginDescWidget::mousePressEvent` for a widget of width
`width`. -/
def PluginDescWidget.mousePressEvent (qt : Qt) (w : PluginDescWidget) (width : Int)
    (me : QMouseEvent) (s : PressState V) : PressState V :=
  if me.button = MouseButton.LeftButton then
    if me.x > width - 24 ∧ me.y < 20 then
      w.toggleFavorite qt s
    else
      { s with
        dndPluginKey := some w.m_pluginKey
        drags := s.drags ++ [("instrument", w.m_pluginKey.name)] }
  else
    s

/-! ## A concrete instance of the library routines and of the disk

The parser, printer and decoder below are fixed on the handful of texts stored
on the example disks; on those texts they return what Qt returns. -/

/-- A `QVariant` that holds nothing or a `QString`. -/
inductive DemoVariant where
  | invalid : DemoVariant
  | string (s : QString) : DemoVariant
  deriving DecidableEq

/-- Conversions of `DemoVariant`: a string travels as a JSON string. -/
def demoOps : QVariantOps DemoVariant where
  invalid := DemoVariant.invalid
  fromVariant := fun v =>
    match v with
    | DemoVariant.invalid => QJsonValue.null
    | DemoVariant.string s => QJsonValue.string s
  toVariant := fun j =>
    match j with
    | QJsonValue.string s => DemoVariant.string s
    | _ => DemoVariant.invalid

/-- The bytes of an ASCII text. -/
def ascii (text : String) : QByteArray :=
  text.toList.map (fun c => UInt8.ofNat c.toNat)

/-- The text of an empty JSON object. -/
def demoEmptyObjectText : QByteArray := ascii "\x7b\x7d"

/-- The text of a theme configuration that switches dark mode off. -/
def demoLightConfigText : QByteArray := ascii "\x7b\"darkMode\": false\x7d"

/-- The text printed for an object with the single member `key`, a string. -/
def demoMemberText (key value : QString) : QByteArray :=
  ascii ("\x7b\n    \"" ++ key ++ "\": \"" ++ value ++ "\"\n\x7d\n")

/-- Parses the two texts above and two override files; every other text is
taken as malformed. -/
def demoFromJson (bytes : QByteArray) : QJsonDocument :=
  if bytes = demoEmptyObjectText then QJsonDocument.object []
  else if bytes = demoLightConfigText then
    QJsonDocument.object [("darkMode", QJsonValue.bool false)]
  else if bytes = demoMemberText "primaryColor" "#ff112233" then
    QJsonDocument.object [("primaryColor", QJsonValue.string "#ff112233")]
  else if bytes = demoMemberText "primaryColor" "#ff000000" then
    QJsonDocument.object [("primaryColor", QJsonValue.string "#ff000000")]
  else QJsonDocument.null

/-- Prints an object with a single string member; no other document is printed
in the examples, they come out empty. -/
def demoToJson (doc : QJsonDocument) : QByteArray :=
  match doc with
  | QJsonDocument.object [(key, QJsonValue.string value)] => demoMemberText key value
  | _ => []

/-- Library routines for the examples: ASCII decoding, the parser and printer
above, a `QSet` visited in ascending order, and an insertion used as a condition
taken as true when the value was not in the set. -/
def demoQt : Qt where
  fromUtf8 := fun bytes => String.mk (bytes.map (fun b => Char.ofNat b.toNat))
  fromJson := demoFromJson
  toJson := demoToJson
  setOrder := fun s => s.sort (fun a b => a ≤ b)
  setOrder_nodup := fun s => Finset.sort_nodup _ s
  mem_setOrder := fun s x => by simp
  insertCondition := fun s value => decide (value ∉ s)

/-- A disk with four theme directories under `data/themes/`: `default`, `dark`
and `light` are complete, `broken` lacks its `style.css`; `default` also has a
`custom.json`. The `custom.json` of each theme opens for writing. -/
def demoDisk : FileSystem where
  dirExists := fun p =>
    p = "data/themes/default/" ∨ p = "data/themes/dark/" ∨ p = "data/themes/light/" ∨
      p = "data/themes/broken/"
  files := fun p =>
    assocFind p
      [("data/themes/default/theme.json", demoEmptyObjectText),
       ("data/themes/default/style.css", ascii "a"),
       ("data/themes/default/custom.json", demoMemberText "primaryColor" "#ff112233"),
       ("data/themes/dark/theme.json", demoEmptyObjectText),
       ("data/themes/dark/style.css", ascii "b"),
       ("data/themes/light/theme.json", demoLightConfigText),
       ("data/themes/light/style.css", ascii "c"),
       ("data/themes/broken/theme.json", demoLightConfigText)]
  writable := fun p =>
    p = "data/themes/default/custom.json" ∨ p = "data/themes/dark/custom.json" ∨
      p = "data/themes/light/custom.json" ∨ p = "data/themes/broken/custom.json"

/-- A disk on which only the theme `dark` is installed. -/
def demoDiskWithoutDefault : FileSystem where
  dirExists := fun p => p = "data/themes/dark/"
  files := fun p =>
    assocFind p
      [("data/themes/dark/theme.json", demoEmptyObjectText),
       ("data/themes/dark/style.css", ascii "b")]
  writable := fun p => p = "data/themes/dark/custom.json"

/-- A freshly started process on the disk `fs`. -/
def demoWorld (fs : FileSystem) : World DemoVariant where
  dataDir := "data/"
  userDataDir := "user/"
  fs := fs
  opened := []
  themeDir := ""
  searchPaths := []
  configValues := []
  appStyleSheet := ""
  refreshes := 0
  signals := []
  warnings := []

/-- The theme manager right after its construction on `demoDisk`. -/
def demoStart : ThemeState DemoVariant :=
  ThemeManager.construct demoQt demoOps (demoWorld demoDisk)

/-- The theme manager after `loadTheme("dark")` committed the theme `dark` on `demoDisk`. -/
def demoDarkCommitted : ThemeState DemoVariant :=
  (ThemeManager.loadTheme demoQt "dark" demoStart).2

/-- The theme manager right after its construction on `demoDiskWithoutDefault`. -/
def demoStartWithoutDefault : ThemeState DemoVariant :=
  ThemeManager.construct demoQt demoOps (demoWorld demoDiskWithoutDefault)

/-- The text printed for a JSON array without elements. -/
def demoEmptyArrayText : QByteArray := ascii "[\n]\n"

/-- The text printed for a JSON array with the single element `value`, a string. -/
def demoElementText (value : QString) : QByteArray :=
  ascii ("[\n    \"" ++ value ++ "\"\n]\n")

/-- A text that is not JSON. -/
def demoMalformedText : QByteArray := ascii "oops"

/-- The library routines `demoQt`, with a parser and a printer that also know the
empty array, the array holding `"sine"` and an override file with the key
`shadowColor`. -/
def demoFavoritesQt : Qt where
  fromUtf8 := demoQt.fromUtf8
  fromJson := fun bytes =>
    if bytes = demoEmptyArrayText then QJsonDocument.array []
    else if bytes = demoElementText "sine" then QJsonDocument.array [QJsonValue.string "sine"]
    else if bytes = demoMemberText "shadowColor" "#ff000000" then
      QJsonDocument.object [("shadowColor", QJsonValue.string "#ff000000")]
    else demoFromJson bytes
  toJson := fun doc =>
    match doc with
    | QJsonDocument.array [] => demoEmptyArrayText
    | QJsonDocument.array [QJsonValue.string value] => demoElementText value
    | other => demoToJson other
  setOrder := demoQt.setOrder
  setOrder_nodup := demoQt.setOrder_nodup
  mem_setOrder := demoQt.mem_setOrder
  insertCondition := demoQt.insertCondition

/-- The library routines `demoFavoritesQt`, with an insertion used as a condition
always taken as true. -/
def demoEagerQt : Qt where
  fromUtf8 := demoFavoritesQt.fromUtf8
  fromJson := demoFavoritesQt.fromJson
  toJson := demoFavoritesQt.toJson
  setOrder := demoFavoritesQt.setOrder
  setOrder_nodup := demoFavoritesQt.setOrder_nodup
  mem_setOrder := demoFavoritesQt.mem_setOrder
  insertCondition := fun _ _ => true

/-- A disk whose `user/favorites.json` holds the array with `"sine"`; the file
opens for writing exactly when `canWrite` is true. -/
def demoFavoritesDisk (canWrite : Bool) : FileSystem where
  dirExists := fun p => p = "user/"
  files := fun p => assocFind p [("user/favorites.json", demoElementText "sine")]
  writable := fun p => canWrite && p = "user/favorites.json"

/-- A disk on which `user/favorites.json` and the `custom.json` of the theme
`default` hold text that is not JSON. -/
def demoMalformedDisk : FileSystem where
  dirExists := fun p => p = "user/" ∨ p = "data/themes/default/"
  files := fun p =>
    assocFind p
      [("user/favorites.json", demoMalformedText),
       ("data/themes/default/theme.json", demoEmptyObjectText),
       ("data/themes/default/style.css", ascii "a"),
       ("data/themes/default/custom.json", demoMalformedText)]
  writable := fun p => p = "user/favorites.json" ∨ p = "data/themes/default/custom.json"

/-- A disk on which the `custom.json` of the theme `default` binds the key
`shadowColor`. -/
def demoForeignKeyDisk : FileSystem where
  dirExists := fun p => p = "data/themes/default/"
  files := fun p =>
    assocFind p
      [("data/themes/default/theme.json", demoEmptyObjectText),
       ("data/themes/default/style.css", ascii "a"),
       ("data/themes/default/custom.json", demoMemberText "shadowColor" "#ff000000")]
  writable := fun p => p = "data/themes/default/custom.json"

/-- A favourites manager holding exactly `"sine"` on `demoFavoritesDisk canWrite`. -/
def demoFavorites (canWrite : Bool) : FavoritesState DemoVariant where
  self := { m_favorites := {"sine"} }
  world := demoWorld (demoFavoritesDisk canWrite)

/-- A `GuiApplication` whose nine children live at the addresses 1 to 9. -/
def demoGui : GuiApplication where
  m_mainWindow := some 1
  m_mixerView := some 2
  m_songEditor := some 3
  m_automationEditor := some 4
  m_patternEditor := some 5
  m_pianoRoll := some 6
  m_projectNotes := some 7
  m_microtunerConfig := some 8
  m_controllerRackView := some 9

/-- An image two pixels wide and one pixel high: opaque red, then half
transparent blue. -/
def demoWideImage : QImage where
  width := 2
  height := 1
  pixel := fun x _ =>
    if x = 0 then { red := 255, green := 0, blue := 0, alpha := 255 }
    else { red := 0, green := 0, blue := 255, alpha := 128 }

/-- Case-insensitive search of a list of characters at the head of another. -/
def startsWithChars : List Char → List Char → Bool
  | _, [] => true
  | [], _ :: _ => false
  | a :: text, c :: str => a == c && startsWithChars text str

/-- Case-insensitive search of a list of characters inside another. -/
def containsChars : List Char → List Char → Bool
  | [], str => str.isEmpty
  | a :: text, str => startsWithChars (a :: text) str || containsChars text str

/-- The search `contains` for texts of ASCII letters: both sides in lower case. -/
def demoStr : QStringOps where
  contains := fun text str =>
    containsChars (text.toList.map Char.toLower) (str.toList.map Char.toLower)
  contains_empty := fun text => by
    show containsChars (text.toList.map Char.toLower) [] = true
    generalize text.toList.map Char.toLower = chars
    cases chars <;> rfl

/-- The key of the plugin `sine`, version 1, shown as `Sine`. -/
def demoSineKey : PluginKey := { name := "sine", version := "1", displayName := "Sine" }

/-- The key of the plugin `saw`, version 1, shown as `Saw`. -/
def demoSawKey : PluginKey := { name := "saw", version := "1", displayName := "Saw" }

/-- A plugin tree with one section that holds the two plugins, both visible. -/
def demoPlugins : List QTreeWidgetItem :=
  [QTreeWidgetItem.mk "Synthesizer" false none
    [QTreeWidgetItem.mk "" false (some (PluginDescWidget.construct demoSineKey)) [],
     QTreeWidgetItem.mk "" false (some (PluginDescWidget.construct demoSawKey)) []]]

/-- A favourites manager without favourites. -/
def demoNoFavorites : FavoritesState DemoVariant where
  self := { m_favorites := ∅ }
  world := demoWorld (demoFavoritesDisk true)

/-- The browser as its constructor leaves it on `demoPlugins` when there are no
favourites: the plugin section, then an empty Favorites section. -/
def demoBrowser : PluginBrowser where
  m_descTree := demoPlugins ++ [QTreeWidgetItem.mk "Favorites" false none []]
  m_favoritesRoot := 1
  m_showFavoritesOnly := false

/-- A favourites manager whose only favourite is the plugin `sine:1`. -/
def demoSineFavorite : FavoritesState DemoVariant where
  self := { m_favorites := {"sine:1"} }
  world := demoWorld (demoFavoritesDisk true)

/-- The browser as its constructor leaves it on `demoPlugins` when `sine:1` is the
only favourite: the Favorites section holds the clone of the item of `sine`. -/
def demoFavoriteBrowser : PluginBrowser where
  m_descTree := demoPlugins ++
    [QTreeWidgetItem.mk "Favorites" false none
      [QTreeWidgetItem.mk "" false (some (PluginDescWidget.construct demoSineKey)) []]]
  m_favoritesRoot := 1
  m_showFavoritesOnly := false

/-- A press state around `demoFavoriteBrowser` in which nothing was dragged yet. -/
def demoFavoritePress : PressState DemoVariant where
  system := { favorites := demoSineFavorite, browser := demoFavoriteBrowser }
  updates := 0
  dndPluginKey := none
  drags := []

/-- The tree of `demoFavoriteBrowser` with the favourites-only flag set. -/
def demoFavoritesOnlyBrowser : PluginBrowser where
  m_descTree := demoFavoriteBrowser.m_descTree
  m_favoritesRoot := 1
  m_showFavoritesOnly := true

/-- A plugin tree whose only item is the item of `sine`, at the top level. -/
def demoFlatPlugins : List QTreeWidgetItem :=
  [QTreeWidgetItem.mk "" false (some (PluginDescWidget.construct demoSineKey)) []]

/-- The browser as its constructor leaves it on `demoFlatPlugins` when there are
no favourites. -/
def demoFlatBrowser : PluginBrowser where
  m_descTree := demoFlatPlugins ++ [QTreeWidgetItem.mk "Favorites" false none []]
  m_favoritesRoot := 1
  m_showFavoritesOnly := false

/-- A left press at the point `(x, y)`. -/
def demoLeftPress (x y : Int) : QMouseEvent :=
  { button := MouseButton.LeftButton, x := x, y := y }

/-- For each item the iterator visits: the plugin id of its widget, if it has
one, and its hidden flag. -/
def QTreeWidgetItem.flags (tree : List QTreeWidgetItem) : List (Option QString × Bool) :=
  (QTreeWidgetItem.itemsOf tree).map
    (fun item => (item.itemWidget.map PluginDescWidget.pluginId, item.isHidden))

/-- The disk `demoDisk` on which only the `custom.json` of the theme `default`
opens for writing. -/
def demoDiskReadOnlyLight : FileSystem where
  dirExists := demoDisk.dirExists
  files := demoDisk.files
  writable := fun p => p = "data/themes/default/custom.json"

/-- The theme manager right after its construction on `demoDiskReadOnlyLight`. -/
def demoStartReadOnlyLight : ThemeState DemoVariant :=
  ThemeManager.construct demoQt demoOps (demoWorld demoDiskReadOnlyLight)

/-! ## Properties -/

/-! ### What loading the two theme files changes -/

theorem loadConfigAndStyleSheet_frame (qt : Qt) (themePath : QString) (s : ThemeState V) :
    (ThemeManager.loadConfigAndStyleSheet qt themePath s).2.self.m_currentTheme =
        s.self.m_currentTheme ∧
      (ThemeManager.loadConfigAndStyleSheet qt themePath s).2.self.m_previewTheme =
        s.self.m_previewTheme ∧
      (ThemeManager.loadConfigAndStyleSheet qt themePath s).2.self.m_isPreviewActive =
        s.self.m_isPreviewActive ∧
      (ThemeManager.loadConfigAndStyleSheet qt themePath s).2.self.m_customProperties =
        s.self.m_customProperties ∧
      (ThemeManager.loadConfigAndStyleSheet qt themePath s).2.world.fs = s.world.fs ∧
      (ThemeManager.loadConfigAndStyleSheet qt themePath s).2.world.dataDir = s.world.dataDir ∧
      (ThemeManager.loadConfigAndStyleSheet qt themePath s).2.world.signals =
        s.world.signals := by
  unfold ThemeManager.loadConfigAndStyleSheet ThemeManager.loadThemeConfig
    ThemeManager.loadThemeStyleSheet World.readAll World.qWarning
  cases hcfg : s.world.fs.files (themePath ++ "theme.json") with
  | none => simp [hcfg]
  | some cfg =>
    cases hnull : (qt.fromJson cfg).isNull with
    | true => simp [hcfg, hnull]
    | false =>
      cases hcss : s.world.fs.files (themePath ++ "style.css") with
      | none => simp [hcfg, hnull, hcss]
      | some css => simp [hcfg, hnull, hcss]

theorem lcs_currentTheme (qt : Qt) (themePath : QString) (s : ThemeState V) :
    (ThemeManager.loadConfigAndStyleSheet qt themePath s).2.self.m_currentTheme =
      s.self.m_currentTheme :=
  (loadConfigAndStyleSheet_frame qt themePath s).1

theorem lcs_previewTheme (qt : Qt) (themePath : QString) (s : ThemeState V) :
    (ThemeManager.loadConfigAndStyleSheet qt themePath s).2.self.m_previewTheme =
      s.self.m_previewTheme :=
  (loadConfigAndStyleSheet_frame qt themePath s).2.1

theorem lcs_isPreviewActive (qt : Qt) (themePath : QString) (s : ThemeState V) :
    (ThemeManager.loadConfigAndStyleSheet qt themePath s).2.self.m_isPreviewActive =
      s.self.m_isPreviewActive :=
  (loadConfigAndStyleSheet_frame qt themePath s).2.2.1

theorem lcs_customProperties (qt : Qt) (themePath : QString) (s : ThemeState V) :
    (ThemeManager.loadConfigAndStyleSheet qt themePath s).2.self.m_customProperties =
      s.self.m_customProperties :=
  (loadConfigAndStyleSheet_frame qt themePath s).2.2.2.1

theorem lcs_fs (qt : Qt) (themePath : QString) (s : ThemeState V) :
    (ThemeManager.loadConfigAndStyleSheet qt themePath s).2.world.fs = s.world.fs :=
  (loadConfigAndStyleSheet_frame qt themePath s).2.2.2.2.1

theorem lcs_dataDir (qt : Qt) (themePath : QString) (s : ThemeState V) :
    (ThemeManager.loadConfigAndStyleSheet qt themePath s).2.world.dataDir = s.world.dataDir :=
  (loadConfigAndStyleSheet_frame qt themePath s).2.2.2.2.2.1

theorem lcs_signals (qt : Qt) (themePath : QString) (s : ThemeState V) :
    (ThemeManager.loadConfigAndStyleSheet qt themePath s).2.world.signals = s.world.signals :=
  (loadConfigAndStyleSheet_frame qt themePath s).2.2.2.2.2.2

theorem loadConfigAndStyleSheet_eq_true_iff (qt : Qt) (themePath : QString) (s : ThemeState V) :
    (ThemeManager.loadConfigAndStyleSheet qt themePath s).1 = true ↔
      ∃ cfg css, s.world.fs.files (themePath ++ "theme.json") = some cfg ∧
        (qt.fromJson cfg).isNull = false ∧
        s.world.fs.files (themePath ++ "style.css") = some css ∧
        (ThemeManager.loadConfigAndStyleSheet qt themePath s).2.self.m_themeStyleSheet =
          qt.fromUtf8 css ∧
        (ThemeManager.loadConfigAndStyleSheet qt themePath s).2.self.m_themeConfig =
          (QJsonObject.ref (qt.fromJson cfg).toObject "darkMode").1 ∧
        (ThemeManager.loadConfigAndStyleSheet qt themePath s).2.self.m_isDarkMode =
          (QJsonObject.ref (qt.fromJson cfg).toObject "darkMode").2.toBool true := by
  unfold ThemeManager.loadConfigAndStyleSheet ThemeManager.loadThemeConfig
    ThemeManager.loadThemeStyleSheet World.readAll World.qWarning
  cases hcfg : s.world.fs.files (themePath ++ "theme.json") with
  | none => simp [hcfg]
  | some cfg =>
    cases hnull : (qt.fromJson cfg).isNull with
    | true => simp [hcfg, hnull]
    | false =>
      cases hcss : s.world.fs.files (themePath ++ "style.css") with
      | none => simp [hcfg, hnull, hcss]
      | some css => simp [hcfg, hnull, hcss]

theorem loadConfigAndStyleSheet_eq_false_styleSheet (qt : Qt) (themePath : QString)
    (s : ThemeState V) (h : (ThemeManager.loadConfigAndStyleSheet qt themePath s).1 = false) :
    (ThemeManager.loadConfigAndStyleSheet qt themePath s).2.self.m_themeStyleSheet =
      s.self.m_themeStyleSheet := by
  revert h
  unfold ThemeManager.loadConfigAndStyleSheet ThemeManager.loadThemeConfig
    ThemeManager.loadThemeStyleSheet World.readAll World.qWarning
  cases hcfg : s.world.fs.files (themePath ++ "theme.json") with
  | none => simp [hcfg]
  | some cfg =>
    cases hnull : (qt.fromJson cfg).isNull with
    | true => simp [hcfg, hnull]
    | false =>
      cases hcss : s.world.fs.files (themePath ++ "style.css") with
      | none => simp [hcfg, hnull, hcss]
      | some css => simp [hcfg, hnull, hcss]

theorem loadConfigAndStyleSheet_eq_false_iff (qt : Qt) (themePath : QString)
    (s : ThemeState V) :
    (ThemeManager.loadConfigAndStyleSheet qt themePath s).1 = false ↔
      (s.world.fs.files (themePath ++ "theme.json") = none ∨
        (∃ bytes, s.world.fs.files (themePath ++ "theme.json") = some bytes ∧
          (qt.fromJson bytes).isNull = true) ∨
        s.world.fs.files (themePath ++ "style.css") = none) := by
  unfold ThemeManager.loadConfigAndStyleSheet ThemeManager.loadThemeConfig
    ThemeManager.loadThemeStyleSheet World.readAll World.qWarning
  cases hcfg : s.world.fs.files (themePath ++ "theme.json") with
  | none => simp [hcfg]
  | some cfg =>
    cases hnull : (qt.fromJson cfg).isNull with
    | true => simp [hcfg, hnull]
    | false =>
      cases hcss : s.world.fs.files (themePath ++ "style.css") with
      | none => simp [hcfg, hnull, hcss]
      | some css => simp [hcfg, hnull, hcss]

theorem loadTheme_fst (qt : Qt) (themeName : QString) (s : ThemeState V) :
    (ThemeManager.loadTheme qt themeName s).1 =
      (s.world.fs.dirExists (themePathOf s.world themeName) &&
        (ThemeManager.loadConfigAndStyleSheet qt (themePathOf s.world themeName) s).1) := by
  unfold ThemeManager.loadTheme
  cases hdir : s.world.fs.dirExists (themePathOf s.world themeName) with
  | false => simp [hdir]
  | true =>
    cases hload : (ThemeManager.loadConfigAndStyleSheet qt (themePathOf s.world themeName) s).1
      <;> simp [hdir, hload]

theorem loadConfigAndStyleSheet_ok (qt : Qt) (themePath : QString) (s : ThemeState V)
    (cfg css : QByteArray)
    (hcfg : s.world.fs.files (themePath ++ "theme.json") = some cfg)
    (hnull : (qt.fromJson cfg).isNull = false)
    (hcss : s.world.fs.files (themePath ++ "style.css") = some css) :
    (ThemeManager.loadConfigAndStyleSheet qt themePath s).1 = true ∧
      (ThemeManager.loadConfigAndStyleSheet qt themePath s).2.self.m_themeStyleSheet =
        qt.fromUtf8 css := by
  unfold ThemeManager.loadConfigAndStyleSheet ThemeManager.loadThemeConfig
    ThemeManager.loadThemeStyleSheet World.readAll World.qWarning
  simp [hcfg, hnull, hcss]

/-! ### What a preview changes -/

theorem previewTheme_frame (qt : Qt) (themeName : QString) (s : ThemeState V) :
    (ThemeManager.previewTheme qt themeName s).self.m_currentTheme = s.self.m_currentTheme ∧
      (ThemeManager.previewTheme qt themeName s).world.fs = s.world.fs ∧
      (ThemeManager.previewTheme qt themeName s).world.dataDir = s.world.dataDir := by
  unfold ThemeManager.previewTheme
  split
  · exact ⟨rfl, rfl, rfl⟩
  · dsimp only
    split <;> simp [ThemeManager.applyTheme, World.emit, lcs_currentTheme, lcs_fs, lcs_dataDir]

theorem previewTheme_eq_or_active (qt : Qt) (themeName : QString) (s : ThemeState V) :
    ThemeManager.previewTheme qt themeName s = s ∨
      (ThemeManager.previewTheme qt themeName s).self.m_isPreviewActive = true := by
  unfold ThemeManager.previewTheme
  split
  · exact Or.inl rfl
  · right
    dsimp only
    split <;> simp [ThemeManager.applyTheme, lcs_isPreviewActive]

theorem cancelPreview_currentTheme (qt : Qt) (s : ThemeState V) :
    (ThemeManager.cancelPreview qt s).self.m_currentTheme = s.self.m_currentTheme := by
  unfold ThemeManager.cancelPreview
  split
  · rfl
  · dsimp only
    split <;> simp [ThemeManager.applyTheme, lcs_currentTheme]

theorem cancelPreview_styleSheet_of_loadable (qt : Qt) (s : ThemeState V)
    (cfg css : QByteArray)
    (hactive : s.self.m_isPreviewActive = true)
    (hcfg : s.world.fs.files (themePathOf s.world s.self.m_currentTheme ++ "theme.json") =
      some cfg)
    (hnull : (qt.fromJson cfg).isNull = false)
    (hcss : s.world.fs.files (themePathOf s.world s.self.m_currentTheme ++ "style.css") =
      some css) :
    (ThemeManager.cancelPreview qt s).self.m_themeStyleSheet = qt.fromUtf8 css := by
  unfold ThemeManager.cancelPreview
  rw [if_neg (by simp [hactive])]
  dsimp only
  have hok := loadConfigAndStyleSheet_ok qt (themePathOf s.world s.self.m_currentTheme)
    { self := { m_currentTheme := s.self.m_currentTheme
                m_previewTheme := ""
                m_themeStyleSheet := s.self.m_themeStyleSheet
                m_themeConfig := s.self.m_themeConfig
                m_customProperties := s.self.m_customProperties
                m_isDarkMode := s.self.m_isDarkMode
                m_isPreviewActive := false }
      world := s.world } cfg css hcfg hnull hcss
  rw [if_pos hok.1]
  simpa [ThemeManager.applyTheme] using hok.2

/-! ### Theme loading -/

/-- What `loadTheme` never changes, and what a failed `loadTheme` keeps as well. -/
theorem loadTheme_frame (qt : Qt) (themeName : QString) (s : ThemeState V) :
    (ThemeManager.loadTheme qt themeName s).2.self.m_customProperties =
        s.self.m_customProperties ∧
      (ThemeManager.loadTheme qt themeName s).2.self.m_previewTheme = s.self.m_previewTheme ∧
      (ThemeManager.loadTheme qt themeName s).2.self.m_isPreviewActive =
        s.self.m_isPreviewActive ∧
      (ThemeManager.loadTheme qt themeName s).2.world.fs = s.world.fs ∧
      ((ThemeManager.loadTheme qt themeName s).1 = false →
        (ThemeManager.loadTheme qt themeName s).2.self.m_currentTheme =
            s.self.m_currentTheme ∧
          (ThemeManager.loadTheme qt themeName s).2.self.m_themeStyleSheet =
            s.self.m_themeStyleSheet ∧
          (ThemeManager.loadTheme qt themeName s).2.world.signals = s.world.signals) := by
  unfold ThemeManager.loadTheme
  by_cases hdir : s.world.fs.dirExists (themePathOf s.world themeName) = false
  · simp [hdir, World.qWarning]
  · by_cases hfail :
        (ThemeManager.loadConfigAndStyleSheet qt (themePathOf s.world themeName) s).1 = false
    · simp [hdir, hfail, World.qWarning, lcs_customProperties, lcs_previewTheme,
        lcs_isPreviewActive, lcs_fs, lcs_currentTheme, lcs_signals,
        loadConfigAndStyleSheet_eq_false_styleSheet qt _ s hfail]
    · simp [hdir, hfail, World.emit, lcs_customProperties, lcs_previewTheme,
        lcs_isPreviewActive, lcs_fs]


/-- C1: loading a theme whose directory does not exist returns false and leaves
`currentTheme()` as it was. -/
theorem loadTheme_missing_directory (qt : Qt) (themeName : QString) (s : ThemeState V)
    (hdir : s.world.fs.dirExists (themePathOf s.world themeName) = false) :
    (ThemeManager.loadTheme qt themeName s).1 = false ∧
      ThemeManager.currentTheme (ThemeManager.loadTheme qt themeName s).2 =
        ThemeManager.currentTheme s := by
  simp [ThemeManager.loadTheme, hdir, ThemeManager.currentTheme]

/-- Witness of C1 on the example disk, which has no theme directory `nowhere`. -/
theorem loadTheme_missing_directory_witness :
    demoStart.world.fs.dirExists (themePathOf demoStart.world "nowhere") = false ∧
      ((ThemeManager.loadTheme demoQt "nowhere" demoStart).1 = false ∧
        ThemeManager.currentTheme (ThemeManager.loadTheme demoQt "nowhere" demoStart).2 =
          ThemeManager.currentTheme demoStart) :=
  ⟨by decide, loadTheme_missing_directory demoQt "nowhere" demoStart (by decide)⟩

/-- C5: `loadTheme(name)` returns false exactly when the theme directory is
missing, or `theme.json` does not open, or it opens but does not parse, or
`style.css` does not open; in every other case it returns true. -/
theorem loadTheme_eq_false_iff (qt : Qt) (themeName : QString) (s : ThemeState V) :
    ((ThemeManager.loadTheme qt themeName s).1 = false ↔
      (s.world.fs.dirExists (themePathOf s.world themeName) = false ∨
        s.world.fs.files (themePathOf s.world themeName ++ "theme.json") = none ∨
        (∃ bytes, s.world.fs.files (themePathOf s.world themeName ++ "theme.json") =
            some bytes ∧ (qt.fromJson bytes).isNull = true) ∨
        s.world.fs.files (themePathOf s.world themeName ++ "style.css") = none)) ∧
    ((ThemeManager.loadTheme qt themeName s).1 = true ↔
      ¬ (s.world.fs.dirExists (themePathOf s.world themeName) = false ∨
        s.world.fs.files (themePathOf s.world themeName ++ "theme.json") = none ∨
        (∃ bytes, s.world.fs.files (themePathOf s.world themeName ++ "theme.json") =
            some bytes ∧ (qt.fromJson bytes).isNull = true) ∨
        s.world.fs.files (themePathOf s.world themeName ++ "style.css") = none)) := by
  have hfalse : (ThemeManager.loadTheme qt themeName s).1 = false ↔
      (s.world.fs.dirExists (themePathOf s.world themeName) = false ∨
        s.world.fs.files (themePathOf s.world themeName ++ "theme.json") = none ∨
        (∃ bytes, s.world.fs.files (themePathOf s.world themeName ++ "theme.json") =
            some bytes ∧ (qt.fromJson bytes).isNull = true) ∨
        s.world.fs.files (themePathOf s.world themeName ++ "style.css") = none) := by
    rw [loadTheme_fst, Bool.and_eq_false_iff, loadConfigAndStyleSheet_eq_false_iff]
  refine ⟨hfalse, ?_⟩
  rw [← hfalse]
  cases (ThemeManager.loadTheme qt themeName s).1 <;> simp

/-- The state after a successful `loadTheme(name)`: the committed name, the decoded
style sheet, the parsed object after `operator[]` looked up `darkMode` in it, and
one more signal, `themeChanged(name)`. -/
theorem loadTheme_true_state (qt : Qt) (themeName : QString) (s : ThemeState V)
    (h : (ThemeManager.loadTheme qt themeName s).1 = true) :
    ∃ cfg css,
      s.world.fs.files (themePathOf s.world themeName ++ "theme.json") = some cfg ∧
      (qt.fromJson cfg).isNull = false ∧
      s.world.fs.files (themePathOf s.world themeName ++ "style.css") = some css ∧
      ThemeManager.currentTheme (ThemeManager.loadTheme qt themeName s).2 = themeName ∧
      ThemeManager.themeStyleSheet (ThemeManager.loadTheme qt themeName s).2 =
        qt.fromUtf8 css ∧
      ThemeManager.themeConfig (ThemeManager.loadTheme qt themeName s).2 =
        (QJsonObject.ref (qt.fromJson cfg).toObject "darkMode").1 ∧
      (ThemeManager.loadTheme qt themeName s).2.world.signals =
        s.world.signals ++ [Signal.themeChanged themeName] := by
  have hfst := loadTheme_fst qt themeName s
  rw [h] at hfst
  have hboth := Bool.and_eq_true_iff.mp hfst.symm
  obtain ⟨cfg, css, hcfg, hnull, hcss, hsheet, hconfig, _⟩ :=
    (loadConfigAndStyleSheet_eq_true_iff qt (themePathOf s.world themeName) s).mp hboth.2
  have hframe := loadConfigAndStyleSheet_frame qt (themePathOf s.world themeName) s
  refine ⟨cfg, css, hcfg, hnull, hcss, ?_⟩
  unfold ThemeManager.loadTheme ThemeManager.currentTheme ThemeManager.themeStyleSheet
    ThemeManager.themeConfig
  simp [hboth.1, hboth.2, World.emit, hsheet, hconfig, hframe.2.2.2.2.2.2]

/-- C7, at the failing input: the `theme.json` of the theme `dark` on the example
disk is an empty JSON object. `loadTheme("dark")` returns true, commits the name,
holds the decoded style sheet and emits `themeChanged("dark")` once, but
`themeConfig()` is not the parsed (empty) object: reading `m_themeConfig["darkMode"]`
has added a member `darkMode` with a null value to it. -/
theorem loadTheme_config_gains_darkMode :
    (ThemeManager.loadTheme demoQt "dark" demoStart).1 = true ∧
      demoStart.world.fs.files "data/themes/dark/theme.json" = some demoEmptyObjectText ∧
      (demoQt.fromJson demoEmptyObjectText).toObject = [] ∧
      ThemeManager.themeConfig (ThemeManager.loadTheme demoQt "dark" demoStart).2 =
        [("darkMode", QJsonValue.null)] ∧
      ThemeManager.currentTheme (ThemeManager.loadTheme demoQt "dark" demoStart).2 = "dark" ∧
      ThemeManager.themeStyleSheet (ThemeManager.loadTheme demoQt "dark" demoStart).2 =
        demoQt.fromUtf8 (ascii "b") ∧
      (ThemeManager.loadTheme demoQt "dark" demoStart).2.world.signals =
        demoStart.world.signals ++ [Signal.themeChanged "dark"] :=
  ⟨by decide, by decide, rfl, rfl, by decide, by decide, rfl⟩

/-- C6, at the failing input: the theme `broken` of the example disk has a
`theme.json` that parses and no `style.css`. `loadTheme("broken")` returns false
and keeps the committed name `default`, yet the metadata object and the
dark-mode flag held afterwards are those read from `broken/theme.json`. -/
theorem loadTheme_broken_replaces_config :
    (ThemeManager.loadTheme demoQt "broken" demoStart).1 = false ∧
      ThemeManager.currentTheme (ThemeManager.loadTheme demoQt "broken" demoStart).2 =
        "default" ∧
      ThemeManager.isDarkMode demoStart = true ∧
      ThemeManager.isDarkMode (ThemeManager.loadTheme demoQt "broken" demoStart).2 = false ∧
      ThemeManager.themeConfig demoStart = [("darkMode", QJsonValue.null)] ∧
      ThemeManager.themeConfig (ThemeManager.loadTheme demoQt "broken" demoStart).2 =
        [("darkMode", QJsonValue.bool false)] :=
  ⟨by decide, by decide, by decide, by decide, rfl, rfl⟩

/-- C10, at the failing input: while the theme `dark` is being previewed,
`loadTheme("dark")` returns true and commits `dark`, and afterwards
`isPreviewActive()` is still true and the preview name is still `dark`; the
same holds after the slot `ThemePreviewDialog::applyTheme`. -/
theorem loadTheme_keeps_preview_session :
    ThemeManager.isPreviewActive (ThemeManager.previewTheme demoQt "dark" demoStart) = true ∧
      (ThemeManager.loadTheme demoQt "dark"
        (ThemeManager.previewTheme demoQt "dark" demoStart)).1 = true ∧
      ThemeManager.currentTheme (ThemeManager.loadTheme demoQt "dark"
        (ThemeManager.previewTheme demoQt "dark" demoStart)).2 = "dark" ∧
      ThemeManager.isPreviewActive (ThemeManager.loadTheme demoQt "dark"
        (ThemeManager.previewTheme demoQt "dark" demoStart)).2 = true ∧
      (ThemeManager.loadTheme demoQt "dark"
        (ThemeManager.previewTheme demoQt "dark" demoStart)).2.self.m_previewTheme = "dark" ∧
      ThemeManager.isPreviewActive (ThemePreviewDialog.applyTheme demoQt "dark"
        (ThemeManager.previewTheme demoQt "dark" demoStart)) = true ∧
      (ThemePreviewDialog.applyTheme demoQt "dark"
        (ThemeManager.previewTheme demoQt "dark" demoStart)).self.m_previewTheme = "dark" :=
  ⟨by decide, by decide, by decide, by decide, by decide, by decide, by decide⟩

/-! ### Preview -/

/-- C8: `previewTheme(X)` with `X` empty or equal to `currentTheme()` returns at
once: the manager fields, the disk, the list of opened files, the application
style sheet, the refresh count and the emitted signals are all as before. -/
theorem previewTheme_noop (qt : Qt) (themeName : QString) (s : ThemeState V)
    (h : themeName = "" ∨ themeName = ThemeManager.currentTheme s) :
    ThemeManager.previewTheme qt themeName s = s := by
  unfold ThemeManager.previewTheme
  have hguard : themeName = s.self.m_currentTheme ∨ themeName = "" := by
    cases h with
    | inl h => exact Or.inr h
    | inr h => exact Or.inl h
  simp [hguard]

/-- Witness of C8: previewing the committed theme `default`. -/
theorem previewTheme_noop_witness :
    ("default" = "" ∨ "default" = ThemeManager.currentTheme demoStart) ∧
      ThemeManager.previewTheme demoQt "default" demoStart = demoStart :=
  ⟨Or.inr (by decide), previewTheme_noop demoQt "default" demoStart (Or.inr (by decide))⟩

/-- C9: neither `previewTheme(X)` nor `cancelPreview()` changes `currentTheme()`,
whether or not the files of the theme load. -/
theorem preview_keeps_currentTheme (qt : Qt) (themeName : QString) (s : ThemeState V) :
    ThemeManager.currentTheme (ThemeManager.previewTheme qt themeName s) =
        ThemeManager.currentTheme s ∧
      ThemeManager.currentTheme (ThemeManager.cancelPreview qt s) =
        ThemeManager.currentTheme s := by
  exact ⟨(previewTheme_frame qt themeName s).1, cancelPreview_currentTheme qt s⟩

/-- C2, as amended: when the style sheet held before the preview is the decoded
`style.css` of the committed theme, and that theme's `theme.json` (opens and
parses) and `style.css` (opens) load, then `previewTheme(X)` followed by
`cancelPreview()` leaves `themeStyleSheet()` equal to the style sheet held before. -/
theorem preview_cancel_restores (qt : Qt) (themeName : QString) (s : ThemeState V)
    (cfg css : QByteArray)
    (hcfg : s.world.fs.files
      (themePathOf s.world (ThemeManager.currentTheme s) ++ "theme.json") = some cfg)
    (hnull : (qt.fromJson cfg).isNull = false)
    (hcss : s.world.fs.files
      (themePathOf s.world (ThemeManager.currentTheme s) ++ "style.css") = some css)
    (hheld : ThemeManager.themeStyleSheet s = qt.fromUtf8 css) :
    ThemeManager.themeStyleSheet
        (ThemeManager.cancelPreview qt (ThemeManager.previewTheme qt themeName s)) =
      ThemeManager.themeStyleSheet s := by
  unfold ThemeManager.themeStyleSheet ThemeManager.currentTheme at *
  obtain ⟨hcur, hfs, hdir⟩ := previewTheme_frame qt themeName s
  cases hactive : (ThemeManager.previewTheme qt themeName s).self.m_isPreviewActive with
  | true =>
    rw [hheld]
    apply cancelPreview_styleSheet_of_loadable qt _ cfg css hactive
    · rw [hfs, hcur]
      simpa [themePathOf, hdir] using hcfg
    · exact hnull
    · rw [hfs, hcur]
      simpa [themePathOf, hdir] using hcss
  | false =>
    cases previewTheme_eq_or_active qt themeName s with
    | inl hsame =>
      rw [hsame] at hactive ⊢
      unfold ThemeManager.cancelPreview
      simp [hactive]
    | inr hact =>
      rw [hactive] at hact
      exact absurd hact (by decide)

/-- Witness of C2 as amended: previewing `dark` over the committed `default` of
the example disk and cancelling. -/
theorem preview_cancel_restores_witness :
    demoStart.world.fs.files
        (themePathOf demoStart.world (ThemeManager.currentTheme demoStart) ++ "theme.json") =
      some demoEmptyObjectText ∧
    (demoQt.fromJson demoEmptyObjectText).isNull = false ∧
    demoStart.world.fs.files
        (themePathOf demoStart.world (ThemeManager.currentTheme demoStart) ++ "style.css") =
      some (ascii "a") ∧
    ThemeManager.themeStyleSheet demoStart = demoQt.fromUtf8 (ascii "a") ∧
    ThemeManager.themeStyleSheet
        (ThemeManager.cancelPreview demoQt (ThemeManager.previewTheme demoQt "dark" demoStart)) =
      ThemeManager.themeStyleSheet demoStart :=
  ⟨by decide, by decide, by decide, by decide,
    preview_cancel_restores demoQt "dark" demoStart demoEmptyObjectText (ascii "a")
      (by decide) (by decide) (by decide) (by decide)⟩

/-- C2 as stated fails. First: with no `default` theme installed the manager
starts with an empty style sheet; after `previewTheme("dark")` and
`cancelPreview()` the style sheet of `dark` stays. Second: with every theme
installed and `dark` under preview, `previewTheme("light")` followed by
`cancelPreview()` yields the style sheet of the committed `default`, not the one
held before `previewTheme("light")`. -/
theorem preview_cancel_not_restoring :
    ThemeManager.themeStyleSheet
        (ThemeManager.cancelPreview demoQt
          (ThemeManager.previewTheme demoQt "dark" demoStartWithoutDefault)) ≠
      ThemeManager.themeStyleSheet demoStartWithoutDefault ∧
    ThemeManager.themeStyleSheet
        (ThemeManager.cancelPreview demoQt
          (ThemeManager.previewTheme demoQt "light"
            (ThemeManager.previewTheme demoQt "dark" demoStart))) ≠
      ThemeManager.themeStyleSheet (ThemeManager.previewTheme demoQt "dark" demoStart) :=
  ⟨by decide, by decide⟩

/-! ### The override map and its file -/

theorem assocFind_assocSet_self {α : Type} (k : QString) (v : α) (l : List (QString × α)) :
    assocFind k (assocSet k v l) = some v := by
  induction l with
  | nil => simp [assocSet, assocFind]
  | cons e t ih =>
    obtain ⟨k1, v1⟩ := e
    by_cases hk : k1 = k
    · simp [assocSet, assocFind, hk]
    · simp [assocSet, assocFind, hk, ih]

theorem assocFind_assocSet_ne {α : Type} (k q : QString) (v : α) (l : List (QString × α))
    (hne : k ≠ q) : assocFind q (assocSet k v l) = assocFind q l := by
  induction l with
  | nil => simp [assocSet, assocFind, hne]
  | cons e t ih =>
    obtain ⟨k1, v1⟩ := e
    by_cases hk : k1 = k
    · subst hk
      simp [assocSet, assocFind, hne]
    · by_cases hq : k1 = q
      · subst hq
        simp [assocSet, assocFind, hk]
      · simp [assocSet, assocFind, hk, hq, ih]

theorem assocFind_eq_none_of_not_mem {α : Type} (q : QString) (l : List (QString × α))
    (hq : q ∉ l.map Prod.fst) : assocFind q l = none := by
  induction l with
  | nil => rfl
  | cons e t ih =>
    obtain ⟨k1, v1⟩ := e
    simp only [List.map_cons, List.mem_cons, not_or] at hq
    have hne : ¬ k1 = q := fun h => hq.1 h.symm
    simp [assocFind, hne, ih hq.2]

theorem mem_keys_assocSet {α : Type} (k x : QString) (v : α) (l : List (QString × α)) :
    x ∈ (assocSet k v l).map Prod.fst ↔ x = k ∨ x ∈ l.map Prod.fst := by
  induction l with
  | nil => simp [assocSet]
  | cons e t ih =>
    obtain ⟨k1, v1⟩ := e
    by_cases hk : k1 = k
    · subst hk
      simp [assocSet]
    · simp only [assocSet, hk, if_false, List.map_cons, List.mem_cons, ih]
      tauto

theorem nodup_keys_assocSet {α : Type} (k : QString) (v : α) (l : List (QString × α))
    (hl : (l.map Prod.fst).Nodup) : ((assocSet k v l).map Prod.fst).Nodup := by
  induction l with
  | nil => simp [assocSet]
  | cons e t ih =>
    obtain ⟨k1, v1⟩ := e
    simp only [List.map_cons, List.nodup_cons] at hl
    by_cases hk : k1 = k
    · subst hk
      simpa [assocSet] using hl
    · have hstep : assocSet k v ((k1, v1) :: t) = (k1, v1) :: assocSet k v t := by
        simp [assocSet, hk]
      rw [hstep, List.map_cons, List.nodup_cons, mem_keys_assocSet]
      exact ⟨fun hmem => hmem.elim hk hl.1, ih hl.2⟩

theorem nodup_keys_foldl_assocSet {α β : Type} (f : β → α)
    (l : List (Sigma fun _ : QString => β)) :
    ∀ acc : List (QString × α), (acc.map Prod.fst).Nodup →
      ((l.foldl (fun o e => assocSet e.1 (f e.2) o) acc).map Prod.fst).Nodup := by
  induction l with
  | nil => intro acc hacc; simpa using hacc
  | cons e t ih =>
    intro acc hacc
    simp only [List.foldl_cons]
    exact ih _ (nodup_keys_assocSet _ _ _ hacc)

theorem assocFind_foldl_assocSet {α β : Type} (f : β → α) (q : QString)
    (l : List (Sigma fun _ : QString => β)) :
    ∀ acc : List (QString × α), l.NodupKeys →
      assocFind q (l.foldl (fun o e => assocSet e.1 (f e.2) o) acc) =
        (List.dlookup q l).elim (assocFind q acc) (fun w => some (f w)) := by
  induction l with
  | nil => intro acc _; simp
  | cons e t ih =>
    intro acc hl
    obtain ⟨k1, v1⟩ := e
    rw [List.nodupKeys_cons] at hl
    simp only [List.foldl_cons]
    rw [ih _ hl.2]
    by_cases hk : k1 = q
    · subst hk
      have hnone : List.dlookup k1 t = none := List.dlookup_eq_none.mpr hl.1
      simp [hnone, List.dlookup_cons_eq, assocFind_assocSet_self]
    · have hne : q ≠ k1 := fun h => hk h.symm
      rw [List.dlookup_cons_ne t ⟨k1, v1⟩ hne, assocFind_assocSet_ne k1 q _ _ hk]

theorem lookup_foldl_insert {α β : Type} (g : α → β) (q : QString)
    (l : List (QString × α)) :
    ∀ acc : QMap β, (l.map Prod.fst).Nodup →
      (l.foldl (fun m kv => m.insert kv.1 (g kv.2)) acc).lookup q =
        (assocFind q l).elim (acc.lookup q) (fun j => some (g j)) := by
  induction l with
  | nil => intro acc _; simp [assocFind]
  | cons e t ih =>
    intro acc hl
    obtain ⟨k1, v1⟩ := e
    simp only [List.map_cons, List.nodup_cons] at hl
    simp only [List.foldl_cons]
    rw [ih _ hl.2]
    by_cases hk : k1 = q
    · subst hk
      rw [assocFind_eq_none_of_not_mem k1 t hl.1]
      simp [assocFind, AList.lookup_insert]
    · have hne : q ≠ k1 := fun h => hk h.symm
      simp [assocFind, hk, AList.lookup_insert_ne hne]

/-- Reading back what `saveThemeCustomizations` put into the JSON object: each key
holds its value sent through `fromVariant` and `toVariant`. -/
theorem lookup_customizationsOfJson_toJson (ops : QVariantOps V) (m : QMap V) (q : QString) :
    (ThemeManager.customizationsOfJson ops (ThemeManager.customizationsToJson ops m)).lookup q =
      (m.lookup q).map (fun w => ops.toVariant (ops.fromVariant w)) := by
  unfold ThemeManager.customizationsOfJson ThemeManager.customizationsToJson
  rw [lookup_foldl_insert ops.toVariant q _ ∅
      (nodup_keys_foldl_assocSet ops.fromVariant m.entries [] (by simp)),
    assocFind_foldl_assocSet ops.fromVariant q m.entries [] m.nodupKeys]
  unfold AList.lookup
  cases List.dlookup q m.entries <;> simp [assocFind]

theorem reloaded_after_save (qt : Qt) (ops : QVariantOps V) (s : ThemeState V)
    (hwritable : s.world.fs.writable
      (themePathOf s.world s.self.m_currentTheme ++ "custom.json") = true)
    (hjson : qt.fromJson (qt.toJson (QJsonDocument.object
        (ThemeManager.customizationsToJson ops s.self.m_customProperties))) =
      QJsonDocument.object (ThemeManager.customizationsToJson ops s.self.m_customProperties))
    (q : QString) :
    (ThemeManager.reloadedCustomizations qt ops
        (ThemeManager.applyTheme (ThemeManager.saveThemeCustomizations qt ops s))).lookup q =
      (s.self.m_customProperties.lookup q).map (fun w => ops.toVariant (ops.fromVariant w)) := by
  unfold ThemeManager.reloadedCustomizations ThemeManager.loadThemeCustomizations
    ThemeManager.saveThemeCustomizations ThemeManager.applyTheme World.writeAll World.readAll
  simp only [hwritable, if_true]
  simp only [themePathOf, if_true, hjson, QJsonDocument.toObject,
    lookup_customizationsOfJson_toJson]

/-- C4, as amended: when `setThemeProperty(p, v)` changes the override map (`p`
was unbound or bound to another value), the `custom.json` of the current theme
opens for writing, the printed document parses back to itself and every value
held in the map survives `fromVariant` followed by `toVariant`, then a fresh load
of the override file binds `p` to `v` and agrees with the in-memory map on every
key. -/
theorem setThemeProperty_persists [DecidableEq V] (qt : Qt) (ops : QVariantOps V)
    (property : QString) (value : V) (s : ThemeState V)
    (hchange : s.self.m_customProperties.lookup property ≠ some value)
    (hwritable : s.world.fs.writable
      (themePathOf s.world (ThemeManager.currentTheme s) ++ "custom.json") = true)
    (hjson : qt.fromJson (qt.toJson (QJsonDocument.object
        (ThemeManager.customizationsToJson ops
          (s.self.m_customProperties.insert property value)))) =
      QJsonDocument.object
        (ThemeManager.customizationsToJson ops
          (s.self.m_customProperties.insert property value)))
    (hvariant : ∀ q w, (s.self.m_customProperties.insert property value).lookup q = some w →
      ops.toVariant (ops.fromVariant w) = w) :
    (ThemeManager.reloadedCustomizations qt ops
        (ThemeManager.setThemeProperty qt ops property value s)).lookup property =
      some value ∧
    ∀ q, (ThemeManager.reloadedCustomizations qt ops
        (ThemeManager.setThemeProperty qt ops property value s)).lookup q =
      (ThemeManager.setThemeProperty qt ops property value s).self.m_customProperties.lookup q := by
  unfold ThemeManager.currentTheme at hwritable
  have hall : ∀ q, (ThemeManager.reloadedCustomizations qt ops
      (ThemeManager.setThemeProperty qt ops property value s)).lookup q =
      (s.self.m_customProperties.insert property value).lookup q := by
    intro q
    unfold ThemeManager.setThemeProperty
    rw [if_pos (Or.inr hchange)]
    dsimp only
    refine Eq.trans (reloaded_after_save qt ops _ ?_ ?_ q) ?_
    · exact hwritable
    · exact hjson
    · cases hq : (s.self.m_customProperties.insert property value).lookup q with
      | none => simp [hq]
      | some w => simp [hq, hvariant q w hq]
  have hmem : (ThemeManager.setThemeProperty qt ops property value s).self.m_customProperties =
      s.self.m_customProperties.insert property value := by
    unfold ThemeManager.setThemeProperty
    rw [if_pos (Or.inr hchange)]
    rfl
  refine ⟨?_, ?_⟩
  · rw [hall, AList.lookup_insert]
  · intro q
    rw [hall, hmem]

/-- Witness of C4 as amended: recolouring `primaryColor` on the example disk. -/
theorem setThemeProperty_persists_witness :
    demoStart.self.m_customProperties.lookup "primaryColor" ≠
      some (DemoVariant.string "#ff000000") ∧
    demoStart.world.fs.writable
      (themePathOf demoStart.world (ThemeManager.currentTheme demoStart) ++ "custom.json") =
        true ∧
    ((ThemeManager.reloadedCustomizations demoQt demoOps
        (ThemeManager.setThemeProperty demoQt demoOps "primaryColor"
          (DemoVariant.string "#ff000000") demoStart)).lookup "primaryColor" =
      some (DemoVariant.string "#ff000000") ∧
    ∀ q, (ThemeManager.reloadedCustomizations demoQt demoOps
        (ThemeManager.setThemeProperty demoQt demoOps "primaryColor"
          (DemoVariant.string "#ff000000") demoStart)).lookup q =
      (ThemeManager.setThemeProperty demoQt demoOps "primaryColor"
        (DemoVariant.string "#ff000000") demoStart).self.m_customProperties.lookup q) :=
  ⟨by decide, by decide,
    setThemeProperty_persists demoQt demoOps "primaryColor" (DemoVariant.string "#ff000000")
      demoStart (by decide) (by decide) rfl (fun _ w _ => by cases w <;> rfl)⟩

/-- C4 as stated fails: the manager loaded `primaryColor = "#ff112233"` from the
`custom.json` of `default` and then committed `dark`, whose `custom.json` opens
for writing. `setThemeProperty("primaryColor", "#ff112233")` finds the value
unchanged and writes nothing, so a fresh load of the override file of `dark`
does not bind `primaryColor`, while the in-memory map does. -/
theorem setThemeProperty_unchanged_not_persisted :
    ThemeManager.currentTheme demoDarkCommitted = "dark" ∧
    demoDarkCommitted.world.fs.writable
      (themePathOf demoDarkCommitted.world (ThemeManager.currentTheme demoDarkCommitted) ++
        "custom.json") = true ∧
    (ThemeManager.reloadedCustomizations demoQt demoOps
        (ThemeManager.setThemeProperty demoQt demoOps "primaryColor"
          (DemoVariant.string "#ff112233") demoDarkCommitted)).lookup "primaryColor" ≠
      some (DemoVariant.string "#ff112233") ∧
    (ThemeManager.setThemeProperty demoQt demoOps "primaryColor"
        (DemoVariant.string "#ff112233") demoDarkCommitted).self.m_customProperties.lookup
          "primaryColor" =
      some (DemoVariant.string "#ff112233") :=
  ⟨by decide, by decide, by decide, by decide⟩

/-! ### Favourites -/

/-- C3: toggling the same plugin id twice gives back the favourites set one
started from. -/
theorem toggleFavorite_twice (qt : Qt) (pluginId : QString) (s : FavoritesState V) :
    (FavoritesManager.toggleFavorite qt pluginId
      (FavoritesManager.toggleFavorite qt pluginId s)).self.m_favorites =
      s.self.m_favorites := by
  have htoggle : ∀ t : FavoritesState V,
      (FavoritesManager.toggleFavorite qt pluginId t).self.m_favorites =
        if pluginId ∈ t.self.m_favorites then t.self.m_favorites.erase pluginId
        else insert pluginId t.self.m_favorites := by
    intro t
    unfold FavoritesManager.toggleFavorite FavoritesManager.isFavorite
      FavoritesManager.addFavorite FavoritesManager.removeFavorite
      FavoritesManager.saveFavorites
    by_cases ht : pluginId ∈ t.self.m_favorites
    · simp [ht]
    · simp only [ht, decide_False, Bool.false_eq_true, if_false]
      split <;> rfl
  rw [htoggle, htoggle]
  by_cases h : pluginId ∈ s.self.m_favorites
  · simp [h, Finset.insert_erase]
  · simp [h, Finset.erase_insert]

/-! ### Setting and reading an override -/

theorem setThemeProperty_of_change [DecidableEq V] (qt : Qt) (ops : QVariantOps V)
    (property : QString) (value : V) (s : ThemeState V)
    (hchange : s.self.m_customProperties.lookup property ≠ some value) :
    ThemeManager.setThemeProperty qt ops property value s =
      ThemeManager.applyTheme (ThemeManager.saveThemeCustomizations qt ops
        { self := { m_currentTheme := s.self.m_currentTheme
                    m_previewTheme := s.self.m_previewTheme
                    m_themeStyleSheet := s.self.m_themeStyleSheet
                    m_themeConfig := s.self.m_themeConfig
                    m_customProperties := s.self.m_customProperties.insert property value
                    m_isDarkMode := s.self.m_isDarkMode
                    m_isPreviewActive := s.self.m_isPreviewActive }
          world := s.world.emit (Signal.themePropertyChanged property value) }) := by
  unfold ThemeManager.setThemeProperty
  rw [if_pos (Or.inr hchange)]

theorem setThemeProperty_of_same [DecidableEq V] (qt : Qt) (ops : QVariantOps V)
    (property : QString) (value : V) (s : ThemeState V)
    (hsame : s.self.m_customProperties.lookup property = some value) :
    ThemeManager.setThemeProperty qt ops property value s = s := by
  unfold ThemeManager.setThemeProperty
  simp [hsame]

theorem writeAll_opened (w : World V) (path : QString) (bytes : QByteArray) :
    (w.writeAll path bytes).opened = w.opened ++ [path] := by
  unfold World.writeAll
  split <;> rfl

theorem writeAll_files_of_writable (w : World V) (path : QString) (bytes : QByteArray)
    (hwritable : w.fs.writable path = true) :
    (w.writeAll path bytes).fs.files path = some bytes := by
  unfold World.writeAll
  simp [hwritable]

theorem writeAll_fs_of_not_writable (w : World V) (path : QString) (bytes : QByteArray)
    (hwritable : w.fs.writable path = false) :
    (w.writeAll path bytes).fs = w.fs := by
  unfold World.writeAll
  simp [hwritable]

theorem writeAll_frame (w : World V) (path : QString) (bytes : QByteArray) :
    (w.writeAll path bytes).signals = w.signals ∧
      (w.writeAll path bytes).userDataDir = w.userDataDir ∧
      (w.writeAll path bytes).dataDir = w.dataDir ∧
      (w.writeAll path bytes).fs.writable = w.fs.writable := by
  unfold World.writeAll
  split <;> exact ⟨rfl, rfl, rfl, rfl⟩

theorem setThemeProperty_customProperties [DecidableEq V] (qt : Qt) (ops : QVariantOps V)
    (property : QString) (value : V) (s : ThemeState V) (q : QString) :
    (ThemeManager.setThemeProperty qt ops property value s).self.m_customProperties.lookup q =
      if q = property then some value else s.self.m_customProperties.lookup q := by
  by_cases hsame : s.self.m_customProperties.lookup property = some value
  · rw [setThemeProperty_of_same qt ops property value s hsame]
    by_cases hq : q = property
    · subst hq
      simp [hsame]
    · simp [hq]
  · rw [setThemeProperty_of_change qt ops property value s hsame]
    show (s.self.m_customProperties.insert property value).lookup q = _
    by_cases hq : q = property
    · subst hq
      simp [AList.lookup_insert]
    · simp [hq, AList.lookup_insert_ne hq]

/-- C11: after `setThemeProperty(p, v)` the getter `themeProperty(p)` returns `v`,
for every other name `q` it returns what it returned before, and for a name the
override map does not bind it returns the invalid value. -/
theorem themeProperty_after_set [DecidableEq V] (qt : Qt) (ops : QVariantOps V)
    (property : QString) (value : V) (s : ThemeState V) :
    ThemeManager.themeProperty ops property
        (ThemeManager.setThemeProperty qt ops property value s) = value ∧
    (∀ q, q ≠ property →
      ThemeManager.themeProperty ops q (ThemeManager.setThemeProperty qt ops property value s) =
        ThemeManager.themeProperty ops q s) ∧
    (∀ q, s.self.m_customProperties.lookup q = none →
      ThemeManager.themeProperty ops q s = ops.invalid) := by
  unfold ThemeManager.themeProperty
  refine ⟨?_, ?_, ?_⟩
  · simp [setThemeProperty_customProperties]
  · intro q hq
    simp [setThemeProperty_customProperties, hq]
  · intro q hq
    simp [hq]

/-- Witness of C11: setting `fontSize` on the example manager leaves `primaryColor`
alone, and `spacing`, which nothing binds, reads as invalid. -/
theorem themeProperty_after_set_witness :
    "primaryColor" ≠ "fontSize" ∧
    demoStart.self.m_customProperties.lookup "spacing" = none ∧
    ThemeManager.themeProperty demoOps "primaryColor"
        (ThemeManager.setThemeProperty demoQt demoOps "fontSize" (DemoVariant.string "12")
          demoStart) =
      ThemeManager.themeProperty demoOps "primaryColor" demoStart ∧
    ThemeManager.themeProperty demoOps "spacing" demoStart = demoOps.invalid :=
  ⟨by decide, by decide,
    (themeProperty_after_set demoQt demoOps "fontSize" (DemoVariant.string "12")
      demoStart).2.1 "primaryColor" (by decide),
    (themeProperty_after_set demoQt demoOps "fontSize" (DemoVariant.string "12")
      demoStart).2.2 "spacing" (by decide)⟩

/-- C12, as amended: a call `setThemeProperty(p, v)` that changes the override map
(`p` unbound or bound to another value) runs `saveThemeCustomizations` and
`applyTheme`: the `custom.json` of the current theme is opened once for writing
and, when it opens, holds the printed override map; the application style sheet
is the held style sheet and the widgets are refreshed once. A call with the value
already held changes nothing at all. -/
theorem setThemeProperty_saves_and_applies [DecidableEq V] (qt : Qt) (ops : QVariantOps V)
    (property : QString) (value : V) (s : ThemeState V) :
    (s.self.m_customProperties.lookup property ≠ some value →
      (ThemeManager.setThemeProperty qt ops property value s).world.opened =
        s.world.opened ++ [themePathOf s.world (ThemeManager.currentTheme s) ++ "custom.json"] ∧
      (s.world.fs.writable
          (themePathOf s.world (ThemeManager.currentTheme s) ++ "custom.json") = true →
        (ThemeManager.setThemeProperty qt ops property value s).world.fs.files
            (themePathOf s.world (ThemeManager.currentTheme s) ++ "custom.json") =
          some (qt.toJson (QJsonDocument.object (ThemeManager.customizationsToJson ops
            (ThemeManager.setThemeProperty qt ops property value s).self.m_customProperties)))) ∧
      (ThemeManager.setThemeProperty qt ops property value s).world.appStyleSheet =
        ThemeManager.themeStyleSheet (ThemeManager.setThemeProperty qt ops property value s) ∧
      (ThemeManager.setThemeProperty qt ops property value s).world.refreshes =
        s.world.refreshes + 1) ∧
    (s.self.m_customProperties.lookup property = some value →
      ThemeManager.setThemeProperty qt ops property value s = s) := by
  refine ⟨?_, setThemeProperty_of_same qt ops property value s⟩
  intro hchange
  rw [setThemeProperty_of_change qt ops property value s hchange]
  unfold ThemeManager.currentTheme ThemeManager.themeStyleSheet
  refine ⟨?_, ?_, rfl, ?_⟩
  · exact writeAll_opened _ _ _
  · intro hwritable
    exact writeAll_files_of_writable _ _ _ hwritable
  · simp [ThemeManager.applyTheme, ThemeManager.saveThemeCustomizations, World.writeAll,
      World.emit]
    split <;> rfl

/-- Witness of C12 as amended: recolouring `primaryColor` on the example disk. -/
theorem setThemeProperty_saves_and_applies_witness :
    demoStart.self.m_customProperties.lookup "primaryColor" ≠
      some (DemoVariant.string "#ff000000") ∧
    demoStart.world.fs.writable
      (themePathOf demoStart.world (ThemeManager.currentTheme demoStart) ++ "custom.json") =
        true ∧
    (ThemeManager.setThemeProperty demoQt demoOps "primaryColor"
        (DemoVariant.string "#ff000000") demoStart).world.fs.files
          (themePathOf demoStart.world (ThemeManager.currentTheme demoStart) ++ "custom.json") =
      some (demoQt.toJson (QJsonDocument.object (ThemeManager.customizationsToJson demoOps
        (ThemeManager.setThemeProperty demoQt demoOps "primaryColor"
          (DemoVariant.string "#ff000000") demoStart).self.m_customProperties))) ∧
    (ThemeManager.setThemeProperty demoQt demoOps "primaryColor"
        (DemoVariant.string "#ff000000") demoStart).world.refreshes =
      demoStart.world.refreshes + 1 :=
  ⟨by decide, by decide,
    ((setThemeProperty_saves_and_applies demoQt demoOps "primaryColor"
      (DemoVariant.string "#ff000000") demoStart).1 (by decide)).2.1 (by decide),
    ((setThemeProperty_saves_and_applies demoQt demoOps "primaryColor"
      (DemoVariant.string "#ff000000") demoStart).1 (by decide)).2.2.2⟩

/-- C12 as stated fails. First: `setThemeProperty("primaryColor", "#ff112233")`
on the example manager, which already holds that value, opens no file and
refreshes nothing. Second: on the disk without the theme `default` the
`custom.json` of the current theme does not open for writing; the call changes
the map and re-applies, but no file holds the map afterwards. -/
theorem setThemeProperty_without_persistence :
    ((ThemeManager.setThemeProperty demoQt demoOps "primaryColor"
        (DemoVariant.string "#ff112233") demoStart).world.opened = demoStart.world.opened ∧
      (ThemeManager.setThemeProperty demoQt demoOps "primaryColor"
        (DemoVariant.string "#ff112233") demoStart).world.refreshes =
          demoStart.world.refreshes) ∧
    ((ThemeManager.setThemeProperty demoQt demoOps "primaryColor"
        (DemoVariant.string "#ff112233") demoStartWithoutDefault).self.m_customProperties.lookup
          "primaryColor" = some (DemoVariant.string "#ff112233") ∧
      demoStartWithoutDefault.self.m_customProperties.lookup "primaryColor" = none ∧
      (ThemeManager.setThemeProperty demoQt demoOps "primaryColor"
        (DemoVariant.string "#ff112233") demoStartWithoutDefault).world.refreshes =
          demoStartWithoutDefault.world.refreshes + 1 ∧
      (ThemeManager.setThemeProperty demoQt demoOps "primaryColor"
        (DemoVariant.string "#ff112233") demoStartWithoutDefault).world.fs.files
          "data/themes/default/custom.json" = none) :=
  ⟨⟨by decide, by decide⟩, by decide, by decide, by decide, by decide⟩

/-- C14: `applyTheme()` makes the application style sheet equal to
`themeStyleSheet()`, whatever it was before and whatever the override map holds,
and leaves every member of the theme manager as it was. -/
theorem applyTheme_pushes_styleSheet (s : ThemeState V) (overrides : QMap V)
    (previous : QString) :
    (ThemeManager.applyTheme s).world.appStyleSheet = ThemeManager.themeStyleSheet s ∧
    (ThemeManager.applyTheme s).self = s.self ∧
    (ThemeManager.applyTheme
        { self := s.self, world := { s.world with appStyleSheet := previous } }).world.appStyleSheet =
      ThemeManager.themeStyleSheet s ∧
    (ThemeManager.applyTheme
        { self := { s.self with m_customProperties := overrides }
          world := s.world }).world.appStyleSheet =
      (ThemeManager.applyTheme s).world.appStyleSheet :=
  ⟨rfl, rfl, rfl, rfl⟩

/-! ### The keys of the override map -/

theorem mem_foldl_insert {α β : Type} (g : α → β) (k : QString) (l : List (QString × α)) :
    ∀ acc : QMap β,
      k ∈ l.foldl (fun m kv => m.insert kv.1 (g kv.2)) acc ↔ k ∈ acc ∨ k ∈ l.map Prod.fst := by
  induction l with
  | nil => intro acc; simp
  | cons e t ih =>
    intro acc
    simp only [List.foldl_cons, List.map_cons, List.mem_cons]
    rw [ih, AList.mem_insert]
    tauto

theorem mem_customizationsOfJson (ops : QVariantOps V) (customizations : QJsonObject)
    (k : QString) :
    k ∈ ThemeManager.customizationsOfJson ops customizations ↔
      k ∈ customizations.map Prod.fst := by
  unfold ThemeManager.customizationsOfJson
  rw [mem_foldl_insert]
  simp [AList.not_mem_empty]

theorem previewTheme_customProperties (qt : Qt) (themeName : QString) (s : ThemeState V) :
    (ThemeManager.previewTheme qt themeName s).self.m_customProperties =
      s.self.m_customProperties := by
  unfold ThemeManager.previewTheme
  split
  · rfl
  · dsimp only
    split <;> simp [ThemeManager.applyTheme, lcs_customProperties]

theorem cancelPreview_customProperties (qt : Qt) (s : ThemeState V) :
    (ThemeManager.cancelPreview qt s).self.m_customProperties = s.self.m_customProperties := by
  unfold ThemeManager.cancelPreview
  split
  · rfl
  · dsimp only
    split <;> simp [ThemeManager.applyTheme, lcs_customProperties]

theorem loadThemeCustomizations_customProperties (qt : Qt) (ops : QVariantOps V)
    (s : ThemeState V) :
    (ThemeManager.loadThemeCustomizations qt ops s).self.m_customProperties =
      match s.world.fs.files
          (themePathOf s.world s.self.m_currentTheme ++ "custom.json") with
      | none => s.self.m_customProperties
      | some bytes => ThemeManager.customizationsOfJson ops (qt.fromJson bytes).toObject := by
  unfold ThemeManager.loadThemeCustomizations World.readAll
  cases hfile : s.world.fs.files
      (themePathOf s.world s.self.m_currentTheme ++ "custom.json") <;> simp [hfile]

/-- C13, as amended: neither `setThemeProperty` nor the override-file loader checks
a name. If every key of the override map is one of `customizableProperties()`,
it stays so after `setThemeProperty(p, v)` with `p` one of those names, after
`loadThemeCustomizations` when every key of the parsed `custom.json` is one of
those names (or the file does not open), and after `loadTheme`, `previewTheme`,
`cancelPreview` and `applyTheme`, which leave the map alone. -/
theorem customProperties_keys_enumerated [DecidableEq V] (qt : Qt) (ops : QVariantOps V)
    (property themeName : QString) (value : V) (s : ThemeState V)
    (hinv : ∀ k, k ∈ s.self.m_customProperties → k ∈ ThemeManager.customizableProperties) :
    (property ∈ ThemeManager.customizableProperties →
      ∀ k, k ∈ (ThemeManager.setThemeProperty qt ops property value s).self.m_customProperties →
        k ∈ ThemeManager.customizableProperties) ∧
    ((∀ bytes k, s.world.fs.files
          (themePathOf s.world (ThemeManager.currentTheme s) ++ "custom.json") = some bytes →
        k ∈ (qt.fromJson bytes).toObject.map Prod.fst →
        k ∈ ThemeManager.customizableProperties) →
      ∀ k, k ∈ (ThemeManager.loadThemeCustomizations qt ops s).self.m_customProperties →
        k ∈ ThemeManager.customizableProperties) ∧
    (ThemeManager.loadTheme qt themeName s).2.self.m_customProperties =
      s.self.m_customProperties ∧
    (ThemeManager.previewTheme qt themeName s).self.m_customProperties =
      s.self.m_customProperties ∧
    (ThemeManager.cancelPreview qt s).self.m_customProperties = s.self.m_customProperties ∧
    (ThemeManager.applyTheme s).self.m_customProperties = s.self.m_customProperties := by
  refine ⟨?_, ?_, (loadTheme_frame qt themeName s).1, previewTheme_customProperties qt themeName s,
    cancelPreview_customProperties qt s, rfl⟩
  · intro hproperty k hk
    rw [← AList.lookup_isSome, setThemeProperty_customProperties] at hk
    by_cases hkp : k = property
    · rw [hkp]
      exact hproperty
    · rw [if_neg hkp, AList.lookup_isSome] at hk
      exact hinv k hk
  · intro hfile k hk
    unfold ThemeManager.currentTheme at hfile
    rw [loadThemeCustomizations_customProperties] at hk
    cases hbytes : s.world.fs.files
        (themePathOf s.world s.self.m_currentTheme ++ "custom.json") with
    | none =>
      rw [hbytes] at hk
      exact hinv k hk
    | some bytes =>
      rw [hbytes] at hk
      exact hfile bytes k hbytes ((mem_customizationsOfJson ops _ k).mp hk)

/-- Witness of C13 as amended: the example manager binds `primaryColor` only, and
`fontSize` is set on it. -/
theorem customProperties_keys_enumerated_witness :
    (∀ k, k ∈ demoStart.self.m_customProperties → k ∈ ThemeManager.customizableProperties) ∧
    "fontSize" ∈ ThemeManager.customizableProperties ∧
    ∀ k, k ∈ (ThemeManager.setThemeProperty demoQt demoOps "fontSize"
        (DemoVariant.string "12") demoStart).self.m_customProperties →
      k ∈ ThemeManager.customizableProperties :=
  have hinv : ∀ k, k ∈ demoStart.self.m_customProperties →
      k ∈ ThemeManager.customizableProperties := by
    intro k hk
    have hkeys : demoStart.self.m_customProperties.keys = ["primaryColor"] := by decide
    rw [AList.mem_keys, hkeys, List.mem_singleton] at hk
    rw [hk]
    decide
  ⟨hinv, by decide,
    (customProperties_keys_enumerated demoQt demoOps "fontSize" "dark"
      (DemoVariant.string "12") demoStart hinv).1 (by decide)⟩

/-- C13 as stated fails. First: `setThemeProperty("shadowColor", ...)` on the
example manager binds `shadowColor`, which is not one of
`customizableProperties()`. Second: a manager constructed on a disk whose
`custom.json` binds `shadowColor` holds that key right after construction. -/
theorem customProperties_foreign_key :
    "shadowColor" ∉ ThemeManager.customizableProperties ∧
    (ThemeManager.setThemeProperty demoQt demoOps "shadowColor"
        (DemoVariant.string "#ff000000") demoStart).self.m_customProperties.lookup
          "shadowColor" = some (DemoVariant.string "#ff000000") ∧
    (ThemeManager.construct demoFavoritesQt demoOps
        (demoWorld demoForeignKeyDisk)).self.m_customProperties.lookup "shadowColor" =
      some (DemoVariant.string "#ff000000") :=
  ⟨by decide, by decide, by decide⟩

/-! ### The favourites set, its file and its signal -/

theorem addFavorite_of_condition (qt : Qt) (pluginId : QString) (s : FavoritesState V)
    (hcondition : qt.insertCondition s.self.m_favorites pluginId = true) :
    FavoritesManager.addFavorite qt pluginId s =
      { self := { m_favorites := insert pluginId s.self.m_favorites }
        world := (s.world.writeAll (favoritesFileOf s.world)
          (qt.toJson (QJsonDocument.array
            ((qt.setOrder (insert pluginId s.self.m_favorites)).map QJsonValue.string)))).emit
              (Signal.favoritesChanged pluginId) } := by
  simp [FavoritesManager.addFavorite, FavoritesManager.saveFavorites, hcondition]

theorem addFavorite_of_not_condition (qt : Qt) (pluginId : QString) (s : FavoritesState V)
    (hcondition : qt.insertCondition s.self.m_favorites pluginId = false) :
    FavoritesManager.addFavorite qt pluginId s =
      { self := { m_favorites := insert pluginId s.self.m_favorites }, world := s.world } := by
  simp [FavoritesManager.addFavorite, hcondition]

theorem removeFavorite_of_not_mem (qt : Qt) (pluginId : QString) (s : FavoritesState V)
    (hmem : pluginId ∉ s.self.m_favorites) :
    FavoritesManager.removeFavorite qt pluginId s = s := by
  obtain ⟨⟨favorites⟩, world⟩ := s
  simp only at hmem
  simp [FavoritesManager.removeFavorite, hmem, Finset.erase_eq_of_not_mem]

theorem removeFavorite_of_mem (qt : Qt) (pluginId : QString) (s : FavoritesState V)
    (hmem : pluginId ∈ s.self.m_favorites) :
    FavoritesManager.removeFavorite qt pluginId s =
      { self := { m_favorites := s.self.m_favorites.erase pluginId }
        world := (s.world.writeAll (favoritesFileOf s.world)
          (qt.toJson (QJsonDocument.array
            ((qt.setOrder (s.self.m_favorites.erase pluginId)).map QJsonValue.string)))).emit
              (Signal.favoritesChanged pluginId) } := by
  simp [FavoritesManager.removeFavorite, FavoritesManager.saveFavorites, hmem]

theorem toggleFavorite_of_mem (qt : Qt) (pluginId : QString) (s : FavoritesState V)
    (hmem : pluginId ∈ s.self.m_favorites) :
    FavoritesManager.toggleFavorite qt pluginId s =
      FavoritesManager.removeFavorite qt pluginId s := by
  simp [FavoritesManager.toggleFavorite, FavoritesManager.isFavorite, hmem]

theorem toggleFavorite_of_not_mem (qt : Qt) (pluginId : QString) (s : FavoritesState V)
    (hmem : pluginId ∉ s.self.m_favorites) :
    FavoritesManager.toggleFavorite qt pluginId s =
      FavoritesManager.addFavorite qt pluginId s := by
  simp [FavoritesManager.toggleFavorite, FavoritesManager.isFavorite, hmem]

theorem addFavorite_favorites (qt : Qt) (pluginId : QString) (s : FavoritesState V) :
    (FavoritesManager.addFavorite qt pluginId s).self.m_favorites =
      insert pluginId s.self.m_favorites := by
  cases hcondition : qt.insertCondition s.self.m_favorites pluginId with
  | true => rw [addFavorite_of_condition qt pluginId s hcondition]
  | false => rw [addFavorite_of_not_condition qt pluginId s hcondition]

theorem removeFavorite_favorites (qt : Qt) (pluginId : QString) (s : FavoritesState V) :
    (FavoritesManager.removeFavorite qt pluginId s).self.m_favorites =
      s.self.m_favorites.erase pluginId := by
  by_cases hmem : pluginId ∈ s.self.m_favorites
  · rw [removeFavorite_of_mem qt pluginId s hmem]
  · rw [removeFavorite_of_not_mem qt pluginId s hmem, Finset.erase_eq_of_not_mem hmem]

theorem toggleFavorite_favorites (qt : Qt) (pluginId : QString) (s : FavoritesState V) :
    (FavoritesManager.toggleFavorite qt pluginId s).self.m_favorites =
      if pluginId ∈ s.self.m_favorites then s.self.m_favorites.erase pluginId
      else insert pluginId s.self.m_favorites := by
  by_cases hmem : pluginId ∈ s.self.m_favorites
  · rw [toggleFavorite_of_mem qt pluginId s hmem, removeFavorite_favorites, if_pos hmem]
  · rw [toggleFavorite_of_not_mem qt pluginId s hmem, addFavorite_favorites, if_neg hmem]

/-- C16: `addFavorite(p)` yields the union with `p`, `removeFavorite(p)` the
difference, `toggleFavorite(p)` negates `isFavorite(p)`; none of them changes
`isFavorite(q)` for another id `q`; `getFavorites()` lists the members of the
set, each once. -/
theorem favorites_set_operations (qt : Qt) (pluginId : QString) (s : FavoritesState V) :
    (FavoritesManager.addFavorite qt pluginId s).self.m_favorites =
      s.self.m_favorites ∪ {pluginId} ∧
    (FavoritesManager.removeFavorite qt pluginId s).self.m_favorites =
      s.self.m_favorites \ {pluginId} ∧
    FavoritesManager.isFavorite pluginId (FavoritesManager.addFavorite qt pluginId s) = true ∧
    FavoritesManager.isFavorite pluginId (FavoritesManager.removeFavorite qt pluginId s) =
      false ∧
    FavoritesManager.isFavorite pluginId (FavoritesManager.toggleFavorite qt pluginId s) =
      !FavoritesManager.isFavorite pluginId s ∧
    (∀ q, q ≠ pluginId →
      FavoritesManager.isFavorite q (FavoritesManager.addFavorite qt pluginId s) =
        FavoritesManager.isFavorite q s ∧
      FavoritesManager.isFavorite q (FavoritesManager.removeFavorite qt pluginId s) =
        FavoritesManager.isFavorite q s ∧
      FavoritesManager.isFavorite q (FavoritesManager.toggleFavorite qt pluginId s) =
        FavoritesManager.isFavorite q s) ∧
    (FavoritesManager.getFavorites qt s).Nodup ∧
    (∀ x, x ∈ FavoritesManager.getFavorites qt s ↔ FavoritesManager.isFavorite x s = true) := by
  unfold FavoritesManager.isFavorite FavoritesManager.getFavorites
  rw [addFavorite_favorites, removeFavorite_favorites, toggleFavorite_favorites]
  refine ⟨?_, ?_, ?_, ?_, ?_, ?_, qt.setOrder_nodup _, ?_⟩
  · ext x
    simp [or_comm]
  · ext x
    simp [and_comm]
  · simp
  · simp
  · by_cases hmem : pluginId ∈ s.self.m_favorites <;> simp [hmem]
  · intro q hq
    refine ⟨?_, ?_, ?_⟩
    · simp [hq]
    · simp [hq]
    · by_cases hmem : pluginId ∈ s.self.m_favorites <;> simp [hmem, hq]
  · intro x
    simp [qt.mem_setOrder]

/-- Witness of C16: toggling `"sine"` leaves the membership of `"saw"` alone. -/
theorem favorites_set_operations_witness :
    "saw" ≠ "sine" ∧
    FavoritesManager.isFavorite "saw"
        (FavoritesManager.toggleFavorite demoFavoritesQt "sine" (demoFavorites true)) =
      FavoritesManager.isFavorite "saw" (demoFavorites true) :=
  ⟨by decide,
    ((favorites_set_operations demoFavoritesQt "sine" (demoFavorites true)).2.2.2.2.2.1
      "saw" (by decide)).2.2⟩

theorem favorites_effects_of_write (qt : Qt) (pluginId : QString) (w : World V)
    (favorites : Finset QString) (hwritable : w.fs.writable (favoritesFileOf w) = true) :
    ((w.writeAll (favoritesFileOf w) (qt.toJson (QJsonDocument.array
        ((qt.setOrder favorites).map QJsonValue.string)))).emit
          (Signal.favoritesChanged pluginId)).opened = w.opened ++ [favoritesFileOf w] ∧
    ((w.writeAll (favoritesFileOf w) (qt.toJson (QJsonDocument.array
        ((qt.setOrder favorites).map QJsonValue.string)))).emit
          (Signal.favoritesChanged pluginId)).fs.files (favoritesFileOf w) =
      some (qt.toJson (QJsonDocument.array ((qt.setOrder favorites).map QJsonValue.string))) ∧
    ((w.writeAll (favoritesFileOf w) (qt.toJson (QJsonDocument.array
        ((qt.setOrder favorites).map QJsonValue.string)))).emit
          (Signal.favoritesChanged pluginId)).signals =
      w.signals ++ [Signal.favoritesChanged pluginId] := by
  refine ⟨?_, ?_, ?_⟩
  · exact writeAll_opened _ _ _
  · exact writeAll_files_of_writable _ _ _ hwritable
  · show (w.writeAll _ _).signals ++ _ = _
    rw [(writeAll_frame _ _ _).1]

theorem addFavorite_effects (qt : Qt) (pluginId : QString) (s : FavoritesState V)
    (hwritable : s.world.fs.writable (favoritesFileOf s.world) = true)
    (hcondition : qt.insertCondition s.self.m_favorites pluginId = true) :
    (FavoritesManager.addFavorite qt pluginId s).world.opened =
        s.world.opened ++ [favoritesFileOf s.world] ∧
      (FavoritesManager.addFavorite qt pluginId s).world.fs.files (favoritesFileOf s.world) =
        some (qt.toJson (QJsonDocument.array (FavoritesManager.favoritesArray qt
          (FavoritesManager.addFavorite qt pluginId s)))) ∧
      (FavoritesManager.addFavorite qt pluginId s).world.signals =
        s.world.signals ++ [Signal.favoritesChanged pluginId] := by
  unfold FavoritesManager.favoritesArray
  rw [addFavorite_of_condition qt pluginId s hcondition]
  exact favorites_effects_of_write qt pluginId s.world _ hwritable

theorem removeFavorite_effects (qt : Qt) (pluginId : QString) (s : FavoritesState V)
    (hwritable : s.world.fs.writable (favoritesFileOf s.world) = true)
    (hmem : pluginId ∈ s.self.m_favorites) :
    (FavoritesManager.removeFavorite qt pluginId s).world.opened =
        s.world.opened ++ [favoritesFileOf s.world] ∧
      (FavoritesManager.removeFavorite qt pluginId s).world.fs.files (favoritesFileOf s.world) =
        some (qt.toJson (QJsonDocument.array (FavoritesManager.favoritesArray qt
          (FavoritesManager.removeFavorite qt pluginId s)))) ∧
      (FavoritesManager.removeFavorite qt pluginId s).world.signals =
        s.world.signals ++ [Signal.favoritesChanged pluginId] := by
  unfold FavoritesManager.favoritesArray
  rw [removeFavorite_of_mem qt pluginId s hmem]
  exact favorites_effects_of_write qt pluginId s.world _ hwritable

/-- C17, as amended: with `favorites.json` opening for writing,
`removeFavorite(p)` with `p` not a favourite returns the whole state unchanged;
an effective remove, which is also what `toggleFavorite(p)` does for a favourite,
opens the file once, leaves in it the printed array of the whole new set and
emits `favoritesChanged(p)` once. `addFavorite(p)`, which is also what
`toggleFavorite(p)` does for an id that is not a favourite, always leaves the set
with `p` inserted; it opens the file once, leaves in it the printed array of the
whole new set and emits `favoritesChanged(p)` once when its condition
`m_favorites.insert(p)` holds, and leaves everything but the set untouched when
the condition does not hold. -/
theorem favorites_write_and_emit (qt : Qt) (pluginId : QString) (s : FavoritesState V)
    (hwritable : s.world.fs.writable (favoritesFileOf s.world) = true) :
    (pluginId ∉ s.self.m_favorites → FavoritesManager.removeFavorite qt pluginId s = s) ∧
    (pluginId ∈ s.self.m_favorites →
      (FavoritesManager.removeFavorite qt pluginId s).world.opened =
        s.world.opened ++ [favoritesFileOf s.world] ∧
      (FavoritesManager.removeFavorite qt pluginId s).world.fs.files (favoritesFileOf s.world) =
        some (qt.toJson (QJsonDocument.array (FavoritesManager.favoritesArray qt
          (FavoritesManager.removeFavorite qt pluginId s)))) ∧
      (FavoritesManager.removeFavorite qt pluginId s).world.signals =
        s.world.signals ++ [Signal.favoritesChanged pluginId]) ∧
    (pluginId ∈ s.self.m_favorites →
      FavoritesManager.toggleFavorite qt pluginId s =
        FavoritesManager.removeFavorite qt pluginId s) ∧
    (pluginId ∉ s.self.m_favorites →
      FavoritesManager.toggleFavorite qt pluginId s =
        FavoritesManager.addFavorite qt pluginId s) ∧
    (FavoritesManager.addFavorite qt pluginId s).self.m_favorites =
      insert pluginId s.self.m_favorites ∧
    (qt.insertCondition s.self.m_favorites pluginId = true →
      (FavoritesManager.addFavorite qt pluginId s).world.opened =
        s.world.opened ++ [favoritesFileOf s.world] ∧
      (FavoritesManager.addFavorite qt pluginId s).world.fs.files (favoritesFileOf s.world) =
        some (qt.toJson (QJsonDocument.array (FavoritesManager.favoritesArray qt
          (FavoritesManager.addFavorite qt pluginId s)))) ∧
      (FavoritesManager.addFavorite qt pluginId s).world.signals =
        s.world.signals ++ [Signal.favoritesChanged pluginId]) ∧
    (qt.insertCondition s.self.m_favorites pluginId = false →
      (FavoritesManager.addFavorite qt pluginId s).world = s.world) := by
  refine ⟨removeFavorite_of_not_mem qt pluginId s, removeFavorite_effects qt pluginId s hwritable,
    toggleFavorite_of_mem qt pluginId s, toggleFavorite_of_not_mem qt pluginId s,
    addFavorite_favorites qt pluginId s, addFavorite_effects qt pluginId s hwritable, ?_⟩
  intro hcondition
  rw [addFavorite_of_not_condition qt pluginId s hcondition]

/-- Witness of C17 as amended: on the writable example disk, removing the
favourite `"sine"`, and adding `"sine"` where it is not a favourite and the
condition of `addFavorite` holds. -/
theorem favorites_write_and_emit_witness :
    (demoFavorites true).world.fs.writable (favoritesFileOf (demoFavorites true).world) = true ∧
    "sine" ∈ (demoFavorites true).self.m_favorites ∧
    (FavoritesManager.removeFavorite demoFavoritesQt "sine" (demoFavorites true)).world.signals =
      (demoFavorites true).world.signals ++ [Signal.favoritesChanged "sine"] ∧
    demoFavoritesQt.insertCondition demoNoFavorites.self.m_favorites "sine" = true ∧
    (FavoritesManager.addFavorite demoFavoritesQt "sine" demoNoFavorites).world.signals =
      demoNoFavorites.world.signals ++ [Signal.favoritesChanged "sine"] :=
  ⟨by decide, by decide,
    ((favorites_write_and_emit demoFavoritesQt "sine" (demoFavorites true)
      (by decide)).2.1 (by decide)).2.2,
    by decide,
    ((favorites_write_and_emit demoFavoritesQt "sine" demoNoFavorites
      (by decide)).2.2.2.2.2.1 (by decide)).2.2⟩

/-- C17 as stated fails. First: on the example disk whose `favorites.json` does
not open for writing, `toggleFavorite("sine")` removes `"sine"` from the set and
emits `favoritesChanged("sine")`, and the file still holds the array with
`"sine"`. Second: where an insertion used as a condition counts as true,
`addFavorite("sine")` with `"sine"` already a favourite leaves the set as it was
but opens the file and emits `favoritesChanged("sine")`. -/
theorem favorites_emit_without_write :
    (demoFavorites false).world.fs.writable (favoritesFileOf (demoFavorites false).world) =
      false ∧
    (FavoritesManager.toggleFavorite demoFavoritesQt "sine"
        (demoFavorites false)).self.m_favorites = ∅ ∧
    (FavoritesManager.toggleFavorite demoFavoritesQt "sine"
        (demoFavorites false)).world.signals = [Signal.favoritesChanged "sine"] ∧
    (FavoritesManager.toggleFavorite demoFavoritesQt "sine"
        (demoFavorites false)).world.fs.files "user/favorites.json" =
      some (demoElementText "sine") ∧
    "sine" ∈ (demoFavorites true).self.m_favorites ∧
    (FavoritesManager.addFavorite demoEagerQt "sine" (demoFavorites true)).self.m_favorites =
      (demoFavorites true).self.m_favorites ∧
    (FavoritesManager.addFavorite demoEagerQt "sine" (demoFavorites true)).world.opened =
      ["user/favorites.json"] ∧
    (FavoritesManager.addFavorite demoEagerQt "sine" (demoFavorites true)).world.signals =
      [Signal.favoritesChanged "sine"] :=
  ⟨by decide, by decide, rfl, by decide, by decide, by decide, by decide, rfl⟩

theorem toObject_toArray_of_isNull (doc : QJsonDocument) (hnull : doc.isNull = true) :
    doc.toObject = [] ∧ doc.toArray = [] := by
  cases doc with
  | null => exact ⟨rfl, rfl⟩
  | array a => simp [QJsonDocument.isNull] at hnull
  | object o => simp [QJsonDocument.isNull] at hnull

theorem loadFavorites_favorites (qt : Qt) (s : FavoritesState V) :
    (FavoritesManager.loadFavorites qt s).self.m_favorites =
      match s.world.fs.files (favoritesFileOf s.world) with
      | none => s.self.m_favorites
      | some bytes =>
        (qt.fromJson bytes).toArray.foldl (fun acc value => insert value.toString acc) ∅ := by
  unfold FavoritesManager.loadFavorites World.readAll
  cases hfile : s.world.fs.files (favoritesFileOf s.world) <;> simp [hfile]

/-- C18: `loadFavorites` and `loadThemeCustomizations` are called in one place
each, the constructor of their manager. There a `favorites.json` (a `custom.json`
of the current theme) that cannot be opened, or that opens but does not parse as
JSON, leaves the favourites set (the override map) exactly as it was before the
call. For a file that cannot be opened this holds in every state. -/
theorem loaders_on_bad_file (qt : Qt) (ops : QVariantOps V) (w : World V) :
    FavoritesManager.construct qt w =
      FavoritesManager.loadFavorites qt (FavoritesManager.beforeLoad w) ∧
    ThemeManager.construct qt ops w =
      ThemeManager.loadThemeCustomizations qt ops (ThemeManager.beforeCustomizations qt w) ∧
    (∀ bytes, w.fs.files (favoritesFileOf w) = some bytes →
      (qt.fromJson bytes).isNull = true →
      (FavoritesManager.loadFavorites qt (FavoritesManager.beforeLoad w)).self.m_favorites =
        (FavoritesManager.beforeLoad w).self.m_favorites) ∧
    (∀ bytes, (ThemeManager.beforeCustomizations qt w).world.fs.files
        (themePathOf (ThemeManager.beforeCustomizations qt w).world
          (ThemeManager.currentTheme (ThemeManager.beforeCustomizations qt w)) ++
            "custom.json") = some bytes →
      (qt.fromJson bytes).isNull = true →
      (ThemeManager.loadThemeCustomizations qt ops
          (ThemeManager.beforeCustomizations qt w)).self.m_customProperties =
        (ThemeManager.beforeCustomizations qt w).self.m_customProperties) ∧
    (∀ favorites : FavoritesState V,
      favorites.world.fs.files (favoritesFileOf favorites.world) = none →
      (FavoritesManager.loadFavorites qt favorites).self.m_favorites =
        favorites.self.m_favorites) ∧
    (∀ theme : ThemeState V,
      theme.world.fs.files
        (themePathOf theme.world (ThemeManager.currentTheme theme) ++ "custom.json") = none →
      (ThemeManager.loadThemeCustomizations qt ops theme).self.m_customProperties =
        theme.self.m_customProperties) := by
  unfold ThemeManager.currentTheme
  refine ⟨rfl, rfl, ?_, ?_, ?_, ?_⟩
  · intro bytes hfile hnull
    have hfile2 : (FavoritesManager.beforeLoad w).world.fs.files
        (favoritesFileOf (FavoritesManager.beforeLoad w).world) = some bytes := hfile
    rw [loadFavorites_favorites, hfile2]
    simp [(toObject_toArray_of_isNull _ hnull).2, FavoritesManager.beforeLoad]
  · intro bytes hfile hnull
    have hbefore : (ThemeManager.beforeCustomizations qt w).self.m_customProperties = ∅ := by
      unfold ThemeManager.beforeCustomizations
      exact (loadTheme_frame qt "default" _).1
    rw [loadThemeCustomizations_customProperties, hfile, hbefore]
    simp only [(toObject_toArray_of_isNull _ hnull).1]
    rfl
  · intro favorites hfile
    rw [loadFavorites_favorites, hfile]
  · intro theme hfile
    rw [loadThemeCustomizations_customProperties, hfile]

/-- Witness of C18: the two constructors on the disk whose `favorites.json` and
`custom.json` hold text that is not JSON. -/
theorem loaders_on_bad_file_witness :
    (demoWorld demoMalformedDisk).fs.files (favoritesFileOf (demoWorld demoMalformedDisk)) =
      some demoMalformedText ∧
    (ThemeManager.beforeCustomizations demoQt (demoWorld demoMalformedDisk)).world.fs.files
        (themePathOf (ThemeManager.beforeCustomizations demoQt (demoWorld demoMalformedDisk)).world
          (ThemeManager.currentTheme
            (ThemeManager.beforeCustomizations demoQt (demoWorld demoMalformedDisk))) ++
            "custom.json") = some demoMalformedText ∧
    (demoQt.fromJson demoMalformedText).isNull = true ∧
    (FavoritesManager.loadFavorites demoQt
        (FavoritesManager.beforeLoad (demoWorld demoMalformedDisk))).self.m_favorites =
      (FavoritesManager.beforeLoad (demoWorld demoMalformedDisk) :
        FavoritesState DemoVariant).self.m_favorites ∧
    (ThemeManager.loadThemeCustomizations demoQt demoOps
        (ThemeManager.beforeCustomizations demoQt
          (demoWorld demoMalformedDisk))).self.m_customProperties =
      (ThemeManager.beforeCustomizations demoQt
        (demoWorld demoMalformedDisk)).self.m_customProperties :=
  ⟨by decide, by decide, by decide,
    (loaders_on_bad_file demoQt demoOps (demoWorld demoMalformedDisk)).2.2.1
      demoMalformedText (by decide) (by decide),
    (loaders_on_bad_file demoQt demoOps (demoWorld demoMalformedDisk)).2.2.2.1
      demoMalformedText (by decide) (by decide)⟩

/-! ### Destroyed children of the application object -/

theorem childDestroyed_child (g : GuiApplication) (obj : QObjectPtr) (c : Child) :
    (g.childDestroyed obj).child c = g.child c ∨
      ((g.childDestroyed obj).child c = none ∧ g.child c = obj) := by
  cases c
  all_goals
    unfold GuiApplication.childDestroyed
    by_cases h1 : obj = g.m_mainWindow
    · rw [if_pos h1]
      first
        | exact Or.inl rfl
        | exact Or.inr ⟨rfl, h1.symm⟩
    rw [if_neg h1]
    by_cases h2 : obj = g.m_mixerView
    · rw [if_pos h2]
      first
        | exact Or.inl rfl
        | exact Or.inr ⟨rfl, h2.symm⟩
    rw [if_neg h2]
    by_cases h3 : obj = g.m_songEditor
    · rw [if_pos h3]
      first
        | exact Or.inl rfl
        | exact Or.inr ⟨rfl, h3.symm⟩
    rw [if_neg h3]
    by_cases h4 : obj = g.m_automationEditor
    · rw [if_pos h4]
      first
        | exact Or.inl rfl
        | exact Or.inr ⟨rfl, h4.symm⟩
    rw [if_neg h4]
    by_cases h5 : obj = g.m_patternEditor
    · rw [if_pos h5]
      first
        | exact Or.inl rfl
        | exact Or.inr ⟨rfl, h5.symm⟩
    rw [if_neg h5]
    by_cases h6 : obj = g.m_pianoRoll
    · rw [if_pos h6]
      first
        | exact Or.inl rfl
        | exact Or.inr ⟨rfl, h6.symm⟩
    rw [if_neg h6]
    by_cases h7 : obj = g.m_projectNotes
    · rw [if_pos h7]
      first
        | exact Or.inl rfl
        | exact Or.inr ⟨rfl, h7.symm⟩
    rw [if_neg h7]
    by_cases h8 : obj = g.m_microtunerConfig
    · rw [if_pos h8]
      first
        | exact Or.inl rfl
        | exact Or.inr ⟨rfl, h8.symm⟩
    rw [if_neg h8]
    by_cases h9 : obj = g.m_controllerRackView
    · rw [if_pos h9]
      first
        | exact Or.inl rfl
        | exact Or.inr ⟨rfl, h9.symm⟩
    rw [if_neg h9]
    exact Or.inl rfl

theorem childDestroyed_first (g : GuiApplication) (obj : QObjectPtr)
    (hsome : ∃ c, g.child c = obj) :
    ∃ c, g.child c = obj ∧ (g.childDestroyed obj).child c = none := by
  by_cases h1 : obj = g.m_mainWindow
  · refine ⟨Child.mainWindow, h1.symm, ?_⟩
    unfold GuiApplication.childDestroyed
    rw [if_pos h1]
    rfl
  by_cases h2 : obj = g.m_mixerView
  · refine ⟨Child.mixerView, h2.symm, ?_⟩
    unfold GuiApplication.childDestroyed
    rw [if_neg h1, if_pos h2]
    rfl
  by_cases h3 : obj = g.m_songEditor
  · refine ⟨Child.songEditor, h3.symm, ?_⟩
    unfold GuiApplication.childDestroyed
    rw [if_neg h1, if_neg h2, if_pos h3]
    rfl
  by_cases h4 : obj = g.m_automationEditor
  · refine ⟨Child.automationEditor, h4.symm, ?_⟩
    unfold GuiApplication.childDestroyed
    rw [if_neg h1, if_neg h2, if_neg h3, if_pos h4]
    rfl
  by_cases h5 : obj = g.m_patternEditor
  · refine ⟨Child.patternEditor, h5.symm, ?_⟩
    unfold GuiApplication.childDestroyed
    rw [if_neg h1, if_neg h2, if_neg h3, if_neg h4, if_pos h5]
    rfl
  by_cases h6 : obj = g.m_pianoRoll
  · refine ⟨Child.pianoRoll, h6.symm, ?_⟩
    unfold GuiApplication.childDestroyed
    rw [if_neg h1, if_neg h2, if_neg h3, if_neg h4, if_neg h5, if_pos h6]
    rfl
  by_cases h7 : obj = g.m_projectNotes
  · refine ⟨Child.projectNotes, h7.symm, ?_⟩
    unfold GuiApplication.childDestroyed
    rw [if_neg h1, if_neg h2, if_neg h3, if_neg h4, if_neg h5, if_neg h6, if_pos h7]
    rfl
  by_cases h8 : obj = g.m_microtunerConfig
  · refine ⟨Child.microtunerConfig, h8.symm, ?_⟩
    unfold GuiApplication.childDestroyed
    rw [if_neg h1, if_neg h2, if_neg h3, if_neg h4, if_neg h5, if_neg h6, if_neg h7, if_pos h8]
    rfl
  by_cases h9 : obj = g.m_controllerRackView
  · refine ⟨Child.controllerRackView, h9.symm, ?_⟩
    unfold GuiApplication.childDestroyed
    rw [if_neg h1, if_neg h2, if_neg h3, if_neg h4, if_neg h5, if_neg h6, if_neg h7, if_neg h8, if_pos h9]
    rfl
  obtain ⟨c, hc⟩ := hsome
  cases c <;> simp only [GuiApplication.child] at hc
  · exact absurd hc.symm h1
  · exact absurd hc.symm h2
  · exact absurd hc.symm h3
  · exact absurd hc.symm h4
  · exact absurd hc.symm h5
  · exact absurd hc.symm h6
  · exact absurd hc.symm h7
  · exact absurd hc.symm h8
  · exact absurd hc.symm h9

/-- C19: the nine tracked children being distinct objects (no two members hold
the same non-null pointer), after `childDestroyed(obj)` the accessor of a child
equal to `obj` returns null, the accessor of every child different from `obj`
returns what it returned before, and for an `obj` that is none of the children
nothing changes. -/
theorem childDestroyed_clears (g : GuiApplication) (obj : QObjectPtr)
    (hdistinct : ∀ c d : Child, c ≠ d → g.child c = g.child d → g.child c = none) :
    (∀ c, g.child c = obj → (g.childDestroyed obj).child c = none) ∧
    (∀ c, g.child c ≠ obj → (g.childDestroyed obj).child c = g.child c) ∧
    ((∀ c, g.child c ≠ obj) → g.childDestroyed obj = g) := by
  refine ⟨?_, ?_, ?_⟩
  · intro c hc
    obtain ⟨d, hd, hcleared⟩ := childDestroyed_first g obj ⟨c, hc⟩
    by_cases hcd : c = d
    · rw [hcd]
      exact hcleared
    · have hnull : g.child c = none := hdistinct c d hcd (hc.trans hd.symm)
      cases childDestroyed_child g obj c with
      | inl hsame => rw [hsame, hnull]
      | inr hnone => exact hnone.1
  · intro c hc
    cases childDestroyed_child g obj c with
    | inl hsame => exact hsame
    | inr hnone => exact absurd hnone.2 hc
  · intro hnone
    have h1 := hnone Child.mainWindow
    have h2 := hnone Child.mixerView
    have h3 := hnone Child.songEditor
    have h4 := hnone Child.automationEditor
    have h5 := hnone Child.patternEditor
    have h6 := hnone Child.pianoRoll
    have h7 := hnone Child.projectNotes
    have h8 := hnone Child.microtunerConfig
    have h9 := hnone Child.controllerRackView
    simp only [GuiApplication.child] at h1 h2 h3 h4 h5 h6 h7 h8 h9
    unfold GuiApplication.childDestroyed
    rw [if_neg (Ne.symm h1), if_neg (Ne.symm h2), if_neg (Ne.symm h3), if_neg (Ne.symm h4),
      if_neg (Ne.symm h5), if_neg (Ne.symm h6), if_neg (Ne.symm h7), if_neg (Ne.symm h8),
      if_neg (Ne.symm h9)]

/-- Witness of C19: the mixer view of the example application is destroyed. -/
theorem childDestroyed_clears_witness :
    (∀ c d : Child, c ≠ d → demoGui.child c = demoGui.child d → demoGui.child c = none) ∧
    demoGui.child Child.mixerView = some 2 ∧
    (demoGui.childDestroyed (some 2)).child Child.mixerView = none ∧
    demoGui.child Child.pianoRoll ≠ some 2 ∧
    (demoGui.childDestroyed (some 2)).child Child.pianoRoll = demoGui.child Child.pianoRoll :=
  ⟨by decide, by decide,
    (childDestroyed_clears demoGui (some 2) (by decide)).1 Child.mixerView (by decide),
    by decide,
    (childDestroyed_clears demoGui (some 2) (by decide)).2.1 Child.pianoRoll (by decide)⟩

/-! ### The preview flag -/

/-- C20, at the failing inputs. First: `previewTheme("broken")` on the example
manager, where `broken` has no `style.css`: `isPreviewActive()` is true and the
preview name is `broken`, yet `themeStyleSheet()` is still the style sheet of the
committed `default`. Second: `previewTheme("nowhere")` for a theme that is not
installed: the flag is true and neither style sheet nor metadata were loaded.
Third: `loadTheme("light")` while `dark` is previewed: the flag stays true with
the preview name `dark`, and the style sheet is the one of `light`. -/
theorem preview_flag_without_preview :
    (ThemeManager.isPreviewActive (ThemeManager.previewTheme demoQt "broken" demoStart) = true ∧
      (ThemeManager.previewTheme demoQt "broken" demoStart).self.m_previewTheme = "broken" ∧
      demoStart.world.fs.files "data/themes/broken/style.css" = none ∧
      ThemeManager.themeStyleSheet (ThemeManager.previewTheme demoQt "broken" demoStart) =
        ThemeManager.themeStyleSheet demoStart) ∧
    (ThemeManager.isPreviewActive (ThemeManager.previewTheme demoQt "nowhere" demoStart) = true ∧
      demoStart.world.fs.files "data/themes/nowhere/theme.json" = none ∧
      ThemeManager.themeStyleSheet (ThemeManager.previewTheme demoQt "nowhere" demoStart) =
        ThemeManager.themeStyleSheet demoStart ∧
      ThemeManager.themeConfig (ThemeManager.previewTheme demoQt "nowhere" demoStart) =
        ThemeManager.themeConfig demoStart) ∧
    (ThemeManager.isPreviewActive (ThemeManager.loadTheme demoQt "light"
        (ThemeManager.previewTheme demoQt "dark" demoStart)).2 = true ∧
      (ThemeManager.loadTheme demoQt "light"
        (ThemeManager.previewTheme demoQt "dark" demoStart)).2.self.m_previewTheme = "dark" ∧
      ThemeManager.themeStyleSheet (ThemeManager.loadTheme demoQt "light"
        (ThemeManager.previewTheme demoQt "dark" demoStart)).2 = demoQt.fromUtf8 (ascii "c") ∧
      demoStart.world.fs.files "data/themes/dark/style.css" = some (ascii "b") ∧
      demoQt.fromUtf8 (ascii "c") ≠ demoQt.fromUtf8 (ascii "b")) :=
  ⟨⟨by decide, by decide, by decide, by decide⟩,
    ⟨by decide, by decide, by decide, rfl⟩,
    ⟨by decide, by decide, by decide, by decide, by decide⟩⟩

/-! ### The preview session -/

theorem previewTheme_session (qt : Qt) (themeName : QString) (s : ThemeState V) :
    ThemeManager.previewTheme qt themeName s = s ∨
      ((ThemeManager.previewTheme qt themeName s).self.m_isPreviewActive = true ∧
        (ThemeManager.previewTheme qt themeName s).self.m_previewTheme = themeName ∧
        themeName ≠ "") := by
  unfold ThemeManager.previewTheme
  by_cases hguard : themeName = s.self.m_currentTheme ∨ themeName = ""
  · left
    rw [if_pos hguard]
  · right
    rw [if_neg hguard]
    have hname : themeName ≠ "" := fun h => hguard (Or.inr h)
    dsimp only
    split <;>
      simp [ThemeManager.applyTheme, lcs_isPreviewActive, lcs_previewTheme, hname]

theorem cancelPreview_session (qt : Qt) (s : ThemeState V) :
    ThemeManager.cancelPreview qt s = s ∨
      ((ThemeManager.cancelPreview qt s).self.m_isPreviewActive = false ∧
        (ThemeManager.cancelPreview qt s).self.m_previewTheme = "") := by
  unfold ThemeManager.cancelPreview
  by_cases hguard : s.self.m_isPreviewActive = false
  · left
    rw [if_pos hguard]
  · right
    rw [if_neg hguard]
    dsimp only
    split <;> simp [ThemeManager.applyTheme, lcs_isPreviewActive, lcs_previewTheme]

theorem setThemeProperty_session [DecidableEq V] (qt : Qt) (ops : QVariantOps V)
    (property : QString) (value : V) (s : ThemeState V) :
    (ThemeManager.setThemeProperty qt ops property value s).self.m_isPreviewActive =
        s.self.m_isPreviewActive ∧
      (ThemeManager.setThemeProperty qt ops property value s).self.m_previewTheme =
        s.self.m_previewTheme := by
  by_cases hsame : s.self.m_customProperties.lookup property = some value
  · rw [setThemeProperty_of_same qt ops property value s hsame]
    exact ⟨rfl, rfl⟩
  · rw [setThemeProperty_of_change qt ops property value s hsame]
    exact ⟨rfl, rfl⟩

theorem loadThemeCustomizations_session (qt : Qt) (ops : QVariantOps V) (s : ThemeState V) :
    (ThemeManager.loadThemeCustomizations qt ops s).self.m_isPreviewActive =
        s.self.m_isPreviewActive ∧
      (ThemeManager.loadThemeCustomizations qt ops s).self.m_previewTheme =
        s.self.m_previewTheme := by
  unfold ThemeManager.loadThemeCustomizations World.readAll
  cases hfile : s.world.fs.files
      (themePathOf s.world s.self.m_currentTheme ++ "custom.json") <;> simp [hfile]

/-- C21: in every state reached from the constructor by `loadTheme`,
`previewTheme`, `cancelPreview`, `applyTheme` and `setThemeProperty`, the preview
flag is true exactly when the preview theme name is not empty. -/
theorem preview_flag_iff_name [DecidableEq V] (qt : Qt) (ops : QVariantOps V)
    (s : ThemeState V) (hreach : ThemeManager.Reachable qt ops s) :
    ThemeManager.isPreviewActive s = true ↔ s.self.m_previewTheme ≠ "" := by
  unfold ThemeManager.isPreviewActive
  induction hreach with
  | construct w =>
    unfold ThemeManager.construct
    dsimp only
    rw [(loadThemeCustomizations_session qt ops _).1, (loadThemeCustomizations_session qt ops _).2,
      (loadTheme_frame qt _ _).2.2.1, (loadTheme_frame qt _ _).2.1]
    simp
  | loadTheme themeName s _ ih =>
    rw [(loadTheme_frame qt themeName s).2.2.1, (loadTheme_frame qt themeName s).2.1]
    exact ih
  | previewTheme themeName s _ ih =>
    cases previewTheme_session qt themeName s with
    | inl hsame => rw [hsame]; exact ih
    | inr hnew => rw [hnew.1, hnew.2.1]; simp [hnew.2.2]
  | cancelPreview s _ ih =>
    cases cancelPreview_session qt s with
    | inl hsame => rw [hsame]; exact ih
    | inr hnew => rw [hnew.1, hnew.2]; simp
  | applyTheme s _ ih => exact ih
  | setThemeProperty property value s _ ih =>
    rw [(setThemeProperty_session qt ops property value s).1,
      (setThemeProperty_session qt ops property value s).2]
    exact ih

/-- Witness of C21: the example manager while it previews `dark`. -/
theorem preview_flag_iff_name_witness :
    ThemeManager.Reachable demoQt demoOps (ThemeManager.previewTheme demoQt "dark" demoStart) ∧
    (ThemeManager.isPreviewActive (ThemeManager.previewTheme demoQt "dark" demoStart) = true ↔
      (ThemeManager.previewTheme demoQt "dark" demoStart).self.m_previewTheme ≠ "") :=
  ⟨ThemeManager.Reachable.previewTheme "dark" demoStart
      (ThemeManager.Reachable.construct (demoWorld demoDisk)),
    preview_flag_iff_name demoQt demoOps (ThemeManager.previewTheme demoQt "dark" demoStart)
      (ThemeManager.Reachable.previewTheme "dark" demoStart
        (ThemeManager.Reachable.construct (demoWorld demoDisk)))⟩

/-! ### Overrides across a change of theme -/

theorem assocFind_customizationsToJson (ops : QVariantOps V) (m : QMap V) (q : QString) :
    assocFind q (ThemeManager.customizationsToJson ops m) = (m.lookup q).map ops.fromVariant := by
  unfold ThemeManager.customizationsToJson
  rw [assocFind_foldl_assocSet ops.fromVariant q m.entries [] m.nodupKeys]
  unfold AList.lookup
  cases List.dlookup q m.entries <;> simp [assocFind]

/-- C22, as amended: `loadTheme`, whether it succeeds or fails, leaves the
override map exactly as it was. After it, a `setThemeProperty(p, v)` that changes
the map (`p` unbound or bound to another value) puts the whole map into the
`custom.json` of the theme that is then current, when that file opens for
writing: the file holds the printed object, and the object binds every override
held before the `loadTheme` under its old value, next to `p`. -/
theorem overrides_follow_theme [DecidableEq V] (qt : Qt) (ops : QVariantOps V)
    (themeName property : QString) (value : V) (s : ThemeState V) :
    (ThemeManager.loadTheme qt themeName s).2.self.m_customProperties =
        s.self.m_customProperties ∧
    (s.self.m_customProperties.lookup property ≠ some value →
      (ThemeManager.loadTheme qt themeName s).2.world.fs.writable
          (themePathOf (ThemeManager.loadTheme qt themeName s).2.world
            (ThemeManager.currentTheme (ThemeManager.loadTheme qt themeName s).2) ++
              "custom.json") = true →
      (ThemeManager.setThemeProperty qt ops property value
          (ThemeManager.loadTheme qt themeName s).2).world.fs.files
            (themePathOf (ThemeManager.loadTheme qt themeName s).2.world
              (ThemeManager.currentTheme (ThemeManager.loadTheme qt themeName s).2) ++
                "custom.json") =
          some (qt.toJson (QJsonDocument.object (ThemeManager.customizationsToJson ops
            (s.self.m_customProperties.insert property value)))) ∧
        assocFind property (ThemeManager.customizationsToJson ops
            (s.self.m_customProperties.insert property value)) = some (ops.fromVariant value) ∧
        ∀ (q : QString) (held : V), q ≠ property →
          s.self.m_customProperties.lookup q = some held →
          assocFind q (ThemeManager.customizationsToJson ops
            (s.self.m_customProperties.insert property value)) =
              some (ops.fromVariant held)) := by
  have hmap := (loadTheme_frame qt themeName s).1
  refine ⟨hmap, ?_⟩
  intro hchange hwritable
  have hchange2 : (ThemeManager.loadTheme qt themeName s).2.self.m_customProperties.lookup
      property ≠ some value := by
    rw [hmap]
    exact hchange
  refine ⟨?_, ?_, ?_⟩
  · rw [setThemeProperty_of_change qt ops property value _ hchange2, hmap]
    exact writeAll_files_of_writable _ _ _ hwritable
  · rw [assocFind_customizationsToJson]
    simp [AList.lookup_insert]
  · intro q held hq hheld
    rw [assocFind_customizationsToJson, AList.lookup_insert_ne hq, hheld]
    rfl

/-- Witness of C22 as amended: the example manager holds `primaryColor`, switches
to the theme `light` and then sets `fontSize`. -/
theorem overrides_follow_theme_witness :
    demoStart.self.m_customProperties.lookup "fontSize" ≠ some (DemoVariant.string "12") ∧
    (ThemeManager.loadTheme demoQt "light" demoStart).2.world.fs.writable
      "data/themes/light/custom.json" = true ∧
    demoStart.self.m_customProperties.lookup "primaryColor" =
      some (DemoVariant.string "#ff112233") ∧
    (ThemeManager.setThemeProperty demoQt demoOps "fontSize" (DemoVariant.string "12")
        (ThemeManager.loadTheme demoQt "light" demoStart).2).world.fs.files
          "data/themes/light/custom.json" =
      some (demoQt.toJson (QJsonDocument.object (ThemeManager.customizationsToJson demoOps
        (demoStart.self.m_customProperties.insert "fontSize" (DemoVariant.string "12"))))) ∧
    assocFind "primaryColor" (ThemeManager.customizationsToJson demoOps
        (demoStart.self.m_customProperties.insert "fontSize" (DemoVariant.string "12"))) =
      some (QJsonValue.string "#ff112233") :=
  ⟨by decide, by decide, by decide,
    ((overrides_follow_theme demoQt demoOps "light" "fontSize" (DemoVariant.string "12")
      demoStart).2 (by decide) (by decide)).1,
    ((overrides_follow_theme demoQt demoOps "light" "fontSize" (DemoVariant.string "12")
      demoStart).2 (by decide) (by decide)).2.2 "primaryColor" (DemoVariant.string "#ff112233")
        (by decide) (by decide)⟩

/-- C22 as stated fails in its last part. The example manager holds the override
`primaryColor = #ff112233` and switches to the theme `light`, which has no
`custom.json`. First: the next call, `setThemeProperty("primaryColor",
"#ff112233")`, finds the value already held: the map still holds the override,
no file is opened, and `light` still has no `custom.json`. Second: on the disk
where the `custom.json` of `light` does not open for writing, the next call
`setThemeProperty("fontSize", "12")` changes the map and tries to open the file,
but `light` has no `custom.json` afterwards either. -/
theorem overrides_not_written_after_switch :
    (ThemeManager.loadTheme demoQt "light" demoStart).1 = true ∧
    ThemeManager.currentTheme (ThemeManager.loadTheme demoQt "light" demoStart).2 = "light" ∧
    (ThemeManager.loadTheme demoQt "light" demoStart).2.self.m_customProperties.lookup
      "primaryColor" = some (DemoVariant.string "#ff112233") ∧
    (ThemeManager.setThemeProperty demoQt demoOps "primaryColor"
        (DemoVariant.string "#ff112233")
        (ThemeManager.loadTheme demoQt "light" demoStart).2).world.opened =
      (ThemeManager.loadTheme demoQt "light" demoStart).2.world.opened ∧
    (ThemeManager.setThemeProperty demoQt demoOps "primaryColor"
        (DemoVariant.string "#ff112233")
        (ThemeManager.loadTheme demoQt "light" demoStart).2).world.fs.files
          "data/themes/light/custom.json" = none ∧
    (ThemeManager.loadTheme demoQt "light" demoStartReadOnlyLight).2.self.m_customProperties.lookup
      "primaryColor" = some (DemoVariant.string "#ff112233") ∧
    (ThemeManager.setThemeProperty demoQt demoOps "fontSize" (DemoVariant.string "12")
        (ThemeManager.loadTheme demoQt "light"
          demoStartReadOnlyLight).2).self.m_customProperties.lookup "fontSize" =
      some (DemoVariant.string "12") ∧
    (ThemeManager.setThemeProperty demoQt demoOps "fontSize" (DemoVariant.string "12")
        (ThemeManager.loadTheme demoQt "light" demoStartReadOnlyLight).2).world.opened =
      (ThemeManager.loadTheme demoQt "light" demoStartReadOnlyLight).2.world.opened ++
        ["data/themes/light/custom.json"] ∧
    (ThemeManager.setThemeProperty demoQt demoOps "fontSize" (DemoVariant.string "12")
        (ThemeManager.loadTheme demoQt "light" demoStartReadOnlyLight).2).world.fs.files
          "data/themes/light/custom.json" = none := by
  refine ⟨by decide, by decide, by decide, ?_, ?_, by decide, by decide, by decide, by decide⟩
  · rw [setThemeProperty_of_same demoQt demoOps "primaryColor" (DemoVariant.string "#ff112233")
      _ (by decide)]
  · rw [setThemeProperty_of_same demoQt demoOps "primaryColor" (DemoVariant.string "#ff112233")
      _ (by decide)]
    decide

/-! ### The static application pointer -/

/-- C30: the constructor of `GuiApplication` leaves `s_instance` as it was. In a
process that has not constructed a `GuiApplication` before, `instance()` and
`getGUI()` still return null once the constructor has returned, whatever its
arguments and whether or not the `ThemeManager` singleton existed; the destructor
sets the pointer to null. -/
theorem instance_null_after_construction (qt : Qt) (ops : QVariantOps V)
    (members : GuiApplication) (defaultThemeDir configuredTheme : QString) (mainWindow : Nat)
    (themeManager : Option (ThemeManager V)) (world : World V) (p : GuiProcess V) :
    GuiApplication.instance (GuiApplication.construct qt ops members defaultThemeDir
        configuredTheme mainWindow (GuiProcess.start themeManager world)).2 = none ∧
    getGUI (GuiApplication.construct qt ops members defaultThemeDir
        configuredTheme mainWindow (GuiProcess.start themeManager world)).2 = none ∧
    (GuiApplication.construct qt ops members defaultThemeDir
        configuredTheme mainWindow (GuiProcess.start themeManager world)).1.m_mainWindow =
      some mainWindow ∧
    getGUI (GuiApplication.destruct p) = none :=
  ⟨rfl, rfl, rfl, rfl⟩

/-! ### Grey-scale conversion -/

/-- C28: on the image two pixels wide and one pixel high the conversion hands the
coordinate `(0, 1)` to `pixelColor` and `setPixelColor`; row 1 does not exist in
an image of height 1. The loop variable that runs below the height is passed as
`x`, the one that runs below the width as `y`. -/
theorem grayscale_reads_outside (gray : Nat → Nat → Nat → Nat) :
    (convertPixmapToGrayScale gray demoWideImage).accesses =
      [(0, 0), (0, 0), (0, 1), (0, 1)] ∧
    demoWideImage.valid 0 1 = false ∧
    ¬ (1 < demoWideImage.height) :=
  ⟨rfl, rfl, by decide⟩

/-- C29: on the image two pixels wide and one pixel high the conversion leaves
the pixel `(1, 0)` as it was, half transparent blue, which is not grey; only the
pixel `(0, 0)` is converted. -/
theorem grayscale_skips_pixel (gray : Nat → Nat → Nat → Nat) :
    (convertPixmapToGrayScale gray demoWideImage).image.width = 2 ∧
    (convertPixmapToGrayScale gray demoWideImage).image.height = 1 ∧
    (convertPixmapToGrayScale gray demoWideImage).image.pixel 1 0 =
      { red := 0, green := 0, blue := 255, alpha := 128 } ∧
    (convertPixmapToGrayScale gray demoWideImage).image.pixel 1 0 = demoWideImage.pixel 1 0 ∧
    (convertPixmapToGrayScale gray demoWideImage).image.pixel 0 0 =
      { red := gray 255 0 0, green := gray 255 0 0, blue := gray 255 0 0, alpha := 255 } :=
  ⟨rfl, rfl, rfl, rfl, rfl⟩

/-! ### The plugin tree -/


theorem itemsOf_append (l1 l2 : List QTreeWidgetItem) :
    QTreeWidgetItem.itemsOf (l1 ++ l2) =
      QTreeWidgetItem.itemsOf l1 ++ QTreeWidgetItem.itemsOf l2 := by
  induction l1 with
  | nil => simp [QTreeWidgetItem.itemsOf]
  | cons x rest ih => simp [QTreeWidgetItem.itemsOf, ih]

theorem items_eq (item : QTreeWidgetItem) :
    item.items = item :: QTreeWidgetItem.itemsOf item.children := by
  cases item with
  | mk text hidden widget children => simp [QTreeWidgetItem.items, QTreeWidgetItem.children]

mutual
theorem clone_items_no_widget : ∀ (item : QTreeWidgetItem),
    ∀ x ∈ (QTreeWidgetItem.clone item).items, x.itemWidget = none
  | QTreeWidgetItem.mk text hidden widget children => by
    intro x hx
    simp only [QTreeWidgetItem.clone, QTreeWidgetItem.items, List.mem_cons] at hx
    cases hx with
    | inl h => rw [h]; rfl
    | inr h => exact cloneAll_items_no_widget children x h
theorem cloneAll_items_no_widget : ∀ (l : List QTreeWidgetItem),
    ∀ x ∈ QTreeWidgetItem.itemsOf (QTreeWidgetItem.cloneAll l), x.itemWidget = none
  | [] => by
    intro x hx
    simp [QTreeWidgetItem.cloneAll, QTreeWidgetItem.itemsOf] at hx
  | item :: rest => by
    intro x hx
    simp only [QTreeWidgetItem.cloneAll, QTreeWidgetItem.itemsOf, List.mem_append] at hx
    cases hx with
    | inl h => exact clone_items_no_widget item x h
    | inr h => exact cloneAll_items_no_widget rest x h
end

theorem modifyAt_length_append {α : Type} (f : α → α) (l : List α) (x : α) :
    modifyAt f l.length (l ++ [x]) = l ++ [f x] := by
  induction l with
  | nil => rfl
  | cons y rest ih => simp [modifyAt, ih]

theorem hasPluginId_unique (p q : QString) (item : QTreeWidgetItem)
    (hp : item.hasPluginId p = true) (hq : item.hasPluginId q = true) : p = q := by
  unfold QTreeWidgetItem.hasPluginId at hp hq
  cases hw : item.itemWidget with
  | none => simp [hw] at hp
  | some w =>
    simp [hw] at hp hq
    rw [← hp, ← hq]

theorem hasPluginId_of_no_widget (p : QString) (item : QTreeWidgetItem)
    (hw : item.itemWidget = none) : item.hasPluginId p = false := by
  unfold QTreeWidgetItem.hasPluginId
  simp [hw]

theorem countP_eraseP_self {α : Type} (p : α → Bool) (l : List α) :
    (l.eraseP p).countP p = l.countP p - 1 := by
  induction l with
  | nil => rfl
  | cons x rest ih =>
    by_cases hx : p x = true
    · simp [List.eraseP_cons, hx, List.countP_cons]
    · simp only [Bool.not_eq_true] at hx
      simp [List.eraseP_cons, hx, List.countP_cons, ih]

theorem countP_eraseP_other {α : Type} (p q : α → Bool) (l : List α)
    (hdisjoint : ∀ x, p x = true → q x = false) :
    (l.eraseP p).countP q = l.countP q := by
  induction l with
  | nil => rfl
  | cons x rest ih =>
    by_cases hx : p x = true
    · simp [List.eraseP_cons, hx, List.countP_cons, hdisjoint x hx]
    · simp only [Bool.not_eq_true] at hx
      simp [List.eraseP_cons, hx, List.countP_cons, ih]

theorem mem_itemsOf (x : QTreeWidgetItem) (l : List QTreeWidgetItem) :
    x ∈ QTreeWidgetItem.itemsOf l ↔ ∃ c ∈ l, x ∈ c.items := by
  induction l with
  | nil => simp [QTreeWidgetItem.itemsOf]
  | cons y rest ih => simp [QTreeWidgetItem.itemsOf, ih]

theorem hasPluginId_iff (p : QString) (item : QTreeWidgetItem) :
    item.hasPluginId p = true ↔ ∃ w, item.itemWidget = some w ∧ w.pluginId = p := by
  unfold QTreeWidgetItem.hasPluginId
  cases hw : item.itemWidget with
  | none => simp
  | some w => simp

theorem clone_setItemWidget_items (item : QTreeWidgetItem) (w : PluginDescWidget) :
    (item.clone.setItemWidget w).itemWidget = some w ∧
      ∀ x ∈ (item.clone.setItemWidget w).items,
        x = item.clone.setItemWidget w ∨ x.itemWidget = none := by
  cases item with
  | mk text hidden widget children =>
    refine ⟨rfl, ?_⟩
    intro x hx
    simp only [QTreeWidgetItem.clone, QTreeWidgetItem.setItemWidget, QTreeWidgetItem.items,
      List.mem_cons] at hx
    cases hx with
    | inl h => exact Or.inl h
    | inr h => exact Or.inr (cloneAll_items_no_widget children x h)

theorem find_in_kids (plugins kids : List QTreeWidgetItem) (p : QString)
    (hkids : ∀ c ∈ kids, QTreeWidgetItem.IsFavoriteClone plugins c)
    (hcount : kids.countP (QTreeWidgetItem.hasPluginId p) = 0) :
    (QTreeWidgetItem.itemsOf kids).find? (QTreeWidgetItem.hasPluginId p) = none := by
  rw [List.find?_eq_none]
  intro x hx
  rw [mem_itemsOf] at hx
  obtain ⟨c, hc, hxc⟩ := hx
  obtain ⟨item, w, _, _, hclone⟩ := hkids c hc
  rw [hclone] at hxc
  cases (clone_setItemWidget_items item _).2 x hxc with
  | inl h =>
    rw [h, ← hclone]
    rw [List.countP_eq_zero] at hcount
    exact hcount c hc
  | inr h => simp [hasPluginId_of_no_widget p x h]

theorem addFavoriteItem_of_found (p : QString) (b : PluginBrowser) (item : QTreeWidgetItem)
    (w : PluginDescWidget)
    (hfind : (QTreeWidgetItem.itemsOf b.m_descTree).find? (QTreeWidgetItem.hasPluginId p) =
      some item)
    (hw : item.itemWidget = some w) :
    b.addFavoriteItem p =
      { m_descTree :=
          modifyAt
            (QTreeWidgetItem.addChild
              (item.clone.setItemWidget (PluginDescWidget.construct w.m_pluginKey)))
            b.m_favoritesRoot b.m_descTree
        m_favoritesRoot := b.m_favoritesRoot
        m_showFavoritesOnly := b.m_showFavoritesOnly } := by
  unfold PluginBrowser.addFavoriteItem
  simp [hfind, hw]

theorem addFavoriteItem_of_not_found (p : QString) (b : PluginBrowser)
    (hfind : (QTreeWidgetItem.itemsOf b.m_descTree).find? (QTreeWidgetItem.hasPluginId p) =
      none) :
    b.addFavoriteItem p = b := by
  unfold PluginBrowser.addFavoriteItem
  simp [hfind]

theorem itemsOf_with_root (plugins kids : List QTreeWidgetItem) (text : QString)
    (hidden : Bool) :
    QTreeWidgetItem.itemsOf (plugins ++ [QTreeWidgetItem.mk text hidden none kids]) =
      QTreeWidgetItem.itemsOf plugins ++
        (QTreeWidgetItem.mk text hidden none kids :: QTreeWidgetItem.itemsOf kids) := by
  rw [itemsOf_append]
  simp [QTreeWidgetItem.itemsOf, QTreeWidgetItem.items]

theorem addFavoriteItem_mirrors (plugins : List QTreeWidgetItem) (favorites : Finset QString)
    (b : PluginBrowser) (p : QString) (hb : PluginBrowser.Mirrors plugins favorites b)
    (hp : p ∉ favorites) :
    PluginBrowser.Mirrors plugins (insert p favorites) (b.addFavoriteItem p) := by
  obtain ⟨kids, htree, hroot, hflag, hkids, hcount⟩ := hb
  have hzero : kids.countP (QTreeWidgetItem.hasPluginId p) = 0 := by
    rw [hcount p]
    simp [hp]
  by_cases havail : QTreeWidgetItem.hasItemFor p plugins = true
  · -- the search stops at an item of the plugin tree
    have hsome : ∃ item, (QTreeWidgetItem.itemsOf plugins).find?
        (QTreeWidgetItem.hasPluginId p) = some item := by
      unfold QTreeWidgetItem.hasItemFor at havail
      rw [List.any_eq_true] at havail
      obtain ⟨x, hx, hpx⟩ := havail
      cases hfind : (QTreeWidgetItem.itemsOf plugins).find? (QTreeWidgetItem.hasPluginId p) with
      | some item => exact ⟨item, rfl⟩
      | none =>
        rw [List.find?_eq_none] at hfind
        exact absurd hpx (hfind x hx)
    obtain ⟨item, hfind⟩ := hsome
    have hitem : item ∈ QTreeWidgetItem.itemsOf plugins := List.mem_of_find?_eq_some hfind
    have hpitem : item.hasPluginId p = true := List.find?_some hfind
    obtain ⟨w, hw, hid⟩ := (hasPluginId_iff p item).mp hpitem
    have hfindAll : (QTreeWidgetItem.itemsOf b.m_descTree).find?
        (QTreeWidgetItem.hasPluginId p) = some item := by
      rw [htree, itemsOf_with_root, List.find?_append, hfind]
      rfl
    rw [addFavoriteItem_of_found p b item w hfindAll hw]
    refine ⟨kids ++ [item.clone.setItemWidget (PluginDescWidget.construct w.m_pluginKey)],
      ?_, hroot, hflag, ?_, ?_⟩
    · dsimp only
      rw [hroot, htree, modifyAt_length_append]
      rfl
    · intro c hc
      rw [List.mem_append, List.mem_singleton] at hc
      cases hc with
      | inl h => exact hkids c h
      | inr h => exact ⟨item, w, hitem, hw, h⟩
    · intro q
      have hclone : (item.clone.setItemWidget
          (PluginDescWidget.construct w.m_pluginKey)).hasPluginId q = decide (p = q) := by
        unfold QTreeWidgetItem.hasPluginId
        rw [(clone_setItemWidget_items item _).1]
        show decide ((PluginDescWidget.construct w.m_pluginKey).pluginId = q) = _
        have hsame : (PluginDescWidget.construct w.m_pluginKey).pluginId = w.pluginId := rfl
        rw [hsame, hid]
      rw [List.countP_append, List.countP_singleton, hclone, hcount q]
      by_cases hq : p = q
      · subst hq
        simp [hp, havail]
      · have hq2 : ¬ q = p := fun h => hq h.symm
        simp [hq, hq2]
  · -- no item carries the id: the search runs to the end of the tree
    simp only [Bool.not_eq_true] at havail
    have hnone : (QTreeWidgetItem.itemsOf plugins).find?
        (QTreeWidgetItem.hasPluginId p) = none := by
      rw [List.find?_eq_none]
      intro x hx
      unfold QTreeWidgetItem.hasItemFor at havail
      rw [List.any_eq_false] at havail
      exact havail x hx
    have hfindAll : (QTreeWidgetItem.itemsOf b.m_descTree).find?
        (QTreeWidgetItem.hasPluginId p) = none := by
      rw [htree, itemsOf_with_root, List.find?_append, hnone, List.find?_cons]
      have hrootId : (QTreeWidgetItem.mk "Favorites" false none kids).hasPluginId p = false :=
        rfl
      rw [hrootId]
      simp [find_in_kids plugins kids p hkids hzero]
    rw [addFavoriteItem_of_not_found p b hfindAll]
    refine ⟨kids, htree, hroot, hflag, hkids, ?_⟩
    intro q
    rw [hcount q]
    by_cases hq : q = p
    · subst hq
      simp [havail]
    · simp [hq]

theorem removeFavoriteItem_mirrors (plugins : List QTreeWidgetItem)
    (favorites : Finset QString) (b : PluginBrowser) (p : QString)
    (hb : PluginBrowser.Mirrors plugins favorites b) :
    PluginBrowser.Mirrors plugins (favorites.erase p) (b.removeFavoriteItem p) := by
  obtain ⟨kids, htree, hroot, hflag, hkids, hcount⟩ := hb
  refine ⟨kids.eraseP (QTreeWidgetItem.hasPluginId p), ?_, hroot, hflag, ?_, ?_⟩
  · unfold PluginBrowser.removeFavoriteItem
    dsimp only
    rw [hroot, htree, modifyAt_length_append]
    rfl
  · intro c hc
    exact hkids c (List.mem_of_mem_eraseP hc)
  · intro q
    by_cases hq : q = p
    · subst hq
      rw [countP_eraseP_self, hcount q]
      by_cases hmem : q ∈ favorites ∧ QTreeWidgetItem.hasItemFor q plugins = true
      · simp [hmem]
      · simp [hmem]
    · have hdisjoint : ∀ x : QTreeWidgetItem, x.hasPluginId p = true →
          x.hasPluginId q = false := by
        intro x hx
        cases hxq : x.hasPluginId q with
        | false => rfl
        | true => exact absurd (hasPluginId_unique p q x hx hxq).symm hq
      rw [countP_eraseP_other _ _ kids hdisjoint, hcount q]
      simp [hq]

/-! ### Root pass and filter -/

theorem setHidden_fields (hide : Bool) (item : QTreeWidgetItem) :
    (item.setHidden hide).isHidden = hide ∧ (item.setHidden hide).children = item.children ∧
      (item.setHidden hide).itemWidget = item.itemWidget ∧
      (item.setHidden hide).text = item.text := by
  cases item with
  | mk text hidden widget children => exact ⟨rfl, rfl, rfl, rfl⟩

/-- C26: after `updateRootVisibilities()` a top-level item is hidden exactly when
every one of its children is hidden, so a top-level item without children is
hidden; the children of every top-level item, with their hidden flags, the
widgets and the texts are as before, and so are the two other members. -/
theorem updateRootVisibilities_spec (b : PluginBrowser) :
    (∀ root ∈ b.updateRootVisibilities.m_descTree,
      (root.isHidden = true ↔ ∀ child ∈ root.children, child.isHidden = true) ∧
      (root.children = [] → root.isHidden = true)) ∧
    b.updateRootVisibilities.m_descTree.map QTreeWidgetItem.children =
      b.m_descTree.map QTreeWidgetItem.children ∧
    b.updateRootVisibilities.m_descTree.map QTreeWidgetItem.itemWidget =
      b.m_descTree.map QTreeWidgetItem.itemWidget ∧
    b.updateRootVisibilities.m_descTree.map QTreeWidgetItem.text =
      b.m_descTree.map QTreeWidgetItem.text ∧
    b.updateRootVisibilities.m_favoritesRoot = b.m_favoritesRoot ∧
    b.updateRootVisibilities.m_showFavoritesOnly = b.m_showFavoritesOnly := by
  unfold PluginBrowser.updateRootVisibilities
  dsimp only
  refine ⟨?_, ?_, ?_, ?_, rfl, rfl⟩
  · intro root hroot
    rw [List.mem_map] at hroot
    obtain ⟨old, _, hold⟩ := hroot
    rw [← hold, (setHidden_fields _ old).1, (setHidden_fields _ old).2.1]
    constructor
    · simp
    · intro hempty
      simp [hempty]
  · rw [List.map_map]
    apply List.map_congr_left
    intro old _
    exact (setHidden_fields _ old).2.1
  · rw [List.map_map]
    apply List.map_congr_left
    intro old _
    exact (setHidden_fields _ old).2.2.1
  · rw [List.map_map]
    apply List.map_congr_left
    intro old _
    exact (setHidden_fields _ old).2.2.2

/-- The hidden flag that the filter loop gives to an item with the widget `w`,
spelled out on the display name of the key and on the favourites set. -/
theorem filtered_hidden_iff (str : QStringOps) (favorites : FavoritesState V)
    (showFavoritesOnly : Bool) (filter : QString) (w : PluginDescWidget) :
    (!str.contains w.name filter || !(!showFavoritesOnly || w.isFavorite favorites)) = true ↔
      (str.contains w.m_pluginKey.displayName filter = false ∨
        (showFavoritesOnly = true ∧
          w.m_pluginKey.name ++ ":" ++ w.m_pluginKey.version ∉ favorites.self.m_favorites)) := by
  have hname : w.name = w.m_pluginKey.displayName := rfl
  have hfavorite : w.isFavorite favorites =
      decide (w.m_pluginKey.name ++ ":" ++ w.m_pluginKey.version ∈
        favorites.self.m_favorites) := rfl
  rw [hname, hfavorite]
  by_cases hmem : w.m_pluginKey.name ++ ":" ++ w.m_pluginKey.version ∈
      favorites.self.m_favorites <;>
    cases str.contains w.m_pluginKey.displayName filter <;> cases showFavoritesOnly <;>
      simp [hmem]

mutual
theorem filtered_items (str : QStringOps) (favorites : FavoritesState V)
    (showFavoritesOnly : Bool) (filter : QString) : ∀ (item : QTreeWidgetItem),
    List.Forall₂ (fun before after =>
        after.itemWidget = before.itemWidget ∧ after.text = before.text ∧
        after.isHidden = (match before.itemWidget with
          | some w => !str.contains w.name filter ||
              !(!showFavoritesOnly || w.isFavorite favorites)
          | none => before.isHidden))
      item.items (QTreeWidgetItem.filtered str favorites showFavoritesOnly filter item).items
  | QTreeWidgetItem.mk text hidden widget children => by
    simp only [QTreeWidgetItem.filtered, QTreeWidgetItem.items]
    refine List.Forall₂.cons ?_ (filteredAll_items str favorites showFavoritesOnly filter children)
    refine ⟨rfl, rfl, ?_⟩
    cases widget <;> rfl
theorem filteredAll_items (str : QStringOps) (favorites : FavoritesState V)
    (showFavoritesOnly : Bool) (filter : QString) : ∀ (l : List QTreeWidgetItem),
    List.Forall₂ (fun before after =>
        after.itemWidget = before.itemWidget ∧ after.text = before.text ∧
        after.isHidden = (match before.itemWidget with
          | some w => !str.contains w.name filter ||
              !(!showFavoritesOnly || w.isFavorite favorites)
          | none => before.isHidden))
      (QTreeWidgetItem.itemsOf l)
      (QTreeWidgetItem.itemsOf
        (QTreeWidgetItem.filteredAll str favorites showFavoritesOnly filter l))
  | [] => by
    simp [QTreeWidgetItem.filteredAll, QTreeWidgetItem.itemsOf]
  | item :: rest => by
    simp only [QTreeWidgetItem.filteredAll, QTreeWidgetItem.itemsOf]
    exact List.rel_append (filtered_items str favorites showFavoritesOnly filter item)
      (filteredAll_items str favorites showFavoritesOnly filter rest)
end

theorem forall₂_right {α β : Type} {R : α → β → Prop} {l1 : List α} {l2 : List β}
    (h : List.Forall₂ R l1 l2) : ∀ y ∈ l2, ∃ x ∈ l1, R x y := by
  induction h with
  | nil => intro y hy; simp at hy
  | cons hxy _ ih =>
    intro y hy
    rw [List.mem_cons] at hy
    cases hy with
    | inl h => exact ⟨_, List.mem_cons_self _ _, h ▸ hxy⟩
    | inr h =>
      obtain ⟨x, hx, hr⟩ := ih y h
      exact ⟨x, List.mem_cons_of_mem _ hx, hr⟩

theorem onFilterChanged_root (str : QStringOps) (favorites : FavoritesState V)
    (filter : QString) (b : PluginBrowser) (root : QTreeWidgetItem)
    (hroot : root ∈ (b.onFilterChanged str favorites filter).m_descTree) :
    (root.isHidden = true ↔ ∀ child ∈ root.children, child.isHidden = true) ∧
      ∃ before ∈ QTreeWidgetItem.filteredAll str favorites b.m_showFavoritesOnly filter
          b.m_descTree,
        root.children = before.children ∧ root.itemWidget = before.itemWidget := by
  unfold PluginBrowser.onFilterChanged PluginBrowser.updateRootVisibilities at hroot
  dsimp only at hroot
  rw [List.mem_map] at hroot
  obtain ⟨before, hbefore, hset⟩ := hroot
  rw [← hset, (setHidden_fields _ before).1, (setHidden_fields _ before).2.1,
    (setHidden_fields _ before).2.2.1]
  exact ⟨by simp, before, hbefore, rfl, rfl⟩

theorem onFilterChanged_below (str : QStringOps) (favorites : FavoritesState V)
    (filter : QString) (b : PluginBrowser) (root : QTreeWidgetItem)
    (hroot : root ∈ (b.onFilterChanged str favorites filter).m_descTree)
    (item : QTreeWidgetItem) (hitem : item ∈ QTreeWidgetItem.itemsOf root.children)
    (w : PluginDescWidget) (hw : item.itemWidget = some w) :
    item.isHidden = (!str.contains w.name filter ||
      !(!b.m_showFavoritesOnly || w.isFavorite favorites)) := by
  obtain ⟨before, hbefore, hchildren, _⟩ :=
    (onFilterChanged_root str favorites filter b root hroot).2
  rw [hchildren] at hitem
  have hin : item ∈ QTreeWidgetItem.itemsOf
      (QTreeWidgetItem.filteredAll str favorites b.m_showFavoritesOnly filter b.m_descTree) := by
    rw [mem_itemsOf]
    refine ⟨before, hbefore, ?_⟩
    rw [items_eq]
    exact List.mem_cons_of_mem _ hitem
  obtain ⟨old, _, hsame, _, hhidden⟩ := forall₂_right
    (filteredAll_items str favorites b.m_showFavoritesOnly filter b.m_descTree) item hin
  rw [hw] at hsame
  rw [← hsame] at hhidden
  exact hhidden

/-- C25, as amended: after `onFilterChanged(f)` an item below the top level that
carries a plugin widget is hidden exactly when the display name of its plugin
does not contain `f` (case-insensitively) or the favourites-only flag is set and
the id of its plugin is not in the favourites set; with `f` empty and the flag off
every such item is visible. A top-level item, with or without a plugin widget, is
hidden exactly when all its children are hidden. The filter loop leaves the
widget of every item and the hidden flag of every item without a plugin widget
as they were, and the slot is that loop followed by the root pass. -/
theorem onFilterChanged_hides (str : QStringOps) (favorites : FavoritesState V)
    (filter : QString) (b : PluginBrowser) :
    (∀ root ∈ (b.onFilterChanged str favorites filter).m_descTree,
      (root.isHidden = true ↔ ∀ child ∈ root.children, child.isHidden = true) ∧
      ∀ item ∈ QTreeWidgetItem.itemsOf root.children, ∀ w, item.itemWidget = some w →
        (item.isHidden = true ↔
          (str.contains w.m_pluginKey.displayName filter = false ∨
            (b.m_showFavoritesOnly = true ∧
              w.m_pluginKey.name ++ ":" ++ w.m_pluginKey.version ∉
                favorites.self.m_favorites)))) ∧
    (filter = "" → b.m_showFavoritesOnly = false →
      ∀ root ∈ (b.onFilterChanged str favorites filter).m_descTree,
        ∀ item ∈ QTreeWidgetItem.itemsOf root.children,
          ∀ w, item.itemWidget = some w → item.isHidden = false) ∧
    List.Forall₂ (fun before after =>
        after.itemWidget = before.itemWidget ∧
          (before.itemWidget = none → after.isHidden = before.isHidden))
      (QTreeWidgetItem.itemsOf b.m_descTree)
      (QTreeWidgetItem.itemsOf
        (QTreeWidgetItem.filteredAll str favorites b.m_showFavoritesOnly filter b.m_descTree)) ∧
    b.onFilterChanged str favorites filter =
      PluginBrowser.updateRootVisibilities
        { m_descTree :=
            QTreeWidgetItem.filteredAll str favorites b.m_showFavoritesOnly filter b.m_descTree
          m_favoritesRoot := b.m_favoritesRoot
          m_showFavoritesOnly := b.m_showFavoritesOnly } := by
  refine ⟨?_, ?_, ?_, rfl⟩
  · intro root hroot
    refine ⟨(onFilterChanged_root str favorites filter b root hroot).1, ?_⟩
    intro item hitem w hw
    rw [onFilterChanged_below str favorites filter b root hroot item hitem w hw]
    exact filtered_hidden_iff str favorites b.m_showFavoritesOnly filter w
  · intro hfilter hflag root hroot item hitem w hw
    rw [onFilterChanged_below str favorites filter b root hroot item hitem w hw, hfilter, hflag,
      str.contains_empty]
    rfl
  · refine List.Forall₂.imp ?_
      (filteredAll_items str favorites b.m_showFavoritesOnly filter b.m_descTree)
    intro before after h
    refine ⟨h.1, ?_⟩
    intro hnone
    rw [h.2.2, hnone]

/-- Witness of C25 as amended: on the example browser, with the flag off, the
empty search text leaves every plugin item below the top level visible. With
`sine:1` the only favourite, the flag on and the search text `s`, the two items
of `sine:1` stay visible and the item of `saw:1` is hidden. -/
theorem onFilterChanged_hides_witness :
    demoBrowser.m_showFavoritesOnly = false ∧
    (∀ root ∈ (demoBrowser.onFilterChanged demoStr demoNoFavorites "").m_descTree,
      ∀ item ∈ QTreeWidgetItem.itemsOf root.children,
        ∀ w, item.itemWidget = some w → item.isHidden = false) ∧
    QTreeWidgetItem.flags
        (demoFavoritesOnlyBrowser.onFilterChanged demoStr demoSineFavorite "s").m_descTree =
      [(none, false), (some "sine:1", false), (some "saw:1", true),
       (none, false), (some "sine:1", false)] :=
  ⟨rfl,
    (onFilterChanged_hides demoStr demoNoFavorites "" demoBrowser).2.1 rfl rfl,
    by decide⟩

theorem demoFlatBrowser_constructed :
    PluginBrowser.construct demoQt demoNoFavorites demoFlatPlugins = demoFlatBrowser := by
  simp [PluginBrowser.construct, PluginBrowser.createFavoritesSection,
    FavoritesManager.getFavorites, demoNoFavorites, demoQt, demoFlatBrowser, demoFlatPlugins]

/-- C25 as stated fails for a plugin item at the top level. The example browser
is constructed on a tree whose only item is the item of `sine:1`, at the top
level. After `onFilterChanged("")` with the favourites-only flag off the item is
hidden, although its display name contains the empty text: the root pass hides
every top-level item without a visible child. -/
theorem onFilterChanged_hides_top_level_plugin :
    PluginBrowser.construct demoQt demoNoFavorites demoFlatPlugins = demoFlatBrowser ∧
    demoFlatBrowser.m_showFavoritesOnly = false ∧
    demoStr.contains demoSineKey.displayName "" = true ∧
    QTreeWidgetItem.flags demoFlatBrowser.m_descTree =
      [(some "sine:1", false), (none, false)] ∧
    QTreeWidgetItem.flags
        (demoFlatBrowser.onFilterChanged demoStr demoNoFavorites "").m_descTree =
      [(some "sine:1", true), (none, true)] :=
  ⟨demoFlatBrowser_constructed, rfl, by decide, by decide, by decide⟩

/-! ### The Favorites section -/

theorem foldl_addFavoriteItem_mirrors (plugins : List QTreeWidgetItem) :
    ∀ (l : List QString) (favorites : Finset QString) (b : PluginBrowser),
      PluginBrowser.Mirrors plugins favorites b → l.Nodup → (∀ x ∈ l, x ∉ favorites) →
      PluginBrowser.Mirrors plugins (favorites ∪ l.toFinset)
        (l.foldl (fun acc pluginId => acc.addFavoriteItem pluginId) b) := by
  intro l
  induction l with
  | nil =>
    intro favorites b hb _ _
    simpa using hb
  | cons p rest ih =>
    intro favorites b hb hnodup hfresh
    rw [List.nodup_cons] at hnodup
    have hstep := addFavoriteItem_mirrors plugins favorites b p hb
      (hfresh p (List.mem_cons_self _ _))
    have hrest : ∀ x ∈ rest, x ∉ insert p favorites := by
      intro x hx hmem
      rw [Finset.mem_insert] at hmem
      cases hmem with
      | inl h => exact hnodup.1 (h ▸ hx)
      | inr h => exact hfresh x (List.mem_cons_of_mem _ hx) h
    have hall := ih (insert p favorites) (b.addFavoriteItem p) hstep hnodup.2 hrest
    have hset : favorites ∪ (p :: rest).toFinset = insert p favorites ∪ rest.toFinset := by
      ext x
      simp only [Finset.mem_union, List.toFinset_cons, Finset.mem_insert]
      tauto
    rw [hset]
    exact hall

theorem construct_mirrors (qt : Qt) (favorites : FavoritesState V)
    (plugins : List QTreeWidgetItem) :
    PluginBrowser.Mirrors plugins favorites.self.m_favorites
      (PluginBrowser.construct qt favorites plugins) := by
  unfold PluginBrowser.construct PluginBrowser.createFavoritesSection
    FavoritesManager.getFavorites
  dsimp only
  have hstart : PluginBrowser.Mirrors plugins ∅
      { m_descTree := plugins ++ [QTreeWidgetItem.mk "Favorites" false none []]
        m_favoritesRoot := plugins.length
        m_showFavoritesOnly := false } :=
    ⟨[], rfl, rfl, rfl, by simp, by simp⟩
  have hall := foldl_addFavoriteItem_mirrors plugins (qt.setOrder favorites.self.m_favorites)
    ∅ _ hstart (qt.setOrder_nodup _) (by simp)
  have hset : (∅ : Finset QString) ∪ (qt.setOrder favorites.self.m_favorites).toFinset =
      favorites.self.m_favorites := by
    ext x
    simp [qt.mem_setOrder]
  rw [hset] at hall
  exact hall

theorem onFavoritesChanged_mirrors (plugins : List QTreeWidgetItem) (held : Finset QString)
    (favorites : FavoritesState V) (p : QString) (b : PluginBrowser)
    (hb : PluginBrowser.Mirrors plugins held b)
    (hchange : (p ∉ held ∧ favorites.self.m_favorites = insert p held) ∨
      (p ∈ held ∧ favorites.self.m_favorites = held.erase p)) :
    PluginBrowser.Mirrors plugins favorites.self.m_favorites
      (b.onFavoritesChanged favorites p) := by
  unfold PluginBrowser.onFavoritesChanged FavoritesManager.isFavorite
  dsimp only
  cases hchange with
  | inl hadd =>
    have hnew := addFavoriteItem_mirrors plugins held b p hb hadd.1
    have hflag : (b.addFavoriteItem p).m_showFavoritesOnly = false := by
      obtain ⟨_, _, _, h, _⟩ := hnew
      exact h
    rw [hadd.2]
    simp only [Finset.mem_insert_self, decide_True, if_true, hflag]
    exact hnew
  | inr hremove =>
    have hnew := removeFavoriteItem_mirrors plugins held b p hb
    have hflag : (b.removeFavoriteItem p).m_showFavoritesOnly = false := by
      obtain ⟨_, _, _, h, _⟩ := hnew
      exact h
    rw [hremove.2]
    simp only [Finset.not_mem_erase, decide_False, Bool.false_eq_true, if_false, hflag]
    exact hnew

theorem notified_mirrors (plugins : List QTreeWidgetItem) :
    ∀ (ns : List (Notification V)) (held : Finset QString) (b : PluginBrowser),
      PluginBrowser.Mirrors plugins held b → Notification.FollowChanges held ns →
      PluginBrowser.Mirrors plugins (Notification.lastFavorites held ns) (b.notified ns) := by
  intro ns
  induction ns with
  | nil => intro held b hb _; exact hb
  | cons n rest ih =>
    intro held b hb hfollow
    exact ih n.favorites.self.m_favorites (b.onFavoritesChanged n.favorites n.pluginId)
      (onFavoritesChanged_mirrors plugins held n.favorites n.pluginId b hb hfollow.1) hfollow.2

/-- C24, as amended: the browser is constructed on any plugin tree while the
favourites manager holds any set, and then `onFavoritesChanged` handles any
sequence of `favoritesChanged(p)` notifications of which each is delivered right
after `p` was added to or removed from the favourites set. Afterwards
`m_favoritesRoot` points to the item `Favorites`, each of its children carries a
plugin widget, and the number of its children with the plugin id `p` is one when
`p` is in the favourites set and the plugin tree has an item for `p`, and zero
otherwise. -/
theorem favorites_section_mirrors_set (qt : Qt) (favorites : FavoritesState V)
    (plugins : List QTreeWidgetItem) (ns : List (Notification V))
    (hfollow : Notification.FollowChanges favorites.self.m_favorites ns) :
    ∃ root,
      ((PluginBrowser.construct qt favorites plugins).notified ns).favoritesRoot = some root ∧
      root.text = "Favorites" ∧
      (∀ child ∈ root.children, ∃ w, child.itemWidget = some w) ∧
      ∀ pluginId, root.children.countP (QTreeWidgetItem.hasPluginId pluginId) =
        if pluginId ∈ Notification.lastFavorites favorites.self.m_favorites ns ∧
            QTreeWidgetItem.hasItemFor pluginId plugins = true then 1 else 0 := by
  obtain ⟨kids, htree, hroot, _, hkids, hcount⟩ :=
    notified_mirrors plugins ns favorites.self.m_favorites
      (PluginBrowser.construct qt favorites plugins)
      (construct_mirrors qt favorites plugins) hfollow
  refine ⟨QTreeWidgetItem.mk "Favorites" false none kids, ?_, rfl, ?_, ?_⟩
  · unfold PluginBrowser.favoritesRoot
    rw [htree, hroot]
    simp
  · intro child hchild
    obtain ⟨item, w, _, _, hclone⟩ := hkids child hchild
    exact ⟨_, hclone ▸ (clone_setItemWidget_items item _).1⟩
  · intro pluginId
    rw [show (QTreeWidgetItem.mk "Favorites" false none kids).children = kids from rfl,
      hcount pluginId]

/-- Witness of C24 as amended: the example browser is constructed without
favourites; then `sine:1` becomes a favourite and is notified, and later it is
removed again and notified. -/
theorem favorites_section_mirrors_set_witness :
    Notification.FollowChanges demoNoFavorites.self.m_favorites
      [{ favorites := demoSineFavorite, pluginId := "sine:1" },
       { favorites := demoNoFavorites, pluginId := "sine:1" }] ∧
    ∃ root,
      ((PluginBrowser.construct demoQt demoNoFavorites demoPlugins).notified
        [{ favorites := demoSineFavorite, pluginId := "sine:1" },
         { favorites := demoNoFavorites, pluginId := "sine:1" }]).favoritesRoot = some root ∧
      root.text = "Favorites" ∧
      (∀ child ∈ root.children, ∃ w, child.itemWidget = some w) ∧
      ∀ pluginId, root.children.countP (QTreeWidgetItem.hasPluginId pluginId) =
        if pluginId ∈ Notification.lastFavorites demoNoFavorites.self.m_favorites
              [{ favorites := demoSineFavorite, pluginId := "sine:1" },
               { favorites := demoNoFavorites, pluginId := "sine:1" }] ∧
            QTreeWidgetItem.hasItemFor pluginId demoPlugins = true then 1 else 0 :=
  ⟨⟨Or.inl ⟨by decide, by decide⟩, Or.inr ⟨by decide, by decide⟩, trivial⟩,
    favorites_section_mirrors_set demoQt demoNoFavorites demoPlugins
      [{ favorites := demoSineFavorite, pluginId := "sine:1" },
       { favorites := demoNoFavorites, pluginId := "sine:1" }]
      ⟨Or.inl ⟨by decide, by decide⟩, Or.inr ⟨by decide, by decide⟩, trivial⟩⟩

/-! ### The favourites-only toggle -/

theorem demoBrowser_constructed :
    PluginBrowser.construct demoQt demoNoFavorites demoPlugins = demoBrowser := by
  simp [PluginBrowser.construct, PluginBrowser.createFavoritesSection,
    FavoritesManager.getFavorites, demoNoFavorites, demoQt, demoBrowser, demoPlugins]

theorem demoFavoriteBrowser_constructed :
    PluginBrowser.construct demoQt demoSineFavorite demoPlugins = demoFavoriteBrowser := by
  simp [PluginBrowser.construct, PluginBrowser.createFavoritesSection,
    FavoritesManager.getFavorites, demoSineFavorite, demoQt]
  rfl

/-- C24 as stated fails. The example browser was constructed while `sine:1` was
the only favourite, so its Favorites root has one child for `sine:1`. A further
notification `favoritesChanged("sine:1")` while `sine:1` still is a favourite
makes `onFavoritesChanged` append a second clone: the root then has two children
for `sine:1`. Such a notification reaches the slot when `addFavorite("sine:1")`
is called for the favourite and an insertion used as a condition counts as
true. -/
theorem favorites_section_duplicate_clone :
    PluginBrowser.construct demoQt demoSineFavorite demoPlugins = demoFavoriteBrowser ∧
    FavoritesManager.isFavorite "sine:1" demoSineFavorite = true ∧
    demoFavoriteBrowser.favoritesRoot.map
        (fun root => root.children.countP (QTreeWidgetItem.hasPluginId "sine:1")) = some 1 ∧
    (demoFavoriteBrowser.onFavoritesChanged demoSineFavorite "sine:1").favoritesRoot.map
        (fun root => root.children.countP (QTreeWidgetItem.hasPluginId "sine:1")) = some 2 ∧
    (BrowserState.call demoEagerQt (FavoritesCall.addFavorite "sine:1")
        { favorites := demoSineFavorite
          browser := demoFavoriteBrowser }).favorites.self.m_favorites = {"sine:1"} ∧
    (BrowserState.call demoEagerQt (FavoritesCall.addFavorite "sine:1")
        { favorites := demoSineFavorite
          browser := demoFavoriteBrowser }).browser.favoritesRoot.map
        (fun root => root.children.countP (QTreeWidgetItem.hasPluginId "sine:1")) = some 2 :=
  ⟨demoFavoriteBrowser_constructed, by decide, by decide, by decide, by decide, by decide⟩

/-- C23: the example browser is constructed on a tree with the plugins `sine:1`
and `saw:1` while there are no favourites. After `showFavoritesOnly(true)` the
flag is set, but the items of both plugins are still visible; only the empty
Favorites section is hidden. The same happens when the search text `si` was
entered first: the item of `sine:1`, not a favourite, stays visible. -/
theorem showFavoritesOnly_keeps_plugins_visible :
    PluginBrowser.construct demoQt demoNoFavorites demoPlugins = demoBrowser ∧
    FavoritesManager.isFavorite "sine:1" demoNoFavorites = false ∧
    FavoritesManager.isFavorite "saw:1" demoNoFavorites = false ∧
    (demoBrowser.showFavoritesOnly true).m_showFavoritesOnly = true ∧
    QTreeWidgetItem.flags (demoBrowser.showFavoritesOnly true).m_descTree =
      [(none, false), (some "sine:1", false), (some "saw:1", false), (none, true)] ∧
    QTreeWidgetItem.flags
        ((demoBrowser.onFilterChanged demoStr demoNoFavorites "si").showFavoritesOnly
          true).m_descTree =
      [(none, false), (some "sine:1", false), (some "saw:1", true), (none, true)] :=
  ⟨demoBrowser_constructed, by decide, by decide, rfl, by decide, by decide⟩

/-! ### A press on the favourite star -/

/-- C27: the widget of the favourite `sine:1` is 100 pixels wide, so `paintEvent`
draws the star into the columns 76 to 91 and the rows 4 to 19. A left press at
`(76, 10)`, inside that rectangle, does not toggle the favourite: the set is
unchanged, `update()` is not called, and a drag with the key `instrument` is
started. One column further right, at `(77, 10)`, the press toggles the
favourite and starts no drag. -/
theorem press_on_star_edge_starts_drag :
    PluginBrowser.construct demoQt demoSineFavorite demoPlugins = demoFavoriteBrowser ∧
    PluginDescWidget.paintedStar (PluginDescWidget.construct demoSineKey) 100
        demoSineFavorite = some (PluginDescWidget.starRect 100) ∧
    (PluginDescWidget.starRect 100).contains 76 10 = true ∧
    (PluginDescWidget.mousePressEvent demoQt (PluginDescWidget.construct demoSineKey) 100
        (demoLeftPress 76 10) demoFavoritePress).drags = [("instrument", "sine")] ∧
    (PluginDescWidget.mousePressEvent demoQt (PluginDescWidget.construct demoSineKey) 100
        (demoLeftPress 76 10) demoFavoritePress).dndPluginKey = some demoSineKey ∧
    (PluginDescWidget.mousePressEvent demoQt (PluginDescWidget.construct demoSineKey) 100
        (demoLeftPress 76 10) demoFavoritePress).updates = 0 ∧
    (PluginDescWidget.mousePressEvent demoQt (PluginDescWidget.construct demoSineKey) 100
        (demoLeftPress 76 10) demoFavoritePress).system.favorites.self.m_favorites =
      {"sine:1"} ∧
    (PluginDescWidget.mousePressEvent demoQt (PluginDescWidget.construct demoSineKey) 100
        (demoLeftPress 77 10) demoFavoritePress).drags = [] ∧
    (PluginDescWidget.mousePressEvent demoQt (PluginDescWidget.construct demoSineKey) 100
        (demoLeftPress 77 10) demoFavoritePress).updates = 1 ∧
    (PluginDescWidget.mousePressEvent demoQt (PluginDescWidget.construct demoSineKey) 100
        (demoLeftPress 77 10) demoFavoritePress).system.favorites.self.m_favorites = ∅ :=
  ⟨demoFavoriteBrowser_constructed, by decide, by decide, by decide, by decide, by decide,
    by decide, by decide, by decide, by decide⟩

end lmms.gui
